import Mathlib

/-!
Tax regime calculator: a shallow embedding.

The repository carries three copies of an income-tax calculator
(`Server/Server.js`, `Server/index.js`, `ai-engine/index.js`).  Each copy is
embedded in its own namespace, line by line.

Numbers are exact rationals: `0.05` is `5/100`, `Math.max`/`Math.min` are
`max`/`min` on `ℚ`, `Math.floor` is `Int.floor`, `Math.abs` is the absolute
value.  A JavaScript value that may be `undefined` or `NaN` is an `Option ℚ`
with `none` standing for it.

The namespaces `ServerJs`, `ServerIndex` and `AiEngine` compute in exact
arithmetic.  The namespace `ServerJsDouble` and the dashboard summary compute
as the language does, in doubles: a double is a rational with a 53-bit
significand, and `roundDouble` is the rounding every `+`, `-` and `*` applies
to its exact result.  Infinite values and `-0` are not modelled.
-/

/-- A deduction mapping as the evaluators read it: the entry stored under a
key, `none` when the key is absent (or holds `undefined`/`NaN`). -/
abbrev Claims := String → Option ℚ

/-- The JavaScript expression `v || 0` for a numeric or absent `v`: a falsy value
(absent, `NaN`, `0`) gives `0`, every other number is kept. -/
def orZero (v : Option ℚ) : ℚ :=
  match v with
  | some q => q
  | none => 0

/-- The mapping with no entry at all, the object `{}`. -/
def Claims.empty : Claims := fun _ => none

/-- The mapping `d` with the entry under key `k` set to the amount `v`. -/
def Claims.set (d : Claims) (k : String) (v : ℚ) : Claims :=
  fun key => if key = k then some v else d key

/-- A mapping all of whose amounts are non-negative. -/
def Claims.NonNeg (d : Claims) : Prop :=
  ∀ k q, d k = some q → 0 ≤ q

/-- The `tax_comparison` object a tax-analysis handler reports. -/
structure TaxComparison where
  old_regime_tax : ℤ
  new_regime_tax : ℤ
  savings : ℤ
  recommendation : String
  deriving DecidableEq, Repr

/-- The numeric fields of the parsed AI reply (`aiData`); a field the reply
leaves out is `none`. -/
structure AiData where
  total_income : Option ℚ := none
  deductions_80c : Option ℚ := none
  deductions_80d : Option ℚ := none
  deductions_24b : Option ℚ := none
  deductions_80ccd : Option ℚ := none
  deductions_80g : Option ℚ := none
  deductions_80tta : Option ℚ := none
  deductions_80e : Option ℚ := none
  hra_exemption : Option ℚ := none

namespace ServerJs

/-- The function `calculateNewRegime` of `Server/Server.js` (lines 77-86). -/
def calculateNewRegime (income : ℚ) : ℚ :=
  let taxable := max 0 (income - 75000)
  if taxable ≤ 400000 then 0
  else if taxable ≤ 800000 then (taxable - 400000) * (5 / 100)
  else if taxable ≤ 1200000 then 20000 + (taxable - 800000) * (10 / 100)
  else if taxable ≤ 1600000 then 60000 + (taxable - 1200000) * (15 / 100)
  else if taxable ≤ 2000000 then 120000 + (taxable - 1600000) * (20 / 100)
  else if taxable ≤ 2400000 then 200000 + (taxable - 2000000) * (25 / 100)
  else 300000 + (taxable - 2400000) * (30 / 100)

/-- The local constant `totalDeductions` of `calculateOldRegime` in
`Server/Server.js` (lines 89-95). -/
def totalDeductions (deductions : Claims) : ℚ :=
  let sec80c := min (orZero (deductions "80c")) 150000
  let sec80d := min (orZero (deductions "80d")) 25000
  let sec24b := min (orZero (deductions "24b")) 200000
  let sec80tta := min (orZero (deductions "80tta")) 10000
  let sec80ccd := min (orZero (deductions "80ccd")) 50000
  let others := orZero (deductions "80g") + orZero (deductions "80e") + orZero (deductions "hra")
  sec80c + sec80d + sec24b + sec80tta + sec80ccd + others

/-- The function `calculateOldRegime` of `Server/Server.js` (lines 88-101). -/
def calculateOldRegime (income : ℚ) (deductions : Claims) : ℚ :=
  let sec80c := min (orZero (deductions "80c")) 150000
  let sec80d := min (orZero (deductions "80d")) 25000
  let sec24b := min (orZero (deductions "24b")) 200000
  let sec80tta := min (orZero (deductions "80tta")) 10000
  let sec80ccd := min (orZero (deductions "80ccd")) 50000
  let others := orZero (deductions "80g") + orZero (deductions "80e") + orZero (deductions "hra")
  let totalDeductions := sec80c + sec80d + sec24b + sec80tta + sec80ccd + others
  let taxable := max 0 (income - 50000 - totalDeductions)
  if taxable ≤ 250000 then 0
  else if taxable ≤ 500000 then (taxable - 250000) * (5 / 100)
  else if taxable ≤ 1000000 then 12500 + (taxable - 500000) * (20 / 100)
  else 112500 + (taxable - 1000000) * (30 / 100)

/-- The object `deductionMap` the `/analyze-tax` handler of `Server/Server.js`
builds (line 251).  Its fourth entry, `sources`, holds the list of findings and
no amount; no evaluator reads it, and the mapping of amounts leaves it out. -/
def deductionMap (aiData : AiData) : Claims :=
  fun key =>
    if key = "80c" then aiData.deductions_80c
    else if key = "80d" then aiData.deductions_80d
    else if key = "hra" then aiData.hra_exemption
    else none

/-- Lines 252-261 of `Server/Server.js`: the two floored taxes, their absolute
difference and the recommendation. -/
def taxComparison (income : ℚ) (deductionMap : Claims) : TaxComparison :=
  let taxNew := Int.floor (calculateNewRegime income)
  let taxOld := Int.floor (calculateOldRegime income deductionMap)
  { old_regime_tax := taxOld
    new_regime_tax := taxNew
    savings := |taxNew - taxOld|
    recommendation := if taxNew ≤ taxOld then "New Regime" else "Old Regime" }

/-- The `/analyze-tax` handler of `Server/Server.js` on a cache miss (lines
239-276), as a function of the number of transactions found and of the parsed
AI reply (`none` when the AI call or `JSON.parse` throws).  The result is the
HTTP status with the error text, or the `tax_comparison` that is sent. -/
def analyzeTax (rawTxns : ℕ) (reply : Option AiData) : Except (ℕ × String) TaxComparison :=
  if rawTxns = 0 then .error (404, "No transactions found")
  else
    match reply with
    | none => .error (500, "AI Service Failed")
    | some aiData =>
      let income := orZero aiData.total_income
      .ok (taxComparison income (deductionMap aiData))

end ServerJs

namespace ServerIndex

/-- The function `calculateNewRegime` of `Server/index.js` (lines 81-90). -/
def calculateNewRegime (income : ℚ) : ℚ :=
  let taxable := max 0 (income - 75000)
  if taxable ≤ 400000 then 0
  else if taxable ≤ 800000 then (taxable - 400000) * (5 / 100)
  else if taxable ≤ 1200000 then 20000 + (taxable - 800000) * (10 / 100)
  else if taxable ≤ 1600000 then 60000 + (taxable - 1200000) * (15 / 100)
  else if taxable ≤ 2000000 then 120000 + (taxable - 1600000) * (20 / 100)
  else if taxable ≤ 2400000 then 200000 + (taxable - 2000000) * (25 / 100)
  else 300000 + (taxable - 2400000) * (30 / 100)

/-- The function `calculateOldRegime` of `Server/index.js` (lines 92-102). -/
def calculateOldRegime (income : ℚ) (deductions : Claims) : ℚ :=
  let sec80c := min (orZero (deductions "80c")) 150000
  let sec80d := min (orZero (deductions "80d")) 25000
  let sec24b := min (orZero (deductions "24b")) 200000
  let totalDeductions := sec80c + sec80d + sec24b + orZero (deductions "hra")
  let taxable := max 0 (income - 50000 - totalDeductions)
  if taxable ≤ 250000 then 0
  else if taxable ≤ 500000 then (taxable - 250000) * (5 / 100)
  else if taxable ≤ 1000000 then 12500 + (taxable - 500000) * (20 / 100)
  else 112500 + (taxable - 1000000) * (30 / 100)

/-- The object `deductionMap` the `/api/analyze-tax` handler of
`Server/index.js` builds (line 173). -/
def deductionMap (aiData : AiData) : Claims :=
  fun key =>
    if key = "80c" then aiData.deductions_80c
    else if key = "80d" then aiData.deductions_80d
    else if key = "24b" then aiData.deductions_24b
    else if key = "hra" then aiData.hra_exemption
    else none

/-- Lines 175-184 of `Server/index.js`: the two floored taxes, their absolute
difference and the recommendation, as stored in the tax record. -/
def taxComparison (income : ℚ) (deductionMap : Claims) : TaxComparison :=
  let taxNew := Int.floor (calculateNewRegime income)
  let taxOld := Int.floor (calculateOldRegime income deductionMap)
  { old_regime_tax := taxOld
    new_regime_tax := taxNew
    savings := |taxNew - taxOld|
    recommendation := if taxNew ≤ taxOld then "New Regime" else "Old Regime" }

end ServerIndex

/-- JavaScript `Math.min` on two numbers, `none` standing for `NaN` (and for
`undefined`, which converts to `NaN`). -/
def jsMin (a b : Option ℚ) : Option ℚ :=
  match a, b with
  | some x, some y => some (min x y)
  | _, _ => none

/-- JavaScript `Math.max` on two numbers, `none` standing for `NaN`. -/
def jsMax (a b : Option ℚ) : Option ℚ :=
  match a, b with
  | some x, some y => some (max x y)
  | _, _ => none

/-- JavaScript `a - b` on numbers, `none` standing for `NaN`. -/
def jsSub (a b : Option ℚ) : Option ℚ :=
  match a, b with
  | some x, some y => some (x - y)
  | _, _ => none

/-- JavaScript `a + b` on numbers, `none` standing for `NaN`. -/
def jsAdd (a b : Option ℚ) : Option ℚ :=
  match a, b with
  | some x, some y => some (x + y)
  | _, _ => none

/-- JavaScript `a * b` on numbers, `none` standing for `NaN`. -/
def jsMul (a b : Option ℚ) : Option ℚ :=
  match a, b with
  | some x, some y => some (x * y)
  | _, _ => none

/-- JavaScript `a <= b` on numbers: false as soon as one side is `NaN`. -/
def jsLe (a b : Option ℚ) : Bool :=
  match a, b with
  | some x, some y => decide (x ≤ y)
  | _, _ => false

/-- The `tax_comparison` object of the `ai-engine` handler: its old-regime tax
and savings are `none` when the evaluator produced `NaN`. -/
structure NanTaxComparison where
  old_regime_tax : Option ℤ
  new_regime_tax : ℤ
  savings : Option ℤ
  recommendation : String
  deriving DecidableEq, Repr

namespace AiEngine

/-- The function `calculateNewRegime` of `ai-engine/index.js` (lines 24-33). -/
def calculateNewRegime (income : ℚ) : ℚ :=
  let taxable := max 0 (income - 75000)
  if taxable ≤ 400000 then 0
  else if taxable ≤ 800000 then (taxable - 400000) * (5 / 100)
  else if taxable ≤ 1200000 then 20000 + (taxable - 800000) * (10 / 100)
  else if taxable ≤ 1600000 then 60000 + (taxable - 1200000) * (15 / 100)
  else if taxable ≤ 2000000 then 120000 + (taxable - 1600000) * (20 / 100)
  else if taxable ≤ 2400000 then 200000 + (taxable - 2000000) * (25 / 100)
  else 300000 + (taxable - 2400000) * (30 / 100)

/-- The function `calculateOldRegime` of `ai-engine/index.js` (lines 35-42).
The two deductions arrive unguarded, so each may be `undefined` (`none`); the
result is `none` when it is `NaN`. -/
def calculateOldRegime (income : ℚ) (ded80c ded80d : Option ℚ) : Option ℚ :=
  let capped80c := jsMin ded80c (some 150000)
  let taxable := jsMax (some 0) (jsSub (jsSub (some (income - 50000)) capped80c) ded80d)
  if jsLe taxable (some 250000) then some 0
  else if jsLe taxable (some 500000) then jsMul (jsSub taxable (some 250000)) (some (5 / 100))
  else if jsLe taxable (some 1000000) then
    jsAdd (some 12500) (jsMul (jsSub taxable (some 500000)) (some (20 / 100)))
  else jsAdd (some 112500) (jsMul (jsSub taxable (some 1000000)) (some (30 / 100)))

/-- Lines 127-143 of `ai-engine/index.js`: the floored taxes, their absolute
difference and the recommendation; `taxNew <= taxOld` is false when `taxOld` is
`NaN`. -/
def taxComparison (income : ℚ) (ded80c ded80d : Option ℚ) : NanTaxComparison :=
  let taxNew := Int.floor (calculateNewRegime income)
  let taxOld := (calculateOldRegime income ded80c ded80d).map Int.floor
  { old_regime_tax := taxOld
    new_regime_tax := taxNew
    savings := taxOld.map (fun o => |taxNew - o|)
    recommendation :=
      (match taxOld with
        | some o => if taxNew ≤ o then "New Regime" else "Old Regime"
        | none => "Old Regime") }

end AiEngine

/-- The part of the taxable income `t` lying inside the band that starts at
`lo` and ends at `hi` (`none` for the open top band): the reference notion the
band tables are read against. -/
def bandPart (lo : ℚ) (hi : Option ℚ) (t : ℚ) : ℚ :=
  match hi with
  | some h => max 0 (min t h - lo)
  | none => max 0 (t - lo)

/-- The marginal-sum reference tax: the sum over all bands `(lo, hi, rate)` of
the band rate times the part of `t` lying inside the band. -/
def marginalTax (bands : List (ℚ × Option ℚ × ℚ)) (t : ℚ) : ℚ :=
  (bands.map fun b => b.2.2 * bandPart b.1 b.2.1 t).sum

/-- The new-regime bands of the specification: edges 400000, 800000, 1200000,
1600000, 2000000, 2400000 and rates 0, 5, 10, 15, 20, 25, 30 percent. -/
def newRegimeBands : List (ℚ × Option ℚ × ℚ) :=
  [(0, some 400000, 0), (400000, some 800000, 5 / 100), (800000, some 1200000, 10 / 100),
   (1200000, some 1600000, 15 / 100), (1600000, some 2000000, 20 / 100),
   (2000000, some 2400000, 25 / 100), (2400000, none, 30 / 100)]

/-- The old-regime bands of the specification: edges 250000, 500000, 1000000
and rates 0, 5, 20, 30 percent. -/
def oldRegimeBands : List (ℚ × Option ℚ × ℚ) :=
  [(0, some 250000, 0), (250000, some 500000, 5 / 100), (500000, some 1000000, 20 / 100),
   (1000000, none, 30 / 100)]

/-- The outcome of one `axios.post` attempt of `callGeminiWithRetry`: a
response, or an error carrying the HTTP status of `error.response` (`none` when
the error has no response). -/
inductive PostOutcome where
  | response (body : String)
  | failure (status : Option ℕ)
  deriving DecidableEq, Repr

/-- What `callGeminiWithRetry` throws: the error of an attempt, thrown again, or
the new error with its message. -/
inductive RetryError where
  | rethrown (status : Option ℕ)
  | rateLimit (message : String)
  deriving DecidableEq, Repr

/-- One run of `callGeminiWithRetry`: what it returns or throws, the number of
POST attempts made and the delays waited, in milliseconds, in order. -/
structure RetryRun where
  result : Except RetryError String
  attempts : ℕ
  delays : List ℕ

/-- A stored `TaxRecord` document (`TaxSchema` of `Server/Server.js`, line 50);
the timestamp is in milliseconds.  The text fields (detected deductions,
suggestion, tips) play no part in the comparison and are left out. -/
structure TaxRecord where
  userId : String
  totalIncome : ℚ
  oldRegimeTax : ℤ
  newRegimeTax : ℤ
  savings : ℤ
  recommendation : String
  timestamp : ℤ
  deriving DecidableEq, Repr

/-- The body the `/analyze-tax` handler of `Server/Server.js` sends: the
`total_income` of `analysis` and the `tax_comparison`. -/
structure TaxResponse where
  total_income : ℚ
  tax_comparison : TaxComparison
  deriving DecidableEq, Repr

/-- One run of the `/analyze-tax` handler of `Server/Server.js`: the answer,
the store of tax records afterwards and the number of AI calls made. -/
structure HandlerRun where
  response : Except (ℕ × String) TaxResponse
  store : List TaxRecord
  aiCalls : ℕ

namespace ServerJs

/-- The loop of `callGeminiWithRetry` (`Server/Server.js`, lines 60-73) from
the attempt with index `i` on, with `remaining = retries - i` iterations left;
`post i` is the outcome of the attempt with index `i`. -/
def retryFrom (post : ℕ → PostOutcome) : ℕ → ℕ → List ℕ → RetryRun
  | 0, i, delays =>
    { result := .error (.rateLimit "Gemini API Rate Limit Exceeded after retries.")
      attempts := i
      delays := delays }
  | remaining + 1, i, delays =>
    match post i with
    | .response body => { result := .ok body, attempts := i + 1, delays := delays }
    | .failure status =>
      if status = some 429 then
        retryFrom post remaining (i + 1) (delays ++ [2000 * (i + 1)])
      else { result := .error (.rethrown status), attempts := i + 1, delays := delays }

/-- The function `callGeminiWithRetry` of `Server/Server.js` (lines 59-74) as a
function of the outcomes of its POST attempts; `retries` is 3 by default. -/
def callGeminiWithRetry (post : ℕ → PostOutcome) (retries : ℕ) : RetryRun :=
  retryFrom post retries 0 []

/-- The result of `sort({ timestamp: -1 })` followed by taking the first
document: a record of the list with the greatest timestamp (of several, the one
stored first), `none` for the empty list. -/
def mostRecent : List TaxRecord → Option TaxRecord
  | [] => none
  | r :: rs =>
    match mostRecent rs with
    | none => some r
    | some b => if b.timestamp ≤ r.timestamp then some r else some b

/-- The cache lookup of the `/analyze-tax` handler (`Server/Server.js`, line
230): `TaxRecord.findOne` for the user with `timestamp >= now - 86400000`,
sorted by descending timestamp. -/
def findCache (store : List TaxRecord) (userId : String) (now : ℤ) : Option TaxRecord :=
  mostRecent (store.filter fun r => r.userId = userId ∧ now - 86400000 ≤ r.timestamp)

/-- The `/analyze-tax` handler of `Server/Server.js` (lines 225-277) as a
function of the store, the clock at the cache lookup (`now`) and at the
creation of the new record (`created`), the user, the number of transactions
found and the parsed AI reply (`none` when the AI call or `JSON.parse`
throws). -/
def analyzeTaxRequest (store : List TaxRecord) (now created : ℤ) (userId : String)
    (rawTxns : ℕ) (reply : Option AiData) : HandlerRun :=
  match findCache store userId now with
  | some cache =>
    { response := .ok
        { total_income := cache.totalIncome
          tax_comparison :=
            { old_regime_tax := cache.oldRegimeTax
              new_regime_tax := cache.newRegimeTax
              savings := cache.savings
              recommendation := cache.recommendation } }
      store := store
      aiCalls := 0 }
  | none =>
    if rawTxns = 0 then
      { response := .error (404, "No transactions found"), store := store, aiCalls := 0 }
    else
      match reply with
      | none => { response := .error (500, "AI Service Failed"), store := store, aiCalls := 1 }
      | some aiData =>
        let income := orZero aiData.total_income
        let deductionMap := ServerJs.deductionMap aiData
        let taxNew := Int.floor (calculateNewRegime income)
        let taxOld := Int.floor (calculateOldRegime income deductionMap)
        let taxEntry : TaxRecord :=
          { userId := userId
            totalIncome := income
            oldRegimeTax := taxOld
            newRegimeTax := taxNew
            savings := |taxNew - taxOld|
            recommendation := if taxNew ≤ taxOld then "New Regime" else "Old Regime"
            timestamp := created }
        { response := .ok
            { total_income := income
              tax_comparison :=
                { old_regime_tax := taxOld
                  new_regime_tax := taxNew
                  savings := taxEntry.savings
                  recommendation := taxEntry.recommendation } }
          store := store ++ [taxEntry]
          aiCalls := 1 }

end ServerJs

/-- What the AI step of the `ai-engine` handler yields: no text at all (the
call and its fallback both fail), a text that `JSON.parse` rejects, or a parsed
object. -/
inductive AiText where
  | unavailable
  | unparseable
  | parsed (aiData : AiData)

/-- The body the `ai-engine` handler sends: the income, the two detected
deductions as the AI gave them and the `tax_comparison`. -/
structure AiEngineResponse where
  total_income : ℚ
  detected_80c : Option ℚ
  detected_80d : Option ℚ
  tax_comparison : NanTaxComparison
  deriving DecidableEq, Repr

namespace AiEngine

/-- The `/analyze-tax` handler of `ai-engine/index.js` (lines 75-151) as a
function of the user id of the request (`none` or empty when missing), the
number of transactions found and the outcome of the AI step. -/
def analyzeTax (userId : Option String) (rawTxns : ℕ) (reply : AiText) :
    Except (ℕ × String) AiEngineResponse :=
  if userId = none ∨ userId = some "" then .error (400, "User ID required")
  else if rawTxns = 0 then .error (404, "No transactions found")
  else
    match reply with
    | .unavailable => .error (500, "Service Error")
    | .unparseable =>
      let aiData : AiData :=
        { total_income := some 0, deductions_80c := some 0, deductions_80d := some 0 }
      let income := orZero aiData.total_income
      .ok { total_income := income
            detected_80c := aiData.deductions_80c
            detected_80d := aiData.deductions_80d
            tax_comparison := taxComparison income aiData.deductions_80c aiData.deductions_80d }
    | .parsed aiData =>
      let income := orZero aiData.total_income
      .ok { total_income := income
            detected_80c := aiData.deductions_80c
            detected_80d := aiData.deductions_80d
            tax_comparison := taxComparison income aiData.deductions_80c aiData.deductions_80d }

end AiEngine

/-- Rounding of a rational to the nearest integer, a tie going to the even
neighbour. -/
def roundHalfEven (q : ℚ) : ℤ :=
  if q - ⌊q⌋ < 1 / 2 then ⌊q⌋
  else if 1 / 2 < q - ⌊q⌋ then ⌊q⌋ + 1
  else if ⌊q⌋ % 2 = 0 then ⌊q⌋ else ⌊q⌋ + 1

/-- The double nearest to a rational, a tie going to the even significand
(IEEE 754 binary64, round to nearest even): the number is scaled so that its
magnitude lies in `[2 ^ 52, 2 ^ 53)`, rounded to an integer and scaled back.  A
JavaScript number is a double, and every arithmetic operation of the language
returns the rounding of its exact result.  The exponent is not bounded here:
the model is that of the language for magnitudes from `2 ^ (-1022)` to below
`2 ^ 1024`, where no result is subnormal or infinite. -/
def roundDouble (x : ℚ) : ℚ :=
  if x = 0 then 0
  else (roundHalfEven (x / 2 ^ (Int.log 2 |x| - 52)) : ℚ) * 2 ^ (Int.log 2 |x| - 52)

namespace ServerJsDouble

/-- The function `calculateNewRegime` of `Server/Server.js` (lines 77-86) in
the arithmetic of the language: each `-`, `*` and `+` returns the double
nearest to its exact result, a literal such as `0.05` is the double nearest to
5/100, and the whole-number literals, `Math.max` and the comparisons are
exact. -/
def calculateNewRegime (income : ℚ) : ℚ :=
  let taxable := max 0 (roundDouble (income - 75000))
  if taxable ≤ 400000 then 0
  else if taxable ≤ 800000 then
    roundDouble (roundDouble (taxable - 400000) * roundDouble (5 / 100))
  else if taxable ≤ 1200000 then
    roundDouble (20000 + roundDouble (roundDouble (taxable - 800000) * roundDouble (10 / 100)))
  else if taxable ≤ 1600000 then
    roundDouble (60000 + roundDouble (roundDouble (taxable - 1200000) * roundDouble (15 / 100)))
  else if taxable ≤ 2000000 then
    roundDouble (120000 + roundDouble (roundDouble (taxable - 1600000) * roundDouble (20 / 100)))
  else if taxable ≤ 2400000 then
    roundDouble (200000 + roundDouble (roundDouble (taxable - 2000000) * roundDouble (25 / 100)))
  else
    roundDouble (300000 + roundDouble (roundDouble (taxable - 2400000) * roundDouble (30 / 100)))

/-- The local constant `totalDeductions` of `calculateOldRegime` in
`Server/Server.js` (lines 89-95) in the arithmetic of the language: the sums
associate to the left and each `+` rounds; `Math.min` is exact. -/
def totalDeductions (deductions : Claims) : ℚ :=
  let sec80c := min (orZero (deductions "80c")) 150000
  let sec80d := min (orZero (deductions "80d")) 25000
  let sec24b := min (orZero (deductions "24b")) 200000
  let sec80tta := min (orZero (deductions "80tta")) 10000
  let sec80ccd := min (orZero (deductions "80ccd")) 50000
  let others := roundDouble (roundDouble (orZero (deductions "80g") + orZero (deductions "80e"))
    + orZero (deductions "hra"))
  roundDouble (roundDouble (roundDouble (roundDouble (roundDouble (sec80c + sec80d) + sec24b)
    + sec80tta) + sec80ccd) + others)

/-- The function `calculateOldRegime` of `Server/Server.js` (lines 88-101) in
the arithmetic of the language; `income - 50000 - totalDeductions` is two
rounded subtractions, from the left. -/
def calculateOldRegime (income : ℚ) (deductions : Claims) : ℚ :=
  let taxable := max 0 (roundDouble (roundDouble (income - 50000) - totalDeductions deductions))
  if taxable ≤ 250000 then 0
  else if taxable ≤ 500000 then
    roundDouble (roundDouble (taxable - 250000) * roundDouble (5 / 100))
  else if taxable ≤ 1000000 then
    roundDouble (12500 + roundDouble (roundDouble (taxable - 500000) * roundDouble (20 / 100)))
  else
    roundDouble (112500 + roundDouble (roundDouble (taxable - 1000000) * roundDouble (30 / 100)))

end ServerJsDouble

/-- A transaction as the dashboard reads it: `amount` is `Number(t.amount)` and
`floatAmount` is `parseFloat(String(t.amount).replace(/,/g, ''))`, a finite
double or `none` for `NaN`; `type` and `category` are the fields of these
names, `none` when the field is missing (or falsy, for `category`, which is a
property key and so taken as a string); `descriptionLower` is
`(t.description || "").toLowerCase()`, the lower-casing being that of the
language. -/
structure Transaction where
  amount : Option ℚ
  floatAmount : Option ℚ
  type : Option String
  category : Option String
  descriptionLower : String
  deriving DecidableEq, Repr

/-- A value held by `categoryMap`: a number, or a piece of text.  Text arises
when the `+` of `(categoryMap[cat] || 0) + Math.abs(amt)` meets an operand that
is no number, and is then the concatenation of the two operands as strings;
the characters of the text are not modelled. -/
inductive ChartValue where
  | number (q : ℚ)
  | text
  deriving DecidableEq, Repr

/-- One slice of the dashboard's pie chart. -/
structure ChartEntry where
  name : String
  value : ChartValue
  deriving DecidableEq, Repr

/-- The value of the dashboard's `summary`. -/
structure Summary where
  income : ℚ
  expense : ℚ
  balance : ℚ
  chartData : List ChartEntry
  fraudList : List (Transaction × String)
  deriving DecidableEq, Repr

/-- The variables the `forEach` of `summary` updates; `categoryMap` holds the
own properties of the object in the order of their creation. -/
structure SummaryState where
  income : ℚ
  expense : ℚ
  categoryMap : List (String × ChartValue)
  fraudList : List (Transaction × String)
  deriving DecidableEq, Repr

namespace Dashboard

/-- The constant `HIGH_VALUE_THRESHOLD` of `Dashboard.jsx`. -/
def HIGH_VALUE_THRESHOLD : ℚ := 5000

/-- The constant `SUSPICIOUS_KEYWORDS` of `Dashboard.jsx`. -/
def SUSPICIOUS_KEYWORDS : List String :=
  ["bet", "casino", "crypto", "dream11", "unknown", "cash", "loan"]

/-- The function `checkFraudRisk` of `Dashboard.jsx` (lines 19-29): the list of
flags, `none` when there is none.  `includes` is the test for a contiguous run
of characters. -/
def checkFraudRisk (transaction : Transaction) : Option (List String) :=
  let amt := transaction.floatAmount.map fun x => |x|
  let desc := transaction.descriptionLower
  let high : List String :=
    match amt with
    | some a => if a > HIGH_VALUE_THRESHOLD then ["High Value"] else []
    | none => []
  let flags := high ++
    (SUSPICIOUS_KEYWORDS.filter fun word => decide (word.data <:+: desc.data)).map
      fun word => "Suspicious: \"" ++ word ++ "\""
  if flags.length > 0 then some flags else none

/-- The property names every object literal `{}` inherits from
`Object.prototype`: a read of `categoryMap[name]` finds a function under each
of them (the prototype object itself under `__proto__`) before any own property
of that name exists. -/
def objectPrototypeNames : List String :=
  ["constructor", "__defineGetter__", "__defineSetter__", "hasOwnProperty",
   "__lookupGetter__", "__lookupSetter__", "isPrototypeOf", "propertyIsEnumerable",
   "toString", "valueOf", "__proto__", "toLocaleString"]

/-- The sum `(value || 0) + v` for the value of an own property: the rounded
sum for a number (`0 || 0` is `0`), text for text. -/
def plusAmount (value : ChartValue) (v : ℚ) : ChartValue :=
  match value with
  | .number q => .number (roundDouble (q + v))
  | .text => .text

/-- The assignment `categoryMap[cat] = (categoryMap[cat] || 0) + v` of
`Dashboard.jsx` (line 82) on the own properties of `categoryMap`.  When there
is no own property `cat`, the read finds `undefined` and the sum is `0 + v`,
unless `cat` is a name inherited from `Object.prototype`: the read then finds a
function or an object, the sum is text, and the assignment creates the own
property with that text, except under `__proto__`, where the assignment calls
the inherited setter, which ignores a value that is no object, and creates
nothing. -/
def addToCategory (categoryMap : List (String × ChartValue)) (cat : String) (v : ℚ) :
    List (String × ChartValue) :=
  match categoryMap with
  | [] =>
    if cat = "__proto__" then []
    else if cat ∈ objectPrototypeNames then [(cat, .text)]
    else [(cat, .number (roundDouble (0 + v)))]
  | (key, value) :: rest =>
    if key = cat then (key, plusAmount value v) :: rest
    else (key, value) :: addToCategory rest cat v

/-- The category an expense is booked under: `t.category || "Uncategorized"`. -/
def categoryOf (t : Transaction) : String :=
  match t.category with
  | some c => if c = "" then "Uncategorized" else c
  | none => "Uncategorized"

/-- The body of the `forEach` of `summary` (`Dashboard.jsx`, lines 72-84); each
`+=` rounds its sum to a double. -/
def summaryStep (s : SummaryState) (t : Transaction) : SummaryState :=
  match t.amount with
  | none => s
  | some amt =>
    let fraudList :=
      match checkFraudRisk t with
      | some risks => s.fraudList ++ [(t, ", ".intercalate risks)]
      | none => s.fraudList
    if t.type = some "income" ∨ amt > 0 then
      { income := roundDouble (s.income + amt)
        expense := s.expense
        categoryMap := s.categoryMap
        fraudList := fraudList }
    else
      { income := s.income
        expense := roundDouble (s.expense + |amt|)
        categoryMap := addToCategory s.categoryMap (categoryOf t) |amt|
        fraudList := fraudList }

/-- The array index a property key stands for: a key is an array index when it
is the decimal numeral, with no leading zero, of a number below `2 ^ 32 - 1`. -/
def arrayIndex (key : String) : Option ℕ :=
  if key.data ≠ [] ∧ key.data.all Char.isDigit
      ∧ (key.data.head? ≠ some '0' ∨ key.data.length = 1) then
    let n := key.data.foldl (fun n c => n * 10 + (c.toNat - '0'.toNat)) 0
    if n < 4294967295 then some n else none
  else none

/-- The entries `Object.keys(categoryMap)` visits (`Dashboard.jsx`, line 86):
the own properties whose key is an array index first, by ascending index, then
the other own properties in the order of their creation. -/
def objectKeys (categoryMap : List (String × ChartValue)) : List (String × ChartValue) :=
  ((categoryMap.filter fun kv => (arrayIndex kv.1).isSome).insertionSort
      fun a b => (arrayIndex a.1).getD 0 ≤ (arrayIndex b.1).getD 0)
    ++ categoryMap.filter fun kv => !(arrayIndex kv.1).isSome

/-- The comparator `(a, b) => b.value - a.value` of the `sort` of line 86.  The
difference of two numbers is rounded; with text as an operand the difference is
`NaN`, which `sort` takes as 0. -/
def compareFn (a b : ChartEntry) : ℚ :=
  match a.value, b.value with
  | .number x, .number y => roundDouble (y - x)
  | _, _ => 0

/-- The value `summary` of `Dashboard.jsx` (lines 67-88).  `sort` is stable: an
entry stays before a later one unless the comparator is positive, which is the
insertion sort below whenever the comparator is a consistent order, that is
whenever no value is text.  With text among the values the language leaves the
order of the result to the implementation; the insertion sort is then one
possible result. -/
def summary (transactions : List Transaction) : Summary :=
  if transactions.length = 0 then
    { income := 0, expense := 0, balance := 0, chartData := [], fraudList := [] }
  else
    let s := transactions.foldl summaryStep
      { income := 0, expense := 0, categoryMap := [], fraudList := [] }
    let chartData :=
      ((objectKeys s.categoryMap).map
        fun kv => ({ name := kv.1, value := kv.2 } : ChartEntry)).insertionSort
        fun a b => compareFn a b ≤ 0
    { income := s.income
      expense := s.expense
      balance := roundDouble (s.income - s.expense)
      chartData := chartData
      fraudList := s.fraudList }

end Dashboard

/-- Claim C1: for every gross income `x`, `calculateNewRegime x` is the 7-band
table applied to `t = max 0 (x - 75000)`: `0` up to 400000, then
`(t-400000)*0.05`, `20000+(t-800000)*0.10`, `60000+(t-1200000)*0.15`,
`120000+(t-1600000)*0.20`, `200000+(t-2000000)*0.25`, and
`300000+(t-2400000)*0.30` above 2400000. -/
theorem calculateNewRegime_band_table (x : ℚ) :
    (max 0 (x - 75000) ≤ 400000 → ServerJs.calculateNewRegime x = 0) ∧
    (400000 < max 0 (x - 75000) ∧ max 0 (x - 75000) ≤ 800000 →
      ServerJs.calculateNewRegime x = (max 0 (x - 75000) - 400000) * (5 / 100)) ∧
    (800000 < max 0 (x - 75000) ∧ max 0 (x - 75000) ≤ 1200000 →
      ServerJs.calculateNewRegime x = 20000 + (max 0 (x - 75000) - 800000) * (10 / 100)) ∧
    (1200000 < max 0 (x - 75000) ∧ max 0 (x - 75000) ≤ 1600000 →
      ServerJs.calculateNewRegime x = 60000 + (max 0 (x - 75000) - 1200000) * (15 / 100)) ∧
    (1600000 < max 0 (x - 75000) ∧ max 0 (x - 75000) ≤ 2000000 →
      ServerJs.calculateNewRegime x = 120000 + (max 0 (x - 75000) - 1600000) * (20 / 100)) ∧
    (2000000 < max 0 (x - 75000) ∧ max 0 (x - 75000) ≤ 2400000 →
      ServerJs.calculateNewRegime x = 200000 + (max 0 (x - 75000) - 2000000) * (25 / 100)) ∧
    (2400000 < max 0 (x - 75000) →
      ServerJs.calculateNewRegime x = 300000 + (max 0 (x - 75000) - 2400000) * (30 / 100)) := by
  unfold ServerJs.calculateNewRegime
  simp only []
  generalize max 0 (x - 75000) = t
  refine ⟨?_, ?_, ?_, ?_, ?_, ?_, ?_⟩
  · intro h; simp [h]
  · rintro ⟨h1, h2⟩; rw [if_neg (not_le.mpr h1), if_pos h2]
  · rintro ⟨h1, h2⟩
    rw [if_neg (by linarith), if_neg (by linarith), if_pos h2]
  · rintro ⟨h1, h2⟩
    rw [if_neg (by linarith), if_neg (by linarith), if_neg (by linarith), if_pos h2]
  · rintro ⟨h1, h2⟩
    rw [if_neg (by linarith), if_neg (by linarith), if_neg (by linarith), if_neg (by linarith),
      if_pos h2]
  · rintro ⟨h1, h2⟩
    rw [if_neg (by linarith), if_neg (by linarith), if_neg (by linarith), if_neg (by linarith),
      if_neg (by linarith), if_pos h2]
  · intro h1
    rw [if_neg (by linarith), if_neg (by linarith), if_neg (by linarith), if_neg (by linarith),
      if_neg (by linarith), if_neg (by linarith)]

/-- The old-regime tax of `Server/Server.js` depends on the income and the
mapping only through `income - totalDeductions`. -/
theorem ServerJs.calculateOldRegime_congr (x x' : ℚ) (d d' : Claims)
    (h : x - ServerJs.totalDeductions d = x' - ServerJs.totalDeductions d') :
    ServerJs.calculateOldRegime x d = ServerJs.calculateOldRegime x' d' := by
  have ht : max 0 (x - 50000 - ServerJs.totalDeductions d)
      = max 0 (x' - 50000 - ServerJs.totalDeductions d') := by
    congr 1
    linarith
  unfold ServerJs.totalDeductions at ht
  unfold ServerJs.calculateOldRegime
  simp only [] at ht ⊢
  rw [ht]

/-- Claim C2: for every gross income `x` and mapping `d`, with `D` the sum of
the five capped categories (`80c` at 150000, `80d` at 25000, `24b` at 200000,
`80tta` at 10000, `80ccd` at 50000) and of `80g`, `80e`, `hra`, absent entries
counting as 0, and `t = max 0 (x - 50000 - D)`, `calculateOldRegime x d` is the
4-band table at `t`: `0` up to 250000, `(t-250000)*0.05` up to 500000,
`12500+(t-500000)*0.20` up to 1000000, `112500+(t-1000000)*0.30` above. -/
theorem calculateOldRegime_band_table (x : ℚ) (d : Claims) (D t : ℚ)
    (hD : D = min (orZero (d "80c")) 150000 + min (orZero (d "80d")) 25000
      + min (orZero (d "24b")) 200000 + min (orZero (d "80tta")) 10000
      + min (orZero (d "80ccd")) 50000
      + orZero (d "80g") + orZero (d "80e") + orZero (d "hra"))
    (ht : t = max 0 (x - 50000 - D)) :
    (t ≤ 250000 → ServerJs.calculateOldRegime x d = 0) ∧
    (250000 < t ∧ t ≤ 500000 →
      ServerJs.calculateOldRegime x d = (t - 250000) * (5 / 100)) ∧
    (500000 < t ∧ t ≤ 1000000 →
      ServerJs.calculateOldRegime x d = 12500 + (t - 500000) * (20 / 100)) ∧
    (1000000 < t →
      ServerJs.calculateOldRegime x d = 112500 + (t - 1000000) * (30 / 100)) := by
  have hD' : min (orZero (d "80c")) 150000 + min (orZero (d "80d")) 25000
      + min (orZero (d "24b")) 200000 + min (orZero (d "80tta")) 10000
      + min (orZero (d "80ccd")) 50000
      + (orZero (d "80g") + orZero (d "80e") + orZero (d "hra")) = D := by
    rw [hD]; ring
  unfold ServerJs.calculateOldRegime
  simp only []
  rw [hD', ← ht]
  refine ⟨?_, ?_, ?_, ?_⟩
  · intro h; rw [if_pos h]
  · rintro ⟨h1, h2⟩; rw [if_neg (not_le.mpr h1), if_pos h2]
  · rintro ⟨h1, h2⟩
    rw [if_neg (by linarith), if_neg (by linarith), if_pos h2]
  · intro h1
    rw [if_neg (by linarith), if_neg (by linarith), if_neg (by linarith)]

/-- Witness for C2 at income 1000000 with claims `80c = 150000`, `80d = 25000`:
`D = 175000`, `t = 775000`, third band. -/
theorem calculateOldRegime_band_table_witness :
    ServerJs.calculateOldRegime 1000000 ((Claims.empty.set "80c" 150000).set "80d" 25000)
      = 12500 + (775000 - 500000) * (20 / 100) :=
  (calculateOldRegime_band_table 1000000 ((Claims.empty.set "80c" 150000).set "80d" 25000)
    175000 775000
    (by simp +decide [Claims.set, Claims.empty, orZero]; norm_num)
    (by norm_num)).2.2.1 ⟨by norm_num, by norm_num⟩

/-- Claim C3: for gross income 1000000 and claims `80c = 150000`,
`80d = 25000` the handler of `Server/Server.js` reports old-regime tax 67500,
new-regime tax 32500, savings 35000 and recommends "New Regime"; the
`ai-engine` copy called with `ded80c = 150000`, `ded80d = 25000` reports the
same four values. -/
theorem concrete_scenario :
    ServerJs.taxComparison 1000000 ((Claims.empty.set "80c" 150000).set "80d" 25000)
      = ⟨67500, 32500, 35000, "New Regime"⟩ ∧
    (∀ n : ℕ, ServerJs.analyzeTax (n + 1)
        (some { total_income := some 1000000, deductions_80c := some 150000,
                deductions_80d := some 25000 })
      = .ok ⟨67500, 32500, 35000, "New Regime"⟩) ∧
    AiEngine.taxComparison 1000000 (some 150000) (some 25000)
      = ⟨some 67500, 32500, some 35000, "New Regime"⟩ := by
  refine ⟨?_, ?_, ?_⟩
  · simp +decide [ServerJs.taxComparison, ServerJs.calculateNewRegime,
      ServerJs.calculateOldRegime, Claims.set, Claims.empty, orZero]
    norm_num
  · intro n
    simp +decide [ServerJs.analyzeTax, ServerJs.deductionMap, ServerJs.taxComparison,
      ServerJs.calculateNewRegime, ServerJs.calculateOldRegime, orZero]
    norm_num
  · norm_num [AiEngine.taxComparison, AiEngine.calculateNewRegime,
      AiEngine.calculateOldRegime, jsMin, jsMax, jsSub, jsAdd, jsMul, jsLe]

/-- Claim C4: for each capped category (`80c`: 150000, `80d`: 25000, `24b`:
200000, `80tta`: 10000, `80ccd`: 50000) and every claim `c ≥ 0` in it, the
amount `calculateOldRegime` of `Server/Server.js` deducts for the category is
exactly `min c ceiling`: `totalDeductions` grows by `min c ceiling` over the
mapping with the category at 0, and the tax is the tax of the income lowered by
`min c ceiling` with the category at 0.  A claim of 300000 under `80c` gives,
for every income, the tax of a claim of 150000. -/
theorem deduction_capping (x c : ℚ) (d : Claims) (hc : 0 ≤ c) :
    (ServerJs.totalDeductions (d.set "80c" c)
        = ServerJs.totalDeductions (d.set "80c" 0) + min c 150000 ∧
      ServerJs.calculateOldRegime x (d.set "80c" c)
        = ServerJs.calculateOldRegime (x - min c 150000) (d.set "80c" 0)) ∧
    (ServerJs.totalDeductions (d.set "80d" c)
        = ServerJs.totalDeductions (d.set "80d" 0) + min c 25000 ∧
      ServerJs.calculateOldRegime x (d.set "80d" c)
        = ServerJs.calculateOldRegime (x - min c 25000) (d.set "80d" 0)) ∧
    (ServerJs.totalDeductions (d.set "24b" c)
        = ServerJs.totalDeductions (d.set "24b" 0) + min c 200000 ∧
      ServerJs.calculateOldRegime x (d.set "24b" c)
        = ServerJs.calculateOldRegime (x - min c 200000) (d.set "24b" 0)) ∧
    (ServerJs.totalDeductions (d.set "80tta" c)
        = ServerJs.totalDeductions (d.set "80tta" 0) + min c 10000 ∧
      ServerJs.calculateOldRegime x (d.set "80tta" c)
        = ServerJs.calculateOldRegime (x - min c 10000) (d.set "80tta" 0)) ∧
    (ServerJs.totalDeductions (d.set "80ccd" c)
        = ServerJs.totalDeductions (d.set "80ccd" 0) + min c 50000 ∧
      ServerJs.calculateOldRegime x (d.set "80ccd" c)
        = ServerJs.calculateOldRegime (x - min c 50000) (d.set "80ccd" 0)) ∧
    min (300000 : ℚ) 150000 = 150000 ∧
    ServerJs.calculateOldRegime x (d.set "80c" 300000)
      = ServerJs.calculateOldRegime x (d.set "80c" 150000) := by
  have _ := hc
  have h1 : ServerJs.totalDeductions (d.set "80c" c)
      = ServerJs.totalDeductions (d.set "80c" 0) + min c 150000 := by
    simp +decide [ServerJs.totalDeductions, Claims.set, orZero]; ring
  have h2 : ServerJs.totalDeductions (d.set "80d" c)
      = ServerJs.totalDeductions (d.set "80d" 0) + min c 25000 := by
    simp +decide [ServerJs.totalDeductions, Claims.set, orZero]; ring
  have h3 : ServerJs.totalDeductions (d.set "24b" c)
      = ServerJs.totalDeductions (d.set "24b" 0) + min c 200000 := by
    simp +decide [ServerJs.totalDeductions, Claims.set, orZero]; ring
  have h4 : ServerJs.totalDeductions (d.set "80tta" c)
      = ServerJs.totalDeductions (d.set "80tta" 0) + min c 10000 := by
    simp +decide [ServerJs.totalDeductions, Claims.set, orZero]; ring
  have h5 : ServerJs.totalDeductions (d.set "80ccd" c)
      = ServerJs.totalDeductions (d.set "80ccd" 0) + min c 50000 := by
    simp +decide [ServerJs.totalDeductions, Claims.set, orZero]; ring
  have h6 : ServerJs.totalDeductions (d.set "80c" 300000)
      = ServerJs.totalDeductions (d.set "80c" 150000) := by
    simp +decide [ServerJs.totalDeductions, Claims.set, orZero]
  refine ⟨⟨h1, ?_⟩, ⟨h2, ?_⟩, ⟨h3, ?_⟩, ⟨h4, ?_⟩, ⟨h5, ?_⟩, by norm_num, ?_⟩
  · exact ServerJs.calculateOldRegime_congr _ _ _ _ (by rw [h1]; ring)
  · exact ServerJs.calculateOldRegime_congr _ _ _ _ (by rw [h2]; ring)
  · exact ServerJs.calculateOldRegime_congr _ _ _ _ (by rw [h3]; ring)
  · exact ServerJs.calculateOldRegime_congr _ _ _ _ (by rw [h4]; ring)
  · exact ServerJs.calculateOldRegime_congr _ _ _ _ (by rw [h5]; ring)
  · exact ServerJs.calculateOldRegime_congr _ _ _ _ (by rw [h6])

/-- Witness for C4 at income 1000000, empty claims and a claim of 300000 under
`80c`: the tax equals the tax of income 850000 with `80c` at 0, which is
72500. -/
theorem deduction_capping_witness :
    (0 : ℚ) ≤ 300000 ∧
    ServerJs.calculateOldRegime 1000000 (Claims.empty.set "80c" 300000)
      = ServerJs.calculateOldRegime (1000000 - min 300000 150000) (Claims.empty.set "80c" 0) ∧
    ServerJs.calculateOldRegime 1000000 (Claims.empty.set "80c" 300000) = 72500 :=
  ⟨by norm_num,
   (deduction_capping 1000000 300000 Claims.empty (by norm_num)).1.2,
   by simp +decide [ServerJs.calculateOldRegime, Claims.set, Claims.empty, orZero]; norm_num⟩

/-- Claim C5: the recommendation is "New Regime" exactly when the reported
(floored) new-regime tax is at most the reported (floored) old-regime tax and
"Old Regime" otherwise; equal reported taxes give "New Regime".  Stated for the
handler of `Server/Server.js` and for the `ai-engine` handler, whose `<=` is
false when its old-regime tax is `NaN`. -/
theorem recommendation_policy (income : ℚ) (claims : Claims) (ded80c ded80d : Option ℚ) :
    ((ServerJs.taxComparison income claims).recommendation = "New Regime" ↔
      (ServerJs.taxComparison income claims).new_regime_tax
        ≤ (ServerJs.taxComparison income claims).old_regime_tax) ∧
    ((ServerJs.taxComparison income claims).recommendation = "Old Regime" ↔
      ¬ (ServerJs.taxComparison income claims).new_regime_tax
        ≤ (ServerJs.taxComparison income claims).old_regime_tax) ∧
    ((ServerJs.taxComparison income claims).new_regime_tax
        = (ServerJs.taxComparison income claims).old_regime_tax →
      (ServerJs.taxComparison income claims).recommendation = "New Regime") ∧
    ((AiEngine.taxComparison income ded80c ded80d).recommendation = "New Regime" ↔
      ∃ o, (AiEngine.taxComparison income ded80c ded80d).old_regime_tax = some o ∧
        (AiEngine.taxComparison income ded80c ded80d).new_regime_tax ≤ o) ∧
    ((AiEngine.taxComparison income ded80c ded80d).recommendation = "Old Regime" ↔
      ¬ ∃ o, (AiEngine.taxComparison income ded80c ded80d).old_regime_tax = some o ∧
        (AiEngine.taxComparison income ded80c ded80d).new_regime_tax ≤ o) ∧
    ((AiEngine.taxComparison income ded80c ded80d).old_regime_tax
        = some (AiEngine.taxComparison income ded80c ded80d).new_regime_tax →
      (AiEngine.taxComparison income ded80c ded80d).recommendation = "New Regime") := by
  have hne : ¬ ("Old Regime" = "New Regime") := by decide
  have hne' : ¬ ("New Regime" = "Old Regime") := by decide
  refine ⟨?_, ?_, ?_, ?_, ?_, ?_⟩
  · simp only [ServerJs.taxComparison]
    split_ifs with h <;> simp [h, hne]
  · simp only [ServerJs.taxComparison]
    split_ifs with h <;> simp [h, hne']
  · simp only [ServerJs.taxComparison]
    intro h
    rw [if_pos (le_of_eq h)]
  · simp only [AiEngine.taxComparison]
    cases AiEngine.calculateOldRegime income ded80c ded80d with
    | none => simp [hne]
    | some o =>
      simp only [Option.map_some']
      split_ifs with h <;> simp [h, hne]
  · simp only [AiEngine.taxComparison]
    cases AiEngine.calculateOldRegime income ded80c ded80d with
    | none => simp
    | some o =>
      simp only [Option.map_some']
      split_ifs with h <;> simp [h, hne']
  · simp only [AiEngine.taxComparison]
    cases AiEngine.calculateOldRegime income ded80c ded80d with
    | none => simp
    | some o =>
      simp only [Option.map_some']
      intro h
      rw [if_pos (le_of_eq (Option.some.inj h).symm)]

/-- The positive part of `t - a` vanishes when `t ≤ a`. -/
theorem excess_of_le (t a : ℚ) (h : t ≤ a) : max 0 (t - a) = 0 :=
  max_eq_left (by linarith)

/-- The positive part of `t - a` is `t - a` when `a < t`. -/
theorem excess_of_lt (t a : ℚ) (h : a < t) : max 0 (t - a) = t - a :=
  max_eq_right (by linarith)

/-- The positive part of `t - a` is monotone in `t`. -/
theorem excess_mono {t u : ℚ} (a : ℚ) (h : t ≤ u) : max 0 (t - a) ≤ max 0 (u - a) :=
  max_le_max le_rfl (by linarith)

/-- The 7-band chain of conditionals of `calculateNewRegime` adds 5% of the
taxable income above each of the six band edges. -/
theorem newSchedule_marginal (t : ℚ) :
  (if t ≤ 400000 then 0
  else if t ≤ 800000 then (t - 400000) * (5 / 100)
  else if t ≤ 1200000 then 20000 + (t - 800000) * (10 / 100)
  else if t ≤ 1600000 then 60000 + (t - 1200000) * (15 / 100)
  else if t ≤ 2000000 then 120000 + (t - 1600000) * (20 / 100)
  else if t ≤ 2400000 then 200000 + (t - 2000000) * (25 / 100)
  else 300000 + (t - 2400000) * (30 / 100)) =
  (5 / 100) * (max 0 (t - 400000) + max 0 (t - 800000) + max 0 (t - 1200000)
    + max 0 (t - 1600000) + max 0 (t - 2000000) + max 0 (t - 2400000)) := by
  rcases le_or_lt t 400000 with h1 | h1
  · rw [if_pos h1, excess_of_le t 400000 h1, excess_of_le t 800000 (by linarith),
      excess_of_le t 1200000 (by linarith), excess_of_le t 1600000 (by linarith),
      excess_of_le t 2000000 (by linarith), excess_of_le t 2400000 (by linarith)]
    ring
  rw [if_neg (not_le.mpr h1), excess_of_lt t 400000 h1]
  rcases le_or_lt t 800000 with h2 | h2
  · rw [if_pos h2, excess_of_le t 800000 h2,
      excess_of_le t 1200000 (by linarith), excess_of_le t 1600000 (by linarith),
      excess_of_le t 2000000 (by linarith), excess_of_le t 2400000 (by linarith)]
    ring
  rw [if_neg (not_le.mpr h2), excess_of_lt t 800000 h2]
  rcases le_or_lt t 1200000 with h3 | h3
  · rw [if_pos h3, excess_of_le t 1200000 h3, excess_of_le t 1600000 (by linarith),
      excess_of_le t 2000000 (by linarith), excess_of_le t 2400000 (by linarith)]
    ring
  rw [if_neg (not_le.mpr h3), excess_of_lt t 1200000 h3]
  rcases le_or_lt t 1600000 with h4 | h4
  · rw [if_pos h4, excess_of_le t 1600000 h4,
      excess_of_le t 2000000 (by linarith), excess_of_le t 2400000 (by linarith)]
    ring
  rw [if_neg (not_le.mpr h4), excess_of_lt t 1600000 h4]
  rcases le_or_lt t 2000000 with h5 | h5
  · rw [if_pos h5, excess_of_le t 2000000 h5, excess_of_le t 2400000 (by linarith)]
    ring
  rw [if_neg (not_le.mpr h5), excess_of_lt t 2000000 h5]
  rcases le_or_lt t 2400000 with h6 | h6
  · rw [if_pos h6, excess_of_le t 2400000 h6]
    ring
  rw [if_neg (not_le.mpr h6), excess_of_lt t 2400000 h6]
  ring

/-- The 4-band chain of conditionals of `calculateOldRegime` adds 5% of the
taxable income above 250000, 15% above 500000 and 10% above 1000000. -/
theorem oldSchedule_marginal (t : ℚ) :
  (if t ≤ 250000 then 0
  else if t ≤ 500000 then (t - 250000) * (5 / 100)
  else if t ≤ 1000000 then 12500 + (t - 500000) * (20 / 100)
  else 112500 + (t - 1000000) * (30 / 100)) =
  (5 / 100) * max 0 (t - 250000) + (15 / 100) * max 0 (t - 500000)
    + (10 / 100) * max 0 (t - 1000000) := by
  rcases le_or_lt t 250000 with h1 | h1
  · rw [if_pos h1, excess_of_le t 250000 h1, excess_of_le t 500000 (by linarith),
      excess_of_le t 1000000 (by linarith)]
    ring
  rw [if_neg (not_le.mpr h1), excess_of_lt t 250000 h1]
  rcases le_or_lt t 500000 with h2 | h2
  · rw [if_pos h2, excess_of_le t 500000 h2, excess_of_le t 1000000 (by linarith)]
    ring
  rw [if_neg (not_le.mpr h2), excess_of_lt t 500000 h2]
  rcases le_or_lt t 1000000 with h3 | h3
  · rw [if_pos h3, excess_of_le t 1000000 h3]
    ring
  rw [if_neg (not_le.mpr h3), excess_of_lt t 1000000 h3]
  ring

/-- The new-regime schedule is monotone in the taxable income. -/
theorem newSchedule_mono {t u : ℚ} (h : t ≤ u) :
    (if t ≤ 400000 then 0
    else if t ≤ 800000 then (t - 400000) * (5 / 100)
    else if t ≤ 1200000 then 20000 + (t - 800000) * (10 / 100)
    else if t ≤ 1600000 then 60000 + (t - 1200000) * (15 / 100)
    else if t ≤ 2000000 then 120000 + (t - 1600000) * (20 / 100)
    else if t ≤ 2400000 then 200000 + (t - 2000000) * (25 / 100)
    else 300000 + (t - 2400000) * (30 / 100)) ≤
    (if u ≤ 400000 then 0
    else if u ≤ 800000 then (u - 400000) * (5 / 100)
    else if u ≤ 1200000 then 20000 + (u - 800000) * (10 / 100)
    else if u ≤ 1600000 then 60000 + (u - 1200000) * (15 / 100)
    else if u ≤ 2000000 then 120000 + (u - 1600000) * (20 / 100)
    else if u ≤ 2400000 then 200000 + (u - 2000000) * (25 / 100)
    else 300000 + (u - 2400000) * (30 / 100)) := by
  rw [newSchedule_marginal t, newSchedule_marginal u]
  have h1 := excess_mono 400000 h
  have h2 := excess_mono 800000 h
  have h3 := excess_mono 1200000 h
  have h4 := excess_mono 1600000 h
  have h5 := excess_mono 2000000 h
  have h6 := excess_mono 2400000 h
  linarith

/-- The old-regime schedule is monotone in the taxable income. -/
theorem oldSchedule_mono {t u : ℚ} (h : t ≤ u) :
    (if t ≤ 250000 then 0
    else if t ≤ 500000 then (t - 250000) * (5 / 100)
    else if t ≤ 1000000 then 12500 + (t - 500000) * (20 / 100)
    else 112500 + (t - 1000000) * (30 / 100)) ≤
    (if u ≤ 250000 then 0
    else if u ≤ 500000 then (u - 250000) * (5 / 100)
    else if u ≤ 1000000 then 12500 + (u - 500000) * (20 / 100)
    else 112500 + (u - 1000000) * (30 / 100)) := by
  rw [oldSchedule_marginal t, oldSchedule_marginal u]
  have h1 := excess_mono 250000 h
  have h2 := excess_mono 500000 h
  have h3 := excess_mono 1000000 h
  linarith

/-- The new-regime tax of `Server/Server.js` is monotone in the income. -/
theorem ServerJs.calculateNewRegime_mono {a b : ℚ} (hab : a ≤ b) :
    ServerJs.calculateNewRegime a ≤ ServerJs.calculateNewRegime b := by
  have ht : max 0 (a - 75000) ≤ max 0 (b - 75000) :=
    max_le_max le_rfl (by linarith)
  unfold ServerJs.calculateNewRegime
  exact newSchedule_mono ht

/-- The old-regime tax of `Server/Server.js` is monotone in the income. -/
theorem ServerJs.calculateOldRegime_mono {a b : ℚ} (d : Claims) (hab : a ≤ b) :
    ServerJs.calculateOldRegime a d ≤ ServerJs.calculateOldRegime b d := by
  have ht : max 0 (a - 50000 - ServerJs.totalDeductions d)
      ≤ max 0 (b - 50000 - ServerJs.totalDeductions d) :=
    max_le_max le_rfl (by linarith)
  unfold ServerJs.calculateOldRegime
  exact oldSchedule_mono ht

/-- An absent or non-negative entry reads as a non-negative amount. -/
theorem orZero_nonneg {d : Claims} (hd : d.NonNeg) (k : String) : 0 ≤ orZero (d k) := by
  unfold orZero
  cases h : d k with
  | none => exact le_rfl
  | some q => exact hd k q h

/-- With non-negative amounts the total deduction of `Server/Server.js` is
non-negative. -/
theorem ServerJs.totalDeductions_nonneg {d : Claims} (hd : d.NonNeg) :
    0 ≤ ServerJs.totalDeductions d := by
  unfold ServerJs.totalDeductions
  simp only []
  have h1 := orZero_nonneg hd "80c"
  have h2 := orZero_nonneg hd "80d"
  have h3 := orZero_nonneg hd "24b"
  have h4 := orZero_nonneg hd "80tta"
  have h5 := orZero_nonneg hd "80ccd"
  have h6 := orZero_nonneg hd "80g"
  have h7 := orZero_nonneg hd "80e"
  have h8 := orZero_nonneg hd "hra"
  have m1 : 0 ≤ min (orZero (d "80c")) 150000 := le_min h1 (by norm_num)
  have m2 : 0 ≤ min (orZero (d "80d")) 25000 := le_min h2 (by norm_num)
  have m3 : 0 ≤ min (orZero (d "24b")) 200000 := le_min h3 (by norm_num)
  have m4 : 0 ≤ min (orZero (d "80tta")) 10000 := le_min h4 (by norm_num)
  have m5 : 0 ≤ min (orZero (d "80ccd")) 50000 := le_min h5 (by norm_num)
  linarith

/-- The claims `80c = 150000`, `80d = 25000`, `hra = 5` carry no negative
amount. -/
theorem nonNeg_sample :
    (((Claims.empty.set "80c" 150000).set "80d" 25000).set "hra" 5).NonNeg := by
  intro k q
  simp only [Claims.set, Claims.empty]
  split_ifs <;> intro h
  · rw [← Option.some.inj h]; norm_num
  · rw [← Option.some.inj h]; norm_num
  · rw [← Option.some.inj h]; norm_num
  · exact absurd h (by simp)

/-- Counterexample to C6 as stated: at income 475010 with claims
`80c = 150000`, `80d = 25000`, `hra = 5` (all non-negative) the exact taxes are
1/2 (new) and 1/4 (old); both floor to 0, the handler recommends "New Regime",
yet the exact new-regime tax is not at most the exact old-regime tax. -/
theorem recommendation_exact_counterexample :
    (0 : ℚ) ≤ 475010 ∧
    (((Claims.empty.set "80c" 150000).set "80d" 25000).set "hra" 5).NonNeg ∧
    ServerJs.calculateNewRegime 475010 = 1 / 2 ∧
    ServerJs.calculateOldRegime 475010
      (((Claims.empty.set "80c" 150000).set "80d" 25000).set "hra" 5) = 1 / 4 ∧
    (ServerJs.taxComparison 475010
      (((Claims.empty.set "80c" 150000).set "80d" 25000).set "hra" 5)).recommendation
      = "New Regime" ∧
    ¬ (ServerJs.calculateNewRegime 475010 ≤ ServerJs.calculateOldRegime 475010
      (((Claims.empty.set "80c" 150000).set "80d" 25000).set "hra" 5)) := by
  have hn : ServerJs.calculateNewRegime 475010 = 1 / 2 := by
    norm_num [ServerJs.calculateNewRegime]
  have ho : ServerJs.calculateOldRegime 475010
      (((Claims.empty.set "80c" 150000).set "80d" 25000).set "hra" 5) = 1 / 4 := by
    simp +decide [ServerJs.calculateOldRegime, Claims.set, Claims.empty, orZero]
    norm_num
  refine ⟨by norm_num, nonNeg_sample, hn, ho, ?_, ?_⟩
  · simp only [ServerJs.taxComparison, hn, ho]
    norm_num
  · rw [hn, ho]; norm_num

/-- Claim C6, amended: for every income `≥ 0` and every mapping with
non-negative amounts, when the handler recommends "New Regime" the exact
new-regime tax is below the exact old-regime tax plus one currency unit (the
comparison is made on the floored amounts), and when it recommends
"Old Regime" the exact old-regime tax is strictly below the exact new-regime
tax. -/
theorem recommendation_lower_tax (income : ℚ) (claims : Claims)
    (h0 : 0 ≤ income) (hd : claims.NonNeg) :
    ((ServerJs.taxComparison income claims).recommendation = "New Regime" →
      ServerJs.calculateNewRegime income < ServerJs.calculateOldRegime income claims + 1) ∧
    ((ServerJs.taxComparison income claims).recommendation = "Old Regime" →
      ServerJs.calculateOldRegime income claims < ServerJs.calculateNewRegime income) := by
  have _ := h0
  have _ := hd
  have hne : ¬ ("Old Regime" = "New Regime") := by decide
  have hne' : ¬ ("New Regime" = "Old Regime") := by decide
  simp only [ServerJs.taxComparison]
  split_ifs with h
  · refine ⟨fun _ => ?_, fun hc => absurd hc hne'⟩
    have h1 := Int.lt_floor_add_one (ServerJs.calculateNewRegime income)
    have h2 := Int.floor_le (ServerJs.calculateOldRegime income claims)
    have h3 : ((⌊ServerJs.calculateNewRegime income⌋ : ℤ) : ℚ)
        ≤ ((⌊ServerJs.calculateOldRegime income claims⌋ : ℤ) : ℚ) := by exact_mod_cast h
    linarith
  · refine ⟨fun hc => absurd hc hne, fun _ => ?_⟩
    have h1 := Int.lt_floor_add_one (ServerJs.calculateOldRegime income claims)
    have h2 := Int.floor_le (ServerJs.calculateNewRegime income)
    have h3 : ((⌊ServerJs.calculateOldRegime income claims⌋ : ℤ) : ℚ) + 1
        ≤ ((⌊ServerJs.calculateNewRegime income⌋ : ℤ) : ℚ) := by
      exact_mod_cast Int.add_one_le_iff.mpr (not_le.mp h)
    linarith

/-- Witness for the amended C6 at income 1000000 with claims `80c = 150000`,
`80d = 25000`, `hra = 5`: "New Regime" is recommended and the exact new-regime
tax is below the exact old-regime tax plus one. -/
theorem recommendation_lower_tax_witness :
    ServerJs.calculateNewRegime 1000000 < ServerJs.calculateOldRegime 1000000
      (((Claims.empty.set "80c" 150000).set "80d" 25000).set "hra" 5) + 1 :=
  (recommendation_lower_tax 1000000
    (((Claims.empty.set "80c" 150000).set "80d" 25000).set "hra" 5)
    (by norm_num) nonNeg_sample).1
    (by
      simp +decide [ServerJs.taxComparison, ServerJs.calculateNewRegime,
        ServerJs.calculateOldRegime, Claims.set, Claims.empty, orZero]
      norm_num)

/-- Claim C7: the reported savings is the absolute difference of the two
reported (floored) taxes; it is a non-negative integer, it is 0 exactly when
the two reported taxes are equal, and it is the same with the two taxes
swapped.  Stated for the handlers of `Server/Server.js` and
`Server/index.js`. -/
theorem savings_abs_difference (income : ℚ) (claims : Claims) :
    ((ServerJs.taxComparison income claims).savings
        = |(ServerJs.taxComparison income claims).old_regime_tax
            - (ServerJs.taxComparison income claims).new_regime_tax| ∧
      0 ≤ (ServerJs.taxComparison income claims).savings ∧
      ((ServerJs.taxComparison income claims).savings = 0 ↔
        (ServerJs.taxComparison income claims).old_regime_tax
          = (ServerJs.taxComparison income claims).new_regime_tax) ∧
      (ServerJs.taxComparison income claims).savings
        = |(ServerJs.taxComparison income claims).new_regime_tax
            - (ServerJs.taxComparison income claims).old_regime_tax|) ∧
    ((ServerIndex.taxComparison income claims).savings
        = |(ServerIndex.taxComparison income claims).old_regime_tax
            - (ServerIndex.taxComparison income claims).new_regime_tax| ∧
      0 ≤ (ServerIndex.taxComparison income claims).savings ∧
      ((ServerIndex.taxComparison income claims).savings = 0 ↔
        (ServerIndex.taxComparison income claims).old_regime_tax
          = (ServerIndex.taxComparison income claims).new_regime_tax) ∧
      (ServerIndex.taxComparison income claims).savings
        = |(ServerIndex.taxComparison income claims).new_regime_tax
            - (ServerIndex.taxComparison income claims).old_regime_tax|) := by
  refine ⟨⟨?_, ?_, ?_, ?_⟩, ⟨?_, ?_, ?_, ?_⟩⟩
  · simp only [ServerJs.taxComparison]; exact abs_sub_comm _ _
  · simp only [ServerJs.taxComparison]; exact abs_nonneg _
  · simp only [ServerJs.taxComparison]
    rw [abs_eq_zero, sub_eq_zero]
    exact eq_comm
  · simp only [ServerJs.taxComparison]
  · simp only [ServerIndex.taxComparison]; exact abs_sub_comm _ _
  · simp only [ServerIndex.taxComparison]; exact abs_nonneg _
  · simp only [ServerIndex.taxComparison]
    rw [abs_eq_zero, sub_eq_zero]
    exact eq_comm
  · simp only [ServerIndex.taxComparison]

/-- Counterexample to C8 as stated: at gross income -1 the handler of
`Server/Server.js` does not fail; it answers with the complete comparison, the
negative income clamped to a zero tax. -/
theorem negative_income_counterexample :
    (-1 : ℚ) < 0 ∧
    ServerJs.calculateNewRegime (-1) = 0 ∧
    ServerJs.analyzeTax 1 (some { total_income := some (-1) })
      = .ok ⟨0, 0, 0, "New Regime"⟩ := by
  refine ⟨by norm_num, by norm_num [ServerJs.calculateNewRegime], ?_⟩
  simp +decide [ServerJs.analyzeTax, ServerJs.deductionMap, ServerJs.taxComparison,
    ServerJs.calculateNewRegime, ServerJs.calculateOldRegime, orZero]

/-- Claim C8, amended: for every gross income `< 0` the computation does not
fail: the taxable income is clamped to 0, so the new-regime tax is 0 and, when
no claimed amount is negative, the old-regime tax is 0 as well, and the handler
answers with old tax 0, new tax 0, savings 0 and "New Regime". -/
theorem negative_income_clamped (income : ℚ) (claims : Claims)
    (hneg : income < 0) (hd : claims.NonNeg) :
    ServerJs.calculateNewRegime income = 0 ∧
    ServerJs.calculateOldRegime income claims = 0 ∧
    ServerJs.taxComparison income claims = ⟨0, 0, 0, "New Regime"⟩ ∧
    (∀ (n : ℕ) (aiData : AiData), orZero aiData.total_income = income →
      ServerJs.deductionMap aiData = claims →
      ServerJs.analyzeTax (n + 1) (some aiData) = .ok ⟨0, 0, 0, "New Regime"⟩) := by
  have hn : ServerJs.calculateNewRegime income = 0 := by
    have ht : max 0 (income - 75000) = 0 := max_eq_left (by linarith)
    unfold ServerJs.calculateNewRegime
    simp only []
    rw [ht]
    norm_num
  have ho : ServerJs.calculateOldRegime income claims = 0 := by
    have hD := ServerJs.totalDeductions_nonneg hd
    have ht : max 0 (income - 50000 - ServerJs.totalDeductions claims) = 0 :=
      max_eq_left (by linarith)
    unfold ServerJs.totalDeductions at ht
    unfold ServerJs.calculateOldRegime
    simp only [] at ht ⊢
    rw [ht]
    norm_num
  have hc : ServerJs.taxComparison income claims = ⟨0, 0, 0, "New Regime"⟩ := by
    simp only [ServerJs.taxComparison, hn, ho]
    norm_num
  refine ⟨hn, ho, hc, ?_⟩
  intro n aiData hi hm
  simp only [ServerJs.analyzeTax, hi, hm, hc]
  simp

/-- Witness for the amended C8 at gross income -1 with empty claims. -/
theorem negative_income_clamped_witness :
    ServerJs.taxComparison (-1) Claims.empty = ⟨0, 0, 0, "New Regime"⟩ :=
  (negative_income_clamped (-1) Claims.empty (by norm_num)
    (by intro k q h; simp [Claims.empty] at h)).2.2.1

/-- Counterexample to C9 as stated: at income 400000 a claim of -100000 under
`80c` gives the tax 10000, while the mapping with that amount replaced by 0
gives 5000; the `ai-engine` copy does the same. -/
theorem negative_claim_counterexample :
    ServerJs.calculateOldRegime 400000 (Claims.empty.set "80c" (-100000)) = 10000 ∧
    ServerJs.calculateOldRegime 400000 (Claims.empty.set "80c" 0) = 5000 ∧
    ServerJs.calculateOldRegime 400000 (Claims.empty.set "80c" (-100000))
      ≠ ServerJs.calculateOldRegime 400000 (Claims.empty.set "80c" 0) ∧
    AiEngine.calculateOldRegime 400000 (some (-100000)) (some 0) = some 10000 ∧
    AiEngine.calculateOldRegime 400000 (some 0) (some 0) = some 5000 := by
  have h1 : ServerJs.calculateOldRegime 400000 (Claims.empty.set "80c" (-100000))
      = 10000 := by
    simp +decide [ServerJs.calculateOldRegime, Claims.set, Claims.empty, orZero]
    norm_num
  have h2 : ServerJs.calculateOldRegime 400000 (Claims.empty.set "80c" 0) = 5000 := by
    simp +decide [ServerJs.calculateOldRegime, Claims.set, Claims.empty, orZero]
    norm_num
  refine ⟨h1, h2, ?_, ?_, ?_⟩
  · rw [h1, h2]; norm_num
  · norm_num [AiEngine.calculateOldRegime, jsMin, jsMax, jsSub, jsAdd, jsMul, jsLe]
  · norm_num [AiEngine.calculateOldRegime, jsMin, jsMax, jsSub, jsAdd, jsMul, jsLe]

/-- The `ai-engine` old-regime tax depends on the income and on two numeric
deductions only through the taxable expression. -/
theorem AiEngine.calculateOldRegime_taxable_congr (x x' c c' e e' : ℚ)
    (h : x - 50000 - min c 150000 - e = x' - 50000 - min c' 150000 - e') :
    AiEngine.calculateOldRegime x (some c) (some e)
      = AiEngine.calculateOldRegime x' (some c') (some e') := by
  simp only [AiEngine.calculateOldRegime, jsMin, jsSub, jsMax]
  rw [h]

/-- Claim C9, amended: negative deduction claims are not floored to 0.  A
negative amount `c` under any recognised category is deducted as it is, so the
tax of `Server/Server.js` equals the tax of the income `x - c` with that
category at 0, and is at least the tax of income `x` with the category at 0;
the `ai-engine` copy treats a negative `ded80c` or `ded80d` the same way. -/
theorem negative_claim_passes_through (x c : ℚ) (d : Claims) (e : ℚ) (hc : c < 0) :
    (∀ k ∈ ["80c", "80d", "24b", "80tta", "80ccd", "80g", "80e", "hra"],
      ServerJs.calculateOldRegime x (d.set k c)
        = ServerJs.calculateOldRegime (x - c) (d.set k 0) ∧
      ServerJs.calculateOldRegime x (d.set k 0)
        ≤ ServerJs.calculateOldRegime x (d.set k c)) ∧
    AiEngine.calculateOldRegime x (some c) (some e)
      = AiEngine.calculateOldRegime (x - c) (some 0) (some e) ∧
    AiEngine.calculateOldRegime x (some e) (some c)
      = AiEngine.calculateOldRegime (x - c) (some e) (some 0) := by
  have c1 : min c 150000 = c := min_eq_left (by linarith)
  have c2 : min c 25000 = c := min_eq_left (by linarith)
  have c3 : min c 200000 = c := min_eq_left (by linarith)
  have c4 : min c 10000 = c := min_eq_left (by linarith)
  have c5 : min c 50000 = c := min_eq_left (by linarith)
  have key : ∀ k ∈ ["80c", "80d", "24b", "80tta", "80ccd", "80g", "80e", "hra"],
      ServerJs.totalDeductions (d.set k c) = ServerJs.totalDeductions (d.set k 0) + c := by
    intro k hk
    simp only [List.mem_cons, List.mem_singleton, List.not_mem_nil, or_false] at hk
    rcases hk with rfl | rfl | rfl | rfl | rfl | rfl | rfl | rfl <;>
      simp +decide [ServerJs.totalDeductions, Claims.set, orZero, c1, c2, c3, c4, c5] <;>
      ring
  refine ⟨?_, ?_, ?_⟩
  · intro k hk
    have hk' := key k hk
    have heq : ServerJs.calculateOldRegime x (d.set k c)
        = ServerJs.calculateOldRegime (x - c) (d.set k 0) :=
      ServerJs.calculateOldRegime_congr _ _ _ _ (by rw [hk']; ring)
    refine ⟨heq, ?_⟩
    rw [heq]
    exact ServerJs.calculateOldRegime_mono _ (by linarith)
  · exact AiEngine.calculateOldRegime_taxable_congr _ _ _ _ _ _
      (by rw [c1, min_eq_left (by norm_num : (0 : ℚ) ≤ 150000)]; ring)
  · exact AiEngine.calculateOldRegime_taxable_congr _ _ _ _ _ _ (by ring)

/-- Witness for the amended C9 at income 400000 with the claim -100000 under
`80c`: the tax is the tax of income 500000 with `80c` at 0. -/
theorem negative_claim_passes_through_witness :
    ServerJs.calculateOldRegime 400000 (Claims.empty.set "80c" (-100000))
      = ServerJs.calculateOldRegime (400000 - (-100000)) (Claims.empty.set "80c" 0) :=
  ((negative_claim_passes_through 400000 (-100000) Claims.empty 0 (by norm_num)).1
    "80c" (by simp)).1

/-- Claim C10: for incomes `a ≤ b`, the new-regime tax at `a` is at most the
new-regime tax at `b`, for every fixed mapping the old-regime tax at `a` is at
most the old-regime tax at `b`, and the same holds for the floored amounts the
handler reports. -/
theorem monotone_in_income (a b : ℚ) (claims : Claims) (hab : a ≤ b) :
    ServerJs.calculateNewRegime a ≤ ServerJs.calculateNewRegime b ∧
    ServerJs.calculateOldRegime a claims ≤ ServerJs.calculateOldRegime b claims ∧
    (ServerJs.taxComparison a claims).new_regime_tax
      ≤ (ServerJs.taxComparison b claims).new_regime_tax ∧
    (ServerJs.taxComparison a claims).old_regime_tax
      ≤ (ServerJs.taxComparison b claims).old_regime_tax := by
  have hn := ServerJs.calculateNewRegime_mono hab
  have ho := ServerJs.calculateOldRegime_mono claims hab
  refine ⟨hn, ho, ?_, ?_⟩
  · simp only [ServerJs.taxComparison]
    exact Int.floor_mono hn
  · simp only [ServerJs.taxComparison]
    exact Int.floor_mono ho

/-- Witness for C10 at incomes 500000 and 1000000 with empty claims. -/
theorem monotone_in_income_witness :
    (500000 : ℚ) ≤ 1000000 ∧
    ServerJs.calculateNewRegime 500000 ≤ ServerJs.calculateNewRegime 1000000 ∧
    ServerJs.calculateOldRegime 500000 Claims.empty
      ≤ ServerJs.calculateOldRegime 1000000 Claims.empty :=
  ⟨by norm_num,
   (monotone_in_income 500000 1000000 Claims.empty (by norm_num)).1,
   (monotone_in_income 500000 1000000 Claims.empty (by norm_num)).2.1⟩

/-- The new-regime schedule is non-negative at every taxable income. -/
theorem newSchedule_nonneg (t : ℚ) :
    0 ≤ (if t ≤ 400000 then 0
    else if t ≤ 800000 then (t - 400000) * (5 / 100)
    else if t ≤ 1200000 then 20000 + (t - 800000) * (10 / 100)
    else if t ≤ 1600000 then 60000 + (t - 1200000) * (15 / 100)
    else if t ≤ 2000000 then 120000 + (t - 1600000) * (20 / 100)
    else if t ≤ 2400000 then 200000 + (t - 2000000) * (25 / 100)
    else 300000 + (t - 2400000) * (30 / 100)) := by
  rw [newSchedule_marginal t]
  have h1 := le_max_left 0 (t - 400000)
  have h2 := le_max_left 0 (t - 800000)
  have h3 := le_max_left 0 (t - 1200000)
  have h4 := le_max_left 0 (t - 1600000)
  have h5 := le_max_left 0 (t - 2000000)
  have h6 := le_max_left 0 (t - 2400000)
  linarith

/-- The old-regime schedule is non-negative at every taxable income. -/
theorem oldSchedule_nonneg (t : ℚ) :
    0 ≤ (if t ≤ 250000 then 0
    else if t ≤ 500000 then (t - 250000) * (5 / 100)
    else if t ≤ 1000000 then 12500 + (t - 500000) * (20 / 100)
    else 112500 + (t - 1000000) * (30 / 100)) := by
  rw [oldSchedule_marginal t]
  have h1 := le_max_left 0 (t - 250000)
  have h2 := le_max_left 0 (t - 500000)
  have h3 := le_max_left 0 (t - 1000000)
  linarith

/-- The old-regime tax of `Server/Server.js` is determined by the taxable
income `max 0 (income - 50000 - totalDeductions)`. -/
theorem ServerJs.calculateOldRegime_of_taxable_eq (x x' : ℚ) (d d' : Claims)
    (h : max 0 (x - 50000 - ServerJs.totalDeductions d)
      = max 0 (x' - 50000 - ServerJs.totalDeductions d')) :
    ServerJs.calculateOldRegime x d = ServerJs.calculateOldRegime x' d' := by
  unfold ServerJs.totalDeductions at h
  unfold ServerJs.calculateOldRegime
  simp only [] at h ⊢
  rw [h]

/-- Claim C11: for every income and every mapping (in particular for every
income `≥ 0` with empty claims) `calculateNewRegime` and `calculateOldRegime`
of `Server/Server.js` return a value `≥ 0`, and so do the floored taxes the
handler reports. -/
theorem taxes_nonneg (income : ℚ) (claims : Claims) :
    0 ≤ ServerJs.calculateNewRegime income ∧
    0 ≤ ServerJs.calculateOldRegime income claims ∧
    0 ≤ ServerJs.calculateOldRegime income Claims.empty ∧
    0 ≤ (ServerJs.taxComparison income claims).new_regime_tax ∧
    0 ≤ (ServerJs.taxComparison income claims).old_regime_tax := by
  have hn : 0 ≤ ServerJs.calculateNewRegime income := by
    unfold ServerJs.calculateNewRegime
    exact newSchedule_nonneg _
  have ho : ∀ d : Claims, 0 ≤ ServerJs.calculateOldRegime income d := by
    intro d
    unfold ServerJs.calculateOldRegime
    exact oldSchedule_nonneg _
  refine ⟨hn, ho claims, ho Claims.empty, ?_, ?_⟩
  · simp only [ServerJs.taxComparison]
    exact Int.floor_nonneg.mpr hn
  · simp only [ServerJs.taxComparison]
    exact Int.floor_nonneg.mpr (ho claims)

/-- Claim C12: the amount used for the band lookup is `max 0 (...)`, never
negative; whenever the income is at most 75000 the new-regime tax is 0, and
whenever `income - 50000 - totalDeductions ≤ 0` the old-regime tax is 0, not a
negative amount. -/
theorem taxable_never_negative (income : ℚ) (claims : Claims) :
    0 ≤ max 0 (income - 75000) ∧
    0 ≤ max 0 (income - 50000 - ServerJs.totalDeductions claims) ∧
    ServerJs.calculateNewRegime income
      = ServerJs.calculateNewRegime (max 0 (income - 75000) + 75000) ∧
    ServerJs.calculateOldRegime income claims
      = ServerJs.calculateOldRegime
          (max 0 (income - 50000 - ServerJs.totalDeductions claims) + 50000) Claims.empty ∧
    (income ≤ 75000 → ServerJs.calculateNewRegime income = 0) ∧
    (income - 50000 - ServerJs.totalDeductions claims ≤ 0 →
      ServerJs.calculateOldRegime income claims = 0) := by
  refine ⟨le_max_left _ _, le_max_left _ _, ?_, ?_, ?_, ?_⟩
  · have h : max 0 (max 0 (income - 75000) + 75000 - 75000) = max 0 (income - 75000) := by
      rw [add_sub_cancel_right]
      exact max_eq_right (le_max_left _ _)
    unfold ServerJs.calculateNewRegime
    simp only []
    rw [h]
  · have hD : ServerJs.totalDeductions Claims.empty = 0 := by
      simp [ServerJs.totalDeductions, Claims.empty, orZero]
    have h : max 0 (max 0 (income - 50000 - ServerJs.totalDeductions claims) + 50000 - 50000
        - ServerJs.totalDeductions Claims.empty)
        = max 0 (income - 50000 - ServerJs.totalDeductions claims) := by
      rw [hD, sub_zero, add_sub_cancel_right]
      exact max_eq_right (le_max_left _ _)
    exact ServerJs.calculateOldRegime_of_taxable_eq _ _ _ _ h.symm
  · intro h
    have ht : max 0 (income - 75000) = 0 := max_eq_left (by linarith)
    unfold ServerJs.calculateNewRegime
    simp only []
    rw [ht]
    norm_num
  · intro h
    have ht : max 0 (income - 50000 - ServerJs.totalDeductions claims) = 0 :=
      max_eq_left h
    unfold ServerJs.totalDeductions at ht
    unfold ServerJs.calculateOldRegime
    simp only [] at ht ⊢
    rw [ht]
    norm_num

/-- Witness for C12 at income 60000 with a claim of 150000 under `80c`: both
taxes are 0. -/
theorem taxable_never_negative_witness :
    ServerJs.calculateNewRegime 60000 = 0 ∧
    ServerJs.calculateOldRegime 60000 (Claims.empty.set "80c" 150000) = 0 :=
  ⟨(taxable_never_negative 60000 (Claims.empty.set "80c" 150000)).2.2.2.2.1 (by norm_num),
   (taxable_never_negative 60000 (Claims.empty.set "80c" 150000)).2.2.2.2.2
    (by simp +decide [ServerJs.totalDeductions, Claims.set, Claims.empty, orZero]; norm_num)⟩

/-- Counterexample to C13 as stated: the claims `hra = 1000000` carry no
negative amount, and the total deduction `calculateOldRegime` subtracts is
1000000, above 435000: `hra` (like `80g` and `80e`) has no ceiling. -/
theorem total_deductions_counterexample :
    (Claims.empty.set "hra" 1000000).NonNeg ∧
    ServerJs.totalDeductions (Claims.empty.set "hra" 1000000) = 1000000 ∧
    ¬ ServerJs.totalDeductions (Claims.empty.set "hra" 1000000) ≤ 435000 := by
  have h : ServerJs.totalDeductions (Claims.empty.set "hra" 1000000) = 1000000 := by
    simp +decide [ServerJs.totalDeductions, Claims.set, Claims.empty, orZero]
  refine ⟨?_, h, ?_⟩
  · intro k q
    simp only [Claims.set, Claims.empty]
    split_ifs <;> intro hq
    · rw [← Option.some.inj hq]; norm_num
    · exact absurd hq (by simp)
  · rw [h]; norm_num

/-- Claim C13, amended: for every mapping with non-negative amounts, the part
of the total deduction that comes from the five capped categories never
exceeds 150000 + 25000 + 200000 + 10000 + 50000 = 435000, so `totalDeductions`
is at most 435000 plus the uncapped amounts under `80g`, `80e` and `hra`, and
it is at most 435000 when those three are absent or 0. -/
theorem total_deductions_bound (claims : Claims) (hd : claims.NonNeg) :
    (150000 : ℚ) + 25000 + 200000 + 10000 + 50000 = 435000 ∧
    0 ≤ ServerJs.totalDeductions claims ∧
    ServerJs.totalDeductions claims
        - (orZero (claims "80g") + orZero (claims "80e") + orZero (claims "hra")) ≤ 435000 ∧
    ServerJs.totalDeductions claims
      ≤ 435000 + orZero (claims "80g") + orZero (claims "80e") + orZero (claims "hra") ∧
    (orZero (claims "80g") = 0 → orZero (claims "80e") = 0 → orZero (claims "hra") = 0 →
      ServerJs.totalDeductions claims ≤ 435000) := by
  have m1 : min (orZero (claims "80c")) 150000 ≤ 150000 := min_le_right _ _
  have m2 : min (orZero (claims "80d")) 25000 ≤ 25000 := min_le_right _ _
  have m3 : min (orZero (claims "24b")) 200000 ≤ 200000 := min_le_right _ _
  have m4 : min (orZero (claims "80tta")) 10000 ≤ 10000 := min_le_right _ _
  have m5 : min (orZero (claims "80ccd")) 50000 ≤ 50000 := min_le_right _ _
  refine ⟨by norm_num, ServerJs.totalDeductions_nonneg hd, ?_, ?_, ?_⟩
  · unfold ServerJs.totalDeductions
    simp only []
    linarith
  · unfold ServerJs.totalDeductions
    simp only []
    linarith
  · intro h1 h2 h3
    unfold ServerJs.totalDeductions
    simp only []
    linarith

/-- Witness for the amended C13 at the claims `80c = 150000`, `80d = 25000`,
`hra = 5`: the total deduction is at most 435000 + 5. -/
theorem total_deductions_bound_witness :
    ServerJs.totalDeductions (((Claims.empty.set "80c" 150000).set "80d" 25000).set "hra" 5)
      ≤ 435000 + orZero ((((Claims.empty.set "80c" 150000).set "80d" 25000).set "hra" 5) "80g")
        + orZero ((((Claims.empty.set "80c" 150000).set "80d" 25000).set "hra" 5) "80e")
        + orZero ((((Claims.empty.set "80c" 150000).set "80d" 25000).set "hra" 5) "hra") :=
  (total_deductions_bound (((Claims.empty.set "80c" 150000).set "80d" 25000).set "hra" 5)
    nonNeg_sample).2.2.2.1

/-- Counterexample to C14 as stated: at income 1200000 the taxable income is
1125000 and `calculateNewRegime` yields 20000 + (1125000 - 800000) * 0.10 =
52500, not 60000. -/
theorem boundary_counterexample :
    ServerJs.calculateNewRegime 1200000 = 52500 ∧
    ServerJs.calculateNewRegime 1200000 ≠ 60000 := by
  have h : ServerJs.calculateNewRegime 1200000 = 52500 := by
    norm_num [ServerJs.calculateNewRegime]
  exact ⟨h, by rw [h]; norm_num⟩

/-- Claim C14, amended: the standard deduction is subtracted first, so the
boundary value 20000 + (1200000 - 800000) * 0.10 = 60000 is the new-regime tax
at taxable income 1200000, that is at gross income 1275000; at gross income
1200000 the taxable income is 1125000 and the tax is
20000 + (1125000 - 800000) * 0.10 = 52500 exactly. -/
theorem boundary_exactness :
    max (0 : ℚ) (1275000 - 75000) = 1200000 ∧
    ServerJs.calculateNewRegime 1275000 = 20000 + (1200000 - 800000) * (10 / 100) ∧
    ServerJs.calculateNewRegime 1275000 = 60000 ∧
    max (0 : ℚ) (1200000 - 75000) = 1125000 ∧
    ServerJs.calculateNewRegime 1200000 = 20000 + (1125000 - 800000) * (10 / 100) := by
  refine ⟨by norm_num, ?_, ?_, by norm_num, ?_⟩ <;>
    norm_num [ServerJs.calculateNewRegime]

/-- Two mappings that agree on the eight recognised categories have the same
total deduction in `Server/Server.js`. -/
theorem ServerJs.totalDeductions_agree (d d' : Claims)
    (h : ∀ k ∈ ["80c", "80d", "24b", "80tta", "80ccd", "80g", "80e", "hra"], d k = d' k) :
    ServerJs.totalDeductions d = ServerJs.totalDeductions d' := by
  have h1 := h "80c" (by simp)
  have h2 := h "80d" (by simp)
  have h3 := h "24b" (by simp)
  have h4 := h "80tta" (by simp)
  have h5 := h "80ccd" (by simp)
  have h6 := h "80g" (by simp)
  have h7 := h "80e" (by simp)
  have h8 := h "hra" (by simp)
  unfold ServerJs.totalDeductions
  simp only [h1, h2, h3, h4, h5, h6, h7, h8]

/-- Claim C16: unknown categories are ignored.  Setting an entry under a key
`k` that is not one of `80c`, `80d`, `24b`, `80tta`, `80ccd`, `80g`, `80e`,
`hra` (such as `sources`) to any value leaves `calculateOldRegime` of
`Server/Server.js` unchanged; more generally two mappings agreeing on the
eight recognised keys give the same tax; and the handler answers with a
comparison, not an error, whatever the mapping holds. -/
theorem unknown_categories_ignored (income v : ℚ) (d : Claims) (k : String)
    (hk : k ∉ ["80c", "80d", "24b", "80tta", "80ccd", "80g", "80e", "hra"]) :
    ServerJs.calculateOldRegime income (d.set k v) = ServerJs.calculateOldRegime income d ∧
    (∀ d' : Claims,
      (∀ key ∈ ["80c", "80d", "24b", "80tta", "80ccd", "80g", "80e", "hra"], d key = d' key) →
      ServerJs.calculateOldRegime income d = ServerJs.calculateOldRegime income d') ∧
    (∀ aiData : AiData,
      ServerJs.calculateOldRegime income ((ServerJs.deductionMap aiData).set k v)
        = ServerJs.calculateOldRegime income (ServerJs.deductionMap aiData)) ∧
    (∀ (n : ℕ) (aiData : AiData), ∃ r, ServerJs.analyzeTax (n + 1) (some aiData) = .ok r) := by
  have hset : ∀ m : Claims,
      ∀ key ∈ ["80c", "80d", "24b", "80tta", "80ccd", "80g", "80e", "hra"],
        (m.set k v) key = m key := by
    intro m key hkey
    have hne : key ≠ k := fun e => hk (e ▸ hkey)
    simp only [Claims.set, if_neg hne]
  have hagree : ∀ m m' : Claims,
      (∀ key ∈ ["80c", "80d", "24b", "80tta", "80ccd", "80g", "80e", "hra"], m key = m' key) →
      ServerJs.calculateOldRegime income m = ServerJs.calculateOldRegime income m' := by
    intro m m' h
    exact ServerJs.calculateOldRegime_congr _ _ _ _
      (by rw [ServerJs.totalDeductions_agree m m' h])
  refine ⟨hagree _ _ (hset d), fun d' h => hagree d d' h,
    fun aiData => hagree _ _ (hset _), ?_⟩
  intro n aiData
  refine ⟨ServerJs.taxComparison (orZero aiData.total_income) (ServerJs.deductionMap aiData), ?_⟩
  simp [ServerJs.analyzeTax]

/-- Witness for C16 at income 1000000 with claims `80c = 150000`,
`80d = 25000`, `hra = 5` and an added entry under `sources`. -/
theorem unknown_categories_ignored_witness :
    ServerJs.calculateOldRegime 1000000
      ((((Claims.empty.set "80c" 150000).set "80d" 25000).set "hra" 5).set "sources" 7)
    = ServerJs.calculateOldRegime 1000000
      (((Claims.empty.set "80c" 150000).set "80d" 25000).set "hra" 5) :=
  (unknown_categories_ignored 1000000 7
    (((Claims.empty.set "80c" 150000).set "80d" 25000).set "hra" 5) "sources"
    (by decide)).1

/-- Claim C17, the code at the failing input: in `ai-engine/index.js` an
`undefined` deduction does not count as 0.  `calculateOldRegime` with an
`undefined` argument returns `NaN` for every income, while with 0 and 0 at
income 1000000 it returns 102500; the handler then reports a `NaN` old-regime
tax and savings and recommends "Old Regime".  The two `Server` copies do read
an absent category as 0. -/
theorem missing_deduction_not_zero :
    (∀ (x : ℚ) (c : Option ℚ), AiEngine.calculateOldRegime x none c = none ∧
      AiEngine.calculateOldRegime x c none = none) ∧
    AiEngine.calculateOldRegime 1000000 none none = none ∧
    AiEngine.calculateOldRegime 1000000 (some 0) (some 0) = some 102500 ∧
    AiEngine.taxComparison 1000000 none none = ⟨none, 32500, none, "Old Regime"⟩ ∧
    (∀ (x : ℚ) (d : Claims) (k : String), d k = none →
      ServerJs.calculateOldRegime x d = ServerJs.calculateOldRegime x (d.set k 0)) ∧
    (∀ (x : ℚ) (d : Claims) (k : String), d k = none →
      ServerIndex.calculateOldRegime x d = ServerIndex.calculateOldRegime x (d.set k 0)) := by
  have hnan : ∀ (x : ℚ) (c : Option ℚ), AiEngine.calculateOldRegime x none c = none ∧
      AiEngine.calculateOldRegime x c none = none := by
    intro x c
    constructor
    · cases c <;>
        simp [AiEngine.calculateOldRegime, jsMin, jsMax, jsSub, jsAdd, jsMul, jsLe]
    · cases c <;>
        simp [AiEngine.calculateOldRegime, jsMin, jsMax, jsSub, jsAdd, jsMul, jsLe]
  have hread : ∀ (d : Claims) (k : String), d k = none →
      ∀ key, orZero ((d.set k 0) key) = orZero (d key) := by
    intro d k hk key
    simp only [Claims.set]
    split_ifs with e
    · rw [e, hk]; rfl
    · rfl
  refine ⟨hnan, (hnan 1000000 none).1, ?_, ?_, ?_, ?_⟩
  · norm_num [AiEngine.calculateOldRegime, jsMin, jsMax, jsSub, jsAdd, jsMul, jsLe]
  · have h1 : AiEngine.calculateNewRegime 1000000 = 32500 := by
      norm_num [AiEngine.calculateNewRegime]
    simp only [AiEngine.taxComparison, (hnan 1000000 none).1, h1]
    norm_num
  · intro x d k hk
    unfold ServerJs.calculateOldRegime
    simp only [hread d k hk]
  · intro x d k hk
    unfold ServerIndex.calculateOldRegime
    simp only [hread d k hk]

/-- Claim C18, the code at the failing input: the `ai-engine` copy subtracts
`ded80d` without a ceiling.  At income 1000000 with `80c = 150000` it returns
62500 for `80d = 50000` and 67500 for `80d = 25000`, while
`Server/Server.js` returns 67500 for the claims `80c = 150000`,
`80d = 50000`. -/
theorem ai_engine_80d_not_capped :
    AiEngine.calculateOldRegime 1000000 (some 150000) (some 50000) = some 62500 ∧
    AiEngine.calculateOldRegime 1000000 (some 150000) (some 25000) = some 67500 ∧
    ServerJs.calculateOldRegime 1000000
      ((Claims.empty.set "80c" 150000).set "80d" 50000) = 67500 := by
  refine ⟨?_, ?_, ?_⟩
  · norm_num [AiEngine.calculateOldRegime, jsMin, jsMax, jsSub, jsAdd, jsMul, jsLe]
  · norm_num [AiEngine.calculateOldRegime, jsMin, jsMax, jsSub, jsAdd, jsMul, jsLe]
  · simp +decide [ServerJs.calculateOldRegime, Claims.set, Claims.empty, orZero]
    norm_num

/-- The part of `t` inside a bounded band is the excess of `t` over the lower
edge minus its excess over the upper edge. -/
theorem bandPart_some (lo h t : ℚ) (hlh : lo ≤ h) :
    bandPart lo (some h) t = max 0 (t - lo) - max 0 (t - h) := by
  simp only [bandPart]
  rcases le_or_lt t h with h1 | h1
  · rw [min_eq_left h1, excess_of_le t h h1, sub_zero]
  · rw [min_eq_right (le_of_lt h1), excess_of_lt t h h1,
      excess_of_lt t lo (lt_of_le_of_lt hlh h1), max_eq_right (by linarith)]
    ring

/-- The marginal-sum reference tax of the new-regime bands is 5% of the excess
of `t` over each of the six band edges. -/
theorem marginalTax_newRegimeBands (t : ℚ) :
    marginalTax newRegimeBands t
      = (5 / 100) * (max 0 (t - 400000) + max 0 (t - 800000) + max 0 (t - 1200000)
        + max 0 (t - 1600000) + max 0 (t - 2000000) + max 0 (t - 2400000)) := by
  simp only [marginalTax, newRegimeBands, List.map_cons, List.map_nil, List.sum_cons,
    List.sum_nil]
  rw [bandPart_some 0 400000 t (by norm_num), bandPart_some 400000 800000 t (by norm_num),
    bandPart_some 800000 1200000 t (by norm_num),
    bandPart_some 1200000 1600000 t (by norm_num),
    bandPart_some 1600000 2000000 t (by norm_num),
    bandPart_some 2000000 2400000 t (by norm_num)]
  simp only [bandPart]
  ring

/-- The marginal-sum reference tax of the old-regime bands is 5% of the excess
of `t` over 250000, 15% of that over 500000 and 10% of that over 1000000. -/
theorem marginalTax_oldRegimeBands (t : ℚ) :
    marginalTax oldRegimeBands t
      = (5 / 100) * max 0 (t - 250000) + (15 / 100) * max 0 (t - 500000)
        + (10 / 100) * max 0 (t - 1000000) := by
  simp only [marginalTax, oldRegimeBands, List.map_cons, List.map_nil, List.sum_cons,
    List.sum_nil]
  rw [bandPart_some 0 250000 t (by norm_num), bandPart_some 250000 500000 t (by norm_num),
    bandPart_some 500000 1000000 t (by norm_num)]
  simp only [bandPart]
  ring

/-- Claim C20: both schedules are progressive.  For every taxable income
`t ≥ 0` the tax the code computes at taxable income `t` (new regime: gross
income `t + 75000`; old regime: gross income `t + 50000` without claims) is the
marginal-sum reference tax of the bands; for every income the evaluators are the
reference tax at their taxable income; and each cumulative base (0, 20000,
60000, 120000, 200000, 300000; 0, 12500, 112500) is the reference tax at its
band edge, so the tax has no jump there. -/
theorem schedules_are_marginal_sums (t x : ℚ) (d : Claims) (ht : 0 ≤ t) :
    ServerJs.calculateNewRegime (t + 75000) = marginalTax newRegimeBands t ∧
    ServerJs.calculateOldRegime (t + 50000) Claims.empty = marginalTax oldRegimeBands t ∧
    ServerJs.calculateNewRegime x = marginalTax newRegimeBands (max 0 (x - 75000)) ∧
    ServerJs.calculateOldRegime x d
      = marginalTax oldRegimeBands (max 0 (x - 50000 - ServerJs.totalDeductions d)) ∧
    (marginalTax newRegimeBands 400000 = 0 ∧ marginalTax newRegimeBands 800000 = 20000 ∧
      marginalTax newRegimeBands 1200000 = 60000 ∧
      marginalTax newRegimeBands 1600000 = 120000 ∧
      marginalTax newRegimeBands 2000000 = 200000 ∧
      marginalTax newRegimeBands 2400000 = 300000) ∧
    (marginalTax oldRegimeBands 250000 = 0 ∧ marginalTax oldRegimeBands 500000 = 12500 ∧
      marginalTax oldRegimeBands 1000000 = 112500) := by
  have hn : ∀ y : ℚ,
      ServerJs.calculateNewRegime y = marginalTax newRegimeBands (max 0 (y - 75000)) := by
    intro y
    rw [marginalTax_newRegimeBands]
    unfold ServerJs.calculateNewRegime
    exact newSchedule_marginal _
  have ho : ∀ (y : ℚ) (m : Claims), ServerJs.calculateOldRegime y m
      = marginalTax oldRegimeBands (max 0 (y - 50000 - ServerJs.totalDeductions m)) := by
    intro y m
    rw [marginalTax_oldRegimeBands]
    unfold ServerJs.calculateOldRegime
    exact oldSchedule_marginal _
  have hD : ServerJs.totalDeductions Claims.empty = 0 := by
    simp [ServerJs.totalDeductions, Claims.empty, orZero]
  refine ⟨?_, ?_, hn x, ho x d, ?_, ?_⟩
  · rw [hn, add_sub_cancel_right, max_eq_right ht]
  · rw [ho, hD, sub_zero, add_sub_cancel_right, max_eq_right ht]
  · simp only [marginalTax_newRegimeBands]
    norm_num
  · simp only [marginalTax_oldRegimeBands]
    norm_num

/-- Witness for C20 at taxable income 925000: the new-regime tax at gross
income 1000000 is the marginal sum, 32500. -/
theorem schedules_are_marginal_sums_witness :
    ServerJs.calculateNewRegime (925000 + 75000) = marginalTax newRegimeBands 925000 ∧
    marginalTax newRegimeBands 925000 = 32500 :=
  ⟨(schedules_are_marginal_sums 925000 0 Claims.empty (by norm_num)).1,
   by rw [marginalTax_newRegimeBands]; norm_num⟩

/-- The new-regime tax of `Server/Server.js` is 5% of the excess of the taxable
income over each of the six band edges. -/
theorem ServerJs.calculateNewRegime_eq_excess (x : ℚ) :
    ServerJs.calculateNewRegime x
      = (5 / 100) * (max 0 (max 0 (x - 75000) - 400000) + max 0 (max 0 (x - 75000) - 800000)
        + max 0 (max 0 (x - 75000) - 1200000) + max 0 (max 0 (x - 75000) - 1600000)
        + max 0 (max 0 (x - 75000) - 2000000) + max 0 (max 0 (x - 75000) - 2400000)) := by
  unfold ServerJs.calculateNewRegime
  exact newSchedule_marginal _

/-- The old-regime tax of `Server/Server.js` is 5% of the excess of the taxable
income over 250000, 15% of that over 500000 and 10% of that over 1000000. -/
theorem ServerJs.calculateOldRegime_eq_excess (x : ℚ) (d : Claims) :
    ServerJs.calculateOldRegime x d
      = (5 / 100) * max 0 (max 0 (x - 50000 - ServerJs.totalDeductions d) - 250000)
        + (15 / 100) * max 0 (max 0 (x - 50000 - ServerJs.totalDeductions d) - 500000)
        + (10 / 100) * max 0 (max 0 (x - 50000 - ServerJs.totalDeductions d) - 1000000) := by
  unfold ServerJs.calculateOldRegime
  exact oldSchedule_marginal _

/-- The empty mapping has total deduction 0 in `Server/Server.js`. -/
theorem ServerJs.totalDeductions_empty : ServerJs.totalDeductions Claims.empty = 0 := by
  simp [ServerJs.totalDeductions, Claims.empty, orZero]

/-- Claim C21: `calculateNewRegime income = 0` exactly when `income ≤ 475000`
(taxable income at most 400000), and with empty claims
`calculateOldRegime income = 0` exactly when `income ≤ 300000` (taxable income
at most 250000); above these thresholds the tax is strictly positive and
strictly increasing in the income. -/
theorem zero_tax_thresholds (income : ℚ) :
    (max 0 (income - 75000) ≤ 400000 ↔ income ≤ 475000) ∧
    (ServerJs.calculateNewRegime income = 0 ↔ income ≤ 475000) ∧
    (max 0 (income - 50000 - ServerJs.totalDeductions Claims.empty) ≤ 250000
      ↔ income ≤ 300000) ∧
    (ServerJs.calculateOldRegime income Claims.empty = 0 ↔ income ≤ 300000) ∧
    (475000 < income → 0 < ServerJs.calculateNewRegime income) ∧
    (300000 < income → 0 < ServerJs.calculateOldRegime income Claims.empty) ∧
    (∀ b, 475000 ≤ income → income < b →
      ServerJs.calculateNewRegime income < ServerJs.calculateNewRegime b) ∧
    (∀ b, 300000 ≤ income → income < b →
      ServerJs.calculateOldRegime income Claims.empty
        < ServerJs.calculateOldRegime b Claims.empty) := by
  have hD := ServerJs.totalDeductions_empty
  have hnpos : ∀ y : ℚ, 475000 < y → 0 < ServerJs.calculateNewRegime y := by
    intro y hy
    rw [ServerJs.calculateNewRegime_eq_excess]
    have ht : max 0 (y - 75000) = y - 75000 := max_eq_right (by linarith)
    rw [ht, excess_of_lt (y - 75000) 400000 (by linarith)]
    have h2 := le_max_left 0 (y - 75000 - 800000)
    have h3 := le_max_left 0 (y - 75000 - 1200000)
    have h4 := le_max_left 0 (y - 75000 - 1600000)
    have h5 := le_max_left 0 (y - 75000 - 2000000)
    have h6 := le_max_left 0 (y - 75000 - 2400000)
    linarith
  have hopos : ∀ y : ℚ, 300000 < y → 0 < ServerJs.calculateOldRegime y Claims.empty := by
    intro y hy
    rw [ServerJs.calculateOldRegime_eq_excess, hD]
    have ht : max 0 (y - 50000 - 0) = y - 50000 := by
      rw [sub_zero]; exact max_eq_right (by linarith)
    rw [ht, excess_of_lt (y - 50000) 250000 (by linarith)]
    have h2 := le_max_left 0 (y - 50000 - 500000)
    have h3 := le_max_left 0 (y - 50000 - 1000000)
    linarith
  have hnzero : ∀ y : ℚ, y ≤ 475000 → ServerJs.calculateNewRegime y = 0 := by
    intro y hy
    have ht : max 0 (y - 75000) ≤ 400000 := max_le (by norm_num) (by linarith)
    unfold ServerJs.calculateNewRegime
    simp only []
    rw [if_pos ht]
  have hozero : ∀ y : ℚ, y ≤ 300000 → ServerJs.calculateOldRegime y Claims.empty = 0 := by
    intro y hy
    have ht : max 0 (y - 50000 - ServerJs.totalDeductions Claims.empty) ≤ 250000 := by
      rw [hD]; exact max_le (by norm_num) (by linarith)
    unfold ServerJs.totalDeductions at ht
    unfold ServerJs.calculateOldRegime
    simp only [] at ht ⊢
    rw [if_pos ht]
  refine ⟨?_, ?_, ?_, ?_, hnpos income, hopos income, ?_, ?_⟩
  · constructor
    · intro h
      have := le_trans (le_max_right 0 (income - 75000)) h
      linarith
    · intro h
      exact max_le (by norm_num) (by linarith)
  · constructor
    · intro h
      by_contra hc
      have := hnpos income (not_le.mp hc)
      linarith
    · exact hnzero income
  · rw [hD]
    constructor
    · intro h
      have := le_trans (le_max_right 0 (income - 50000 - 0)) h
      linarith
    · intro h
      exact max_le (by norm_num) (by linarith)
  · constructor
    · intro h
      by_contra hc
      have := hopos income (not_le.mp hc)
      linarith
    · exact hozero income
  · intro b ha hab
    rw [ServerJs.calculateNewRegime_eq_excess, ServerJs.calculateNewRegime_eq_excess]
    have ta : max 0 (income - 75000) = income - 75000 := max_eq_right (by linarith)
    have tb : max 0 (b - 75000) = b - 75000 := max_eq_right (by linarith)
    rw [ta, tb]
    have hle : income - 75000 ≤ b - 75000 := by linarith
    have e1 : max 0 (income - 75000 - 400000) = income - 75000 - 400000 :=
      max_eq_right (by linarith)
    have e1' : max 0 (b - 75000 - 400000) = b - 75000 - 400000 :=
      max_eq_right (by linarith)
    have h2 := excess_mono 800000 hle
    have h3 := excess_mono 1200000 hle
    have h4 := excess_mono 1600000 hle
    have h5 := excess_mono 2000000 hle
    have h6 := excess_mono 2400000 hle
    rw [e1, e1']
    linarith
  · intro b ha hab
    rw [ServerJs.calculateOldRegime_eq_excess, ServerJs.calculateOldRegime_eq_excess, hD]
    have ta : max 0 (income - 50000 - 0) = income - 50000 := by
      rw [sub_zero]; exact max_eq_right (by linarith)
    have tb : max 0 (b - 50000 - 0) = b - 50000 := by
      rw [sub_zero]; exact max_eq_right (by linarith)
    rw [ta, tb]
    have hle : income - 50000 ≤ b - 50000 := by linarith
    have e1 : max 0 (income - 50000 - 250000) = income - 50000 - 250000 :=
      max_eq_right (by linarith)
    have e1' : max 0 (b - 50000 - 250000) = b - 50000 - 250000 :=
      max_eq_right (by linarith)
    have h2 := excess_mono 500000 hle
    have h3 := excess_mono 1000000 hle
    rw [e1, e1']
    linarith

/-- Claim C22: `calculateNewRegime` is the same function of the income in
`Server/Server.js`, `Server/index.js` and `ai-engine/index.js`, and for every
income and every mapping whose only keys are among `80c`, `80d`, `24b` and
`hra`, `calculateOldRegime` of `Server/index.js` returns the tax that
`calculateOldRegime` of `Server/Server.js` returns. -/
theorem duplicated_calculators_agree (income : ℚ) (d : Claims)
    (hkeys : ∀ k, k ∉ ["80c", "80d", "24b", "hra"] → d k = none) :
    ServerIndex.calculateNewRegime income = ServerJs.calculateNewRegime income ∧
    AiEngine.calculateNewRegime income = ServerJs.calculateNewRegime income ∧
    ServerIndex.calculateOldRegime income d = ServerJs.calculateOldRegime income d := by
  refine ⟨rfl, rfl, ?_⟩
  have h1 : d "80tta" = none := hkeys "80tta" (by decide)
  have h2 : d "80ccd" = none := hkeys "80ccd" (by decide)
  have h3 : d "80g" = none := hkeys "80g" (by decide)
  have h4 : d "80e" = none := hkeys "80e" (by decide)
  unfold ServerIndex.calculateOldRegime ServerJs.calculateOldRegime
  simp only [h1, h2, h3, h4, orZero]
  norm_num

/-- Witness for C22 at income 1000000 with the claims `80c = 150000`,
`80d = 25000`, `hra = 5`. -/
theorem duplicated_calculators_agree_witness :
    ServerIndex.calculateOldRegime 1000000
      (((Claims.empty.set "80c" 150000).set "80d" 25000).set "hra" 5)
    = ServerJs.calculateOldRegime 1000000
      (((Claims.empty.set "80c" 150000).set "80d" 25000).set "hra" 5) :=
  (duplicated_calculators_agree 1000000
    (((Claims.empty.set "80c" 150000).set "80d" 25000).set "hra" 5)
    (by
      intro k hk
      simp only [List.mem_cons, List.mem_singleton, List.not_mem_nil, or_false,
        not_or] at hk
      simp only [Claims.set, Claims.empty, if_neg hk.1, if_neg hk.2.1, if_neg hk.2.2.2])).2.2

/-- The excess of an amount over an edge does not grow when the amount shrinks
and the edge rises. -/
theorem excess_anti {t u : ℚ} (a b : ℚ) (htu : t ≤ u) (hba : b ≤ a) :
    max 0 (t - a) ≤ max 0 (u - b) :=
  max_le_max le_rfl (by linarith)

/-- The excess over an edge grows at most as fast as the amount. -/
theorem excess_lipschitz {t u : ℚ} (a : ℚ) (h : t ≤ u) :
    max 0 (u - a) ≤ max 0 (t - a) + (u - t) := by
  have h1 := le_max_left 0 (t - a)
  have h2 := le_max_right 0 (t - a)
  exact max_le (by linarith) (by linarith)

/-- Whenever the total deduction is at most 25000, the new-regime tax of
`Server/Server.js` is at most its old-regime tax. -/
theorem ServerJs.new_le_old_of_small_deductions (x : ℚ) (d : Claims)
    (hD : ServerJs.totalDeductions d ≤ 25000) :
    ServerJs.calculateNewRegime x ≤ ServerJs.calculateOldRegime x d := by
  rw [ServerJs.calculateNewRegime_eq_excess, ServerJs.calculateOldRegime_eq_excess]
  have ht : max 0 (x - 75000) ≤ max 0 (x - 50000 - ServerJs.totalDeductions d) :=
    max_le_max le_rfl (by linarith)
  have h1 := excess_anti 400000 250000 ht (by norm_num)
  have h2 := excess_anti 800000 500000 ht (by norm_num)
  have h3 := excess_anti 1200000 500000 ht (by norm_num)
  have h4 := excess_anti 1600000 500000 ht (by norm_num)
  have h5 := excess_anti 2000000 1000000 ht (by norm_num)
  have h6 := excess_anti 2400000 1000000 ht (by norm_num)
  linarith

/-- Claim C26: with no deductions the new regime never loses.  For every
income `≥ 0` and empty claims the new-regime tax is at most the old-regime tax,
strictly less once the income exceeds 300000, so the handler recommends
"New Regime"; it recommends "New Regime" for every mapping all of whose
amounts read as 0, and "Old Regime" only when some amount is claimed, indeed
only when the total deduction exceeds 25000. -/
theorem new_regime_never_loses (income : ℚ) (claims : Claims) (h0 : 0 ≤ income) :
    ServerJs.calculateNewRegime income ≤ ServerJs.calculateOldRegime income Claims.empty ∧
    (300000 < income →
      ServerJs.calculateNewRegime income < ServerJs.calculateOldRegime income Claims.empty) ∧
    (ServerJs.taxComparison income Claims.empty).recommendation = "New Regime" ∧
    ((∀ k, orZero (claims k) = 0) →
      (ServerJs.taxComparison income claims).recommendation = "New Regime") ∧
    ((ServerJs.taxComparison income claims).recommendation = "Old Regime" →
      25000 < ServerJs.totalDeductions claims ∧ ∃ k, orZero (claims k) ≠ 0) := by
  have _ := h0
  have hD := ServerJs.totalDeductions_empty
  have hrec : ∀ m : Claims, ServerJs.totalDeductions m ≤ 25000 →
      (ServerJs.taxComparison income m).recommendation = "New Regime" := by
    intro m hm
    simp only [ServerJs.taxComparison]
    rw [if_pos (Int.floor_mono (ServerJs.new_le_old_of_small_deductions income m hm))]
  have hzero : (∀ k, orZero (claims k) = 0) → ServerJs.totalDeductions claims = 0 := by
    intro h
    simp [ServerJs.totalDeductions, h]
  refine ⟨ServerJs.new_le_old_of_small_deductions _ _ (by rw [hD]; norm_num), ?_,
    hrec _ (by rw [hD]; norm_num), ?_, ?_⟩
  · intro hi
    rw [ServerJs.calculateNewRegime_eq_excess, ServerJs.calculateOldRegime_eq_excess, hD]
    have hto : max 0 (income - 50000 - 0) = income - 50000 := by
      rw [sub_zero]; exact max_eq_right (by linarith)
    have ht : max 0 (income - 75000) ≤ income - 50000 := max_le (by linarith) (by linarith)
    rw [hto]
    have e : max 0 (income - 50000 - 250000) = income - 50000 - 250000 :=
      max_eq_right (by linarith)
    have h1 : max 0 (max 0 (income - 75000) - 400000) < income - 50000 - 250000 :=
      max_lt (by linarith) (by linarith)
    have h2 := excess_anti 800000 500000 ht (by norm_num)
    have h3 := excess_anti 1200000 500000 ht (by norm_num)
    have h4 := excess_anti 1600000 500000 ht (by norm_num)
    have h5 := excess_anti 2000000 1000000 ht (by norm_num)
    have h6 := excess_anti 2400000 1000000 ht (by norm_num)
    rw [e]
    linarith
  · intro h
    exact hrec _ (by rw [hzero h]; norm_num)
  · intro hold
    have hne : ¬ ("New Regime" = "Old Regime") := by decide
    have hgt : 25000 < ServerJs.totalDeductions claims := by
      by_contra hc
      have := hrec claims (not_lt.mp hc)
      rw [this] at hold
      exact hne hold
    refine ⟨hgt, ?_⟩
    by_contra hc
    push_neg at hc
    rw [hzero hc] at hgt
    norm_num at hgt

/-- Witness for C26 at income 1000000 with empty claims: "New Regime". -/
theorem new_regime_never_loses_witness :
    (ServerJs.taxComparison 1000000 Claims.empty).recommendation = "New Regime" :=
  (new_regime_never_loses 1000000 Claims.empty (by norm_num)).2.2.1

/-- The new-regime tax of `Server/Server.js` rises by at most 30% of a rise of
the income. -/
theorem ServerJs.calculateNewRegime_lipschitz {a b : ℚ} (hab : a ≤ b) :
    ServerJs.calculateNewRegime b - ServerJs.calculateNewRegime a ≤ (30 / 100) * (b - a) := by
  rw [ServerJs.calculateNewRegime_eq_excess, ServerJs.calculateNewRegime_eq_excess]
  have ht : max 0 (a - 75000) ≤ max 0 (b - 75000) := max_le_max le_rfl (by linarith)
  have hd : max 0 (b - 75000) ≤ max 0 (a - 75000) + (b - a) := by
    have h := excess_lipschitz 75000 hab
    linarith
  have h1 := excess_lipschitz 400000 ht
  have h2 := excess_lipschitz 800000 ht
  have h3 := excess_lipschitz 1200000 ht
  have h4 := excess_lipschitz 1600000 ht
  have h5 := excess_lipschitz 2000000 ht
  have h6 := excess_lipschitz 2400000 ht
  linarith

/-- The old-regime tax of `Server/Server.js` rises by at most 30% of a rise of
the income. -/
theorem ServerJs.calculateOldRegime_lipschitz {a b : ℚ} (d : Claims) (hab : a ≤ b) :
    ServerJs.calculateOldRegime b d - ServerJs.calculateOldRegime a d
      ≤ (30 / 100) * (b - a) := by
  rw [ServerJs.calculateOldRegime_eq_excess, ServerJs.calculateOldRegime_eq_excess]
  have ht : max 0 (a - 50000 - ServerJs.totalDeductions d)
      ≤ max 0 (b - 50000 - ServerJs.totalDeductions d) := max_le_max le_rfl (by linarith)
  have hd : max 0 (b - 50000 - ServerJs.totalDeductions d)
      ≤ max 0 (a - 50000 - ServerJs.totalDeductions d) + (b - a) := by
    have h := excess_lipschitz (50000 + ServerJs.totalDeductions d) hab
    rw [← sub_sub, ← sub_sub] at h
    exact h
  have h1 := excess_lipschitz 250000 ht
  have h2 := excess_lipschitz 500000 ht
  have h3 := excess_lipschitz 1000000 ht
  linarith

/-- The total deduction of `Server/Server.js` grows with every amount. -/
theorem ServerJs.totalDeductions_mono (d d' : Claims)
    (hle : ∀ k, orZero (d k) ≤ orZero (d' k)) :
    ServerJs.totalDeductions d ≤ ServerJs.totalDeductions d' := by
  unfold ServerJs.totalDeductions
  simp only []
  have m1 := min_le_min_right (150000 : ℚ) (hle "80c")
  have m2 := min_le_min_right (25000 : ℚ) (hle "80d")
  have m3 := min_le_min_right (200000 : ℚ) (hle "24b")
  have m4 := min_le_min_right (10000 : ℚ) (hle "80tta")
  have m5 := min_le_min_right (50000 : ℚ) (hle "80ccd")
  have m6 := hle "80g"
  have m7 := hle "80e"
  have m8 := hle "hra"
  linarith

/-- Claim C28: claiming more never costs more.  For every income and mappings
`d ≤ d'` entry by entry (an absent entry reading as 0), the old-regime tax for
`d'` is at most that for `d`, in `Server/Server.js` and in `Server/index.js`;
in particular a mapping with non-negative amounts gives a tax no greater than
the empty mapping. -/
theorem claiming_more_never_costs_more (income : ℚ) (d d' : Claims)
    (hle : ∀ k, orZero (d k) ≤ orZero (d' k)) :
    ServerJs.calculateOldRegime income d' ≤ ServerJs.calculateOldRegime income d ∧
    ServerIndex.calculateOldRegime income d' ≤ ServerIndex.calculateOldRegime income d ∧
    (∀ m : Claims, m.NonNeg →
      ServerJs.calculateOldRegime income m ≤ ServerJs.calculateOldRegime income Claims.empty) ∧
    (∀ m : Claims, m.NonNeg →
      ServerIndex.calculateOldRegime income m
        ≤ ServerIndex.calculateOldRegime income Claims.empty) := by
  have hjs : ∀ m m' : Claims, (∀ k, orZero (m k) ≤ orZero (m' k)) →
      ServerJs.calculateOldRegime income m' ≤ ServerJs.calculateOldRegime income m := by
    intro m m' h
    have hD := ServerJs.totalDeductions_mono m m' h
    have ht : max 0 (income - 50000 - ServerJs.totalDeductions m')
        ≤ max 0 (income - 50000 - ServerJs.totalDeductions m) :=
      max_le_max le_rfl (by linarith)
    unfold ServerJs.calculateOldRegime
    exact oldSchedule_mono ht
  have hix : ∀ m w : Claims, (∀ k, orZero (m k) ≤ orZero (w k)) →
      ServerIndex.calculateOldRegime income w ≤ ServerIndex.calculateOldRegime income m := by
    intro m w h
    have m1 := min_le_min_right (150000 : ℚ) (h "80c")
    have m2 := min_le_min_right (25000 : ℚ) (h "80d")
    have m3 := min_le_min_right (200000 : ℚ) (h "24b")
    have m4 := h "hra"
    have ht : max 0 (income - 50000 - (min (orZero (w "80c")) 150000
          + min (orZero (w "80d")) 25000 + min (orZero (w "24b")) 200000
          + orZero (w "hra")))
        ≤ max 0 (income - 50000 - (min (orZero (m "80c")) 150000
          + min (orZero (m "80d")) 25000 + min (orZero (m "24b")) 200000
          + orZero (m "hra"))) :=
      max_le_max le_rfl (by linarith)
    unfold ServerIndex.calculateOldRegime
    exact oldSchedule_mono ht
  have hempty : ∀ m : Claims, m.NonNeg → ∀ k, orZero (Claims.empty k) ≤ orZero (m k) := by
    intro m hm k
    have h := orZero_nonneg hm k
    simpa [Claims.empty, orZero] using h
  exact ⟨hjs d d' hle, hix d d' hle, fun m hm => hjs _ _ (hempty m hm),
    fun m hm => hix _ _ (hempty m hm)⟩

/-- Witness for C28 at income 1000000: the claims `80c = 150000`,
`80d = 25000`, `hra = 5` cost no more than the empty claims. -/
theorem claiming_more_never_costs_more_witness :
    ServerJs.calculateOldRegime 1000000
      (((Claims.empty.set "80c" 150000).set "80d" 25000).set "hra" 5)
    ≤ ServerJs.calculateOldRegime 1000000 Claims.empty :=
  (claiming_more_never_costs_more 1000000 Claims.empty
    (((Claims.empty.set "80c" 150000).set "80d" 25000).set "hra" 5)
    (by
      intro k
      have h := orZero_nonneg nonNeg_sample k
      simpa [Claims.empty, orZero] using h)).1

/-- Claim C29: in the `/analyze-tax` handler of `Server/Server.js` the
comparison depends on the AI reply only through `total_income`,
`deductions_80c`, `deductions_80d` and `hra_exemption`: two replies that agree
on these four fields give the same answer, whatever they hold under
`deductions_24b`, `deductions_80ccd`, `deductions_80g`, `deductions_80tta` and
`deductions_80e`. -/
theorem comparison_reads_four_fields (n : ℕ) (a a' : AiData)
    (h1 : a.total_income = a'.total_income)
    (h2 : a.deductions_80c = a'.deductions_80c)
    (h3 : a.deductions_80d = a'.deductions_80d)
    (h4 : a.hra_exemption = a'.hra_exemption) :
    ServerJs.deductionMap a = ServerJs.deductionMap a' ∧
    ServerJs.analyzeTax n (some a) = ServerJs.analyzeTax n (some a') := by
  have hm : ServerJs.deductionMap a = ServerJs.deductionMap a' := by
    funext key
    simp only [ServerJs.deductionMap, h2, h3, h4]
  refine ⟨hm, ?_⟩
  simp only [ServerJs.analyzeTax, h1, hm]

/-- Witness for C29: a reply with income 1000000, `80c = 150000`,
`80d = 25000`, and the same reply with 200000 under `deductions_24b` and 50000
under `deductions_80ccd`, both get old tax 67500, new tax 32500, savings 35000
and "New Regime". -/
theorem comparison_reads_four_fields_witness :
    ServerJs.analyzeTax 1
        (some { total_income := some 1000000, deductions_80c := some 150000,
                deductions_80d := some 25000, deductions_24b := some 200000,
                deductions_80ccd := some 50000 })
      = ServerJs.analyzeTax 1
        (some { total_income := some 1000000, deductions_80c := some 150000,
                deductions_80d := some 25000 }) :=
  (comparison_reads_four_fields 1
    { total_income := some 1000000, deductions_80c := some 150000,
      deductions_80d := some 25000, deductions_24b := some 200000,
      deductions_80ccd := some 50000 }
    { total_income := some 1000000, deductions_80c := some 150000,
      deductions_80d := some 25000 } rfl rfl rfl rfl).2

/-- The retry loop makes at most `remaining` further attempts. -/
theorem ServerJs.retryFrom_attempts_le (post : ℕ → PostOutcome) (remaining i : ℕ)
    (delays : List ℕ) :
    (ServerJs.retryFrom post remaining i delays).attempts ≤ i + remaining := by
  induction remaining generalizing i delays with
  | zero => simp [ServerJs.retryFrom]
  | succ n ih =>
    simp only [ServerJs.retryFrom]
    cases post i with
    | response body => simp only []; omega
    | failure status =>
      simp only []
      split_ifs
      · have h := ih (i + 1) (delays ++ [2000 * (i + 1)])
        omega
      · simp only []; omega

/-- Claim C24: `callGeminiWithRetry` with `retries = 3`, as a function of the
outcomes of its POST attempts, makes at most 3 attempts (at most `retries` in
general); it returns the first successful response; it throws the first error
whose status is not 429 again at once, with no further attempt; after the
attempt with index `i` fails with 429 it waits `2000 * (i + 1)` ms; and when
all 3 attempts fail with 429 it fails with
"Gemini API Rate Limit Exceeded after retries.". -/
theorem retry_with_backoff (post : ℕ → PostOutcome) :
    (∀ retries, (ServerJs.callGeminiWithRetry post retries).attempts ≤ retries) ∧
    (ServerJs.callGeminiWithRetry post 3).attempts ≤ 3 ∧
    (∀ body, post 0 = .response body →
      (ServerJs.callGeminiWithRetry post 3).result = .ok body ∧
      (ServerJs.callGeminiWithRetry post 3).attempts = 1 ∧
      (ServerJs.callGeminiWithRetry post 3).delays = []) ∧
    (∀ status, post 0 = .failure status → status ≠ some 429 →
      (ServerJs.callGeminiWithRetry post 3).result = .error (.rethrown status) ∧
      (ServerJs.callGeminiWithRetry post 3).attempts = 1 ∧
      (ServerJs.callGeminiWithRetry post 3).delays = []) ∧
    (∀ body, post 0 = .failure (some 429) → post 1 = .response body →
      (ServerJs.callGeminiWithRetry post 3).result = .ok body ∧
      (ServerJs.callGeminiWithRetry post 3).attempts = 2 ∧
      (ServerJs.callGeminiWithRetry post 3).delays = [2000]) ∧
    (∀ status, post 0 = .failure (some 429) → post 1 = .failure status →
      status ≠ some 429 →
      (ServerJs.callGeminiWithRetry post 3).result = .error (.rethrown status) ∧
      (ServerJs.callGeminiWithRetry post 3).attempts = 2 ∧
      (ServerJs.callGeminiWithRetry post 3).delays = [2000]) ∧
    (∀ body, post 0 = .failure (some 429) → post 1 = .failure (some 429) →
      post 2 = .response body →
      (ServerJs.callGeminiWithRetry post 3).result = .ok body ∧
      (ServerJs.callGeminiWithRetry post 3).attempts = 3 ∧
      (ServerJs.callGeminiWithRetry post 3).delays = [2000, 4000]) ∧
    (∀ status, post 0 = .failure (some 429) → post 1 = .failure (some 429) →
      post 2 = .failure status → status ≠ some 429 →
      (ServerJs.callGeminiWithRetry post 3).result = .error (.rethrown status) ∧
      (ServerJs.callGeminiWithRetry post 3).attempts = 3 ∧
      (ServerJs.callGeminiWithRetry post 3).delays = [2000, 4000]) ∧
    (post 0 = .failure (some 429) → post 1 = .failure (some 429) →
      post 2 = .failure (some 429) →
      (ServerJs.callGeminiWithRetry post 3).result
        = .error (.rateLimit "Gemini API Rate Limit Exceeded after retries.") ∧
      (ServerJs.callGeminiWithRetry post 3).attempts = 3 ∧
      (ServerJs.callGeminiWithRetry post 3).delays = [2000, 4000, 6000]) := by
  have hle : ∀ retries, (ServerJs.callGeminiWithRetry post retries).attempts ≤ retries := by
    intro retries
    have h := ServerJs.retryFrom_attempts_le post retries 0 []
    simpa [ServerJs.callGeminiWithRetry] using h
  refine ⟨hle, hle 3, ?_, ?_, ?_, ?_, ?_, ?_, ?_⟩
  · intro body h0
    simp [ServerJs.callGeminiWithRetry, ServerJs.retryFrom, h0]
  · intro status h0 hs
    simp [ServerJs.callGeminiWithRetry, ServerJs.retryFrom, h0, hs]
  · intro body h0 h1
    simp [ServerJs.callGeminiWithRetry, ServerJs.retryFrom, h0, h1]
  · intro status h0 h1 hs
    simp [ServerJs.callGeminiWithRetry, ServerJs.retryFrom, h0, h1, hs]
  · intro body h0 h1 h2
    simp [ServerJs.callGeminiWithRetry, ServerJs.retryFrom, h0, h1, h2]
  · intro status h0 h1 h2 hs
    simp [ServerJs.callGeminiWithRetry, ServerJs.retryFrom, h0, h1, h2, hs]
  · intro h0 h1 h2
    simp [ServerJs.callGeminiWithRetry, ServerJs.retryFrom, h0, h1, h2]

/-- Witness for C24 on the outcomes 429, 429, success: the third response is
returned after waits of 2000 and 4000 ms. -/
theorem retry_with_backoff_witness :
    (ServerJs.callGeminiWithRetry
      (fun i => if i < 2 then .failure (some 429) else .response "ok") 3).result = .ok "ok" ∧
    (ServerJs.callGeminiWithRetry
      (fun i => if i < 2 then .failure (some 429) else .response "ok") 3).attempts = 3 ∧
    (ServerJs.callGeminiWithRetry
      (fun i => if i < 2 then .failure (some 429) else .response "ok") 3).delays
      = [2000, 4000] :=
  (retry_with_backoff
    (fun i => if i < 2 then .failure (some 429) else .response "ok")).2.2.2.2.2.2.1
    "ok" (by simp) (by simp) (by simp)

/-- Claim C25: in the `ai-engine` handler, for a request with a user id and at
least one transaction, an AI reply that `JSON.parse` rejects does not make the
handler fail: it serves the default comparison, `total_income` 0, deductions
0, old tax 0, new tax 0, savings 0 and "New Regime"; and a parsed reply whose
`total_income` is missing or 0 is treated as income 0. -/
theorem graceful_degradation (userId : String) (n : ℕ) (aiData : AiData)
    (hu : userId ≠ "") :
    AiEngine.analyzeTax (some userId) (n + 1) .unparseable
      = .ok { total_income := 0, detected_80c := some 0, detected_80d := some 0,
              tax_comparison := ⟨some 0, 0, some 0, "New Regime"⟩ } ∧
    (aiData.total_income = none ∨ aiData.total_income = some 0 →
      AiEngine.analyzeTax (some userId) (n + 1) (.parsed aiData)
        = .ok { total_income := 0, detected_80c := aiData.deductions_80c,
                detected_80d := aiData.deductions_80d,
                tax_comparison :=
                  AiEngine.taxComparison 0 aiData.deductions_80c aiData.deductions_80d } ∧
      (AiEngine.taxComparison 0 aiData.deductions_80c
        aiData.deductions_80d).new_regime_tax = 0) := by
  have hn : AiEngine.calculateNewRegime 0 = 0 := by
    norm_num [AiEngine.calculateNewRegime]
  have ho : AiEngine.calculateOldRegime 0 (some 0) (some 0) = some 0 := by
    norm_num [AiEngine.calculateOldRegime, jsMin, jsMax, jsSub, jsAdd, jsMul, jsLe]
  constructor
  · simp [AiEngine.analyzeTax, hu, orZero, AiEngine.taxComparison, hn, ho]
  · intro h
    have hi : orZero aiData.total_income = 0 := by
      rcases h with h | h <;> rw [h] <;> rfl
    constructor
    · simp [AiEngine.analyzeTax, hu, hi]
    · simp [AiEngine.taxComparison, hn]

/-- Witness for C25 for the user `u1` with one transaction. -/
theorem graceful_degradation_witness :
    AiEngine.analyzeTax (some "u1") 1 .unparseable
      = .ok { total_income := 0, detected_80c := some 0, detected_80d := some 0,
              tax_comparison := ⟨some 0, 0, some 0, "New Regime"⟩ } :=
  (graceful_degradation "u1" 0 {} (by decide)).1

/-- The most recent record of a list is `none` only for the empty list. -/
theorem ServerJs.mostRecent_eq_none (l : List TaxRecord) :
    ServerJs.mostRecent l = none ↔ l = [] := by
  cases l with
  | nil => simp [ServerJs.mostRecent]
  | cons r rs =>
    simp only [ServerJs.mostRecent]
    cases ServerJs.mostRecent rs with
    | none => simp
    | some b => simp only []; split_ifs <;> simp

/-- The most recent record of a list belongs to it and no record of the list
has a later timestamp. -/
theorem ServerJs.mostRecent_spec (l : List TaxRecord) (c : TaxRecord)
    (h : ServerJs.mostRecent l = some c) :
    c ∈ l ∧ ∀ r ∈ l, r.timestamp ≤ c.timestamp := by
  induction l generalizing c with
  | nil => simp [ServerJs.mostRecent] at h
  | cons r rs ih =>
    simp only [ServerJs.mostRecent] at h
    cases hm : ServerJs.mostRecent rs with
    | none =>
      rw [hm] at h
      simp only [Option.some.injEq] at h
      subst h
      have hrs : rs = [] := (ServerJs.mostRecent_eq_none rs).mp hm
      subst hrs
      simp
    | some b =>
      rw [hm] at h
      simp only [] at h
      obtain ⟨hb, hmax⟩ := ih b hm
      split_ifs at h with hle
      · simp only [Option.some.injEq] at h
        subst h
        refine ⟨List.mem_cons_self _ _, ?_⟩
        intro x hx
        rcases List.mem_cons.mp hx with rfl | hx
        · exact le_rfl
        · exact le_trans (hmax x hx) hle
      · simp only [Option.some.injEq] at h
        subst h
        refine ⟨List.mem_cons_of_mem _ hb, ?_⟩
        intro x hx
        rcases List.mem_cons.mp hx with rfl | hx
        · exact le_of_lt (not_le.mp hle)
        · exact hmax x hx

/-- Claim C23: the 24-hour cache of the `/analyze-tax` handler of
`Server/Server.js`.  If the store holds a record of the user with
`timestamp ≥ now - 86400000`, the handler answers with the income, taxes,
savings and recommendation of a most recent such record, makes no AI call and
leaves the store unchanged.  If it holds none, the handler either fails (no
transactions, or no usable AI reply) and leaves the store unchanged, or
computes the comparison, answers with it and appends exactly one new record.
So the store changes only when no such record exists. -/
theorem cache_lookup_before_compute (store : List TaxRecord) (now created : ℤ)
    (userId : String) (rawTxns : ℕ) (reply : Option AiData) :
    ((∃ r ∈ store, r.userId = userId ∧ now - 86400000 ≤ r.timestamp) →
      ∃ c ∈ store, c.userId = userId ∧ now - 86400000 ≤ c.timestamp ∧
        (∀ r ∈ store, r.userId = userId → now - 86400000 ≤ r.timestamp →
          r.timestamp ≤ c.timestamp) ∧
        (ServerJs.analyzeTaxRequest store now created userId rawTxns reply).response
          = .ok ⟨c.totalIncome,
              ⟨c.oldRegimeTax, c.newRegimeTax, c.savings, c.recommendation⟩⟩ ∧
        (ServerJs.analyzeTaxRequest store now created userId rawTxns reply).store = store ∧
        (ServerJs.analyzeTaxRequest store now created userId rawTxns reply).aiCalls = 0) ∧
    ((¬ ∃ r ∈ store, r.userId = userId ∧ now - 86400000 ≤ r.timestamp) →
      (∀ aiData, rawTxns ≠ 0 → reply = some aiData →
        (ServerJs.analyzeTaxRequest store now created userId rawTxns reply).response
          = .ok ⟨orZero aiData.total_income,
              ServerJs.taxComparison (orZero aiData.total_income)
                (ServerJs.deductionMap aiData)⟩ ∧
        (ServerJs.analyzeTaxRequest store now created userId rawTxns reply).store
          = store ++ [{
              userId := userId
              totalIncome := orZero aiData.total_income
              oldRegimeTax := (ServerJs.taxComparison (orZero aiData.total_income)
                (ServerJs.deductionMap aiData)).old_regime_tax
              newRegimeTax := (ServerJs.taxComparison (orZero aiData.total_income)
                (ServerJs.deductionMap aiData)).new_regime_tax
              savings := (ServerJs.taxComparison (orZero aiData.total_income)
                (ServerJs.deductionMap aiData)).savings
              recommendation := (ServerJs.taxComparison (orZero aiData.total_income)
                (ServerJs.deductionMap aiData)).recommendation
              timestamp := created }] ∧
        (ServerJs.analyzeTaxRequest store now created userId rawTxns reply).aiCalls = 1) ∧
      (rawTxns = 0 ∨ reply = none →
        (ServerJs.analyzeTaxRequest store now created userId rawTxns reply).store = store ∧
        ∃ e, (ServerJs.analyzeTaxRequest store now created userId rawTxns reply).response
          = .error e)) ∧
    ((ServerJs.analyzeTaxRequest store now created userId rawTxns reply).store ≠ store →
      (¬ ∃ r ∈ store, r.userId = userId ∧ now - 86400000 ≤ r.timestamp) ∧
      (ServerJs.analyzeTaxRequest store now created userId rawTxns reply).store.length
        = store.length + 1) := by
  have hfilter : ∀ r, r ∈ store.filter
        (fun r => decide (r.userId = userId ∧ now - 86400000 ≤ r.timestamp)) ↔
      r ∈ store ∧ r.userId = userId ∧ now - 86400000 ≤ r.timestamp := by
    intro r
    simp [List.mem_filter]
  have hhit : ∀ c, ServerJs.findCache store userId now = some c →
      c ∈ store ∧ c.userId = userId ∧ now - 86400000 ≤ c.timestamp ∧
        (∀ r ∈ store, r.userId = userId → now - 86400000 ≤ r.timestamp →
          r.timestamp ≤ c.timestamp) ∧
        (ServerJs.analyzeTaxRequest store now created userId rawTxns reply).response
          = .ok ⟨c.totalIncome,
              ⟨c.oldRegimeTax, c.newRegimeTax, c.savings, c.recommendation⟩⟩ ∧
        (ServerJs.analyzeTaxRequest store now created userId rawTxns reply).store = store ∧
        (ServerJs.analyzeTaxRequest store now created userId rawTxns reply).aiCalls = 0 := by
    intro c hc
    have hspec := ServerJs.mostRecent_spec _ c hc
    obtain ⟨hmem, hmax⟩ := hspec
    have hc' := (hfilter c).mp hmem
    refine ⟨hc'.1, hc'.2.1, hc'.2.2, ?_, ?_, ?_, ?_⟩
    · intro r hr hu ht
      exact hmax r ((hfilter r).mpr ⟨hr, hu, ht⟩)
    · simp only [ServerJs.analyzeTaxRequest, hc]
    · simp only [ServerJs.analyzeTaxRequest, hc]
    · simp only [ServerJs.analyzeTaxRequest, hc]
  have hnone_iff : ServerJs.findCache store userId now = none ↔
      ¬ ∃ r ∈ store, r.userId = userId ∧ now - 86400000 ≤ r.timestamp := by
    unfold ServerJs.findCache
    rw [ServerJs.mostRecent_eq_none, List.filter_eq_nil_iff]
    constructor
    · rintro h ⟨r, hr, hu, ht⟩
      have := h r hr
      simp [hu, ht] at this
    · intro h r hr
      simp only [decide_eq_true_eq]
      intro hh
      exact h ⟨r, hr, hh⟩
  refine ⟨?_, ?_, ?_⟩
  · intro hex
    cases hf : ServerJs.findCache store userId now with
    | none => exact absurd hex (hnone_iff.mp hf)
    | some c =>
      obtain ⟨h1, h2, h3, h4, h5, h6, h7⟩ := hhit c hf
      exact ⟨c, h1, h2, h3, h4, h5, h6, h7⟩
  · intro hno
    have hf := hnone_iff.mpr hno
    constructor
    · intro aiData hn hr
      subst hr
      simp [ServerJs.analyzeTaxRequest, hf, hn, ServerJs.taxComparison]
    · intro h
      rcases h with h | h
      · subst h
        simp [ServerJs.analyzeTaxRequest, hf]
      · subst h
        by_cases hn : rawTxns = 0
        · simp [ServerJs.analyzeTaxRequest, hf, hn]
        · simp [ServerJs.analyzeTaxRequest, hf, hn]
  · intro hne
    cases hf : ServerJs.findCache store userId now with
    | some c => exact absurd (hhit c hf).2.2.2.2.2.1 hne
    | none =>
      refine ⟨hnone_iff.mp hf, ?_⟩
      by_cases hn : rawTxns = 0
      · exact absurd (by simp [ServerJs.analyzeTaxRequest, hf, hn]) hne
      · cases reply with
        | none => exact absurd (by simp [ServerJs.analyzeTaxRequest, hf, hn]) hne
        | some aiData => simp [ServerJs.analyzeTaxRequest, hf, hn]

/-- Witness for C23: with a record of user `u1` stamped 1000 in the store and
the clock at 2000, the handler answers from that record, calls no AI and leaves
the store as it is, although a fresh reply is at hand. -/
theorem cache_lookup_before_compute_witness :
    (ServerJs.analyzeTaxRequest [⟨"u1", 900000, 50000, 40000, 10000, "New Regime", 1000⟩]
        2000 3000 "u1" 5 (some { total_income := some 1000000 })).response
      = .ok ⟨900000, ⟨50000, 40000, 10000, "New Regime"⟩⟩ ∧
    (ServerJs.analyzeTaxRequest [⟨"u1", 900000, 50000, 40000, 10000, "New Regime", 1000⟩]
        2000 3000 "u1" 5 (some { total_income := some 1000000 })).store
      = [⟨"u1", 900000, 50000, 40000, 10000, "New Regime", 1000⟩] ∧
    (ServerJs.analyzeTaxRequest [⟨"u1", 900000, 50000, 40000, 10000, "New Regime", 1000⟩]
        2000 3000 "u1" 5 (some { total_income := some 1000000 })).aiCalls = 0 := by
  obtain ⟨c, hc, _, _, _, h1, h2, h3⟩ :=
    (cache_lookup_before_compute [⟨"u1", 900000, 50000, 40000, 10000, "New Regime", 1000⟩]
      2000 3000 "u1" 5 (some { total_income := some 1000000 })).1
      ⟨⟨"u1", 900000, 50000, 40000, 10000, "New Regime", 1000⟩, by simp, rfl, by norm_num⟩
  have hceq : c = ⟨"u1", 900000, 50000, 40000, 10000, "New Regime", 1000⟩ := by
    simpa using hc
  subst hceq
  exact ⟨h1, h2, h3⟩

/-- Rounding to the nearest integer moves a number by at most one half. -/
theorem roundHalfEven_abs_sub_le (q : ℚ) : |(roundHalfEven q : ℚ) - q| ≤ 1 / 2 := by
  have h1 := Int.floor_le q
  have h2 := Int.lt_floor_add_one q
  unfold roundHalfEven
  split_ifs with ha hb hc
  · rw [abs_le]; constructor <;> linarith
  · push_cast; rw [abs_le]; constructor <;> linarith
  · have hq : q - ⌊q⌋ = 1 / 2 := le_antisymm (not_lt.mp hb) (not_lt.mp ha)
    rw [abs_le]; constructor <;> linarith
  · have hq : q - ⌊q⌋ = 1 / 2 := le_antisymm (not_lt.mp hb) (not_lt.mp ha)
    push_cast; rw [abs_le]; constructor <;> linarith

/-- A number within less than one half of an integer rounds to that integer. -/
theorem roundHalfEven_eq_of_near (q : ℚ) (m : ℤ) (h : |q - m| < 1 / 2) :
    roundHalfEven q = m := by
  rw [abs_lt] at h
  obtain ⟨hl, hr⟩ := h
  rcases le_or_lt (m : ℚ) q with hmq | hmq
  · have hf : ⌊q⌋ = m := Int.floor_eq_iff.mpr ⟨hmq, by linarith⟩
    unfold roundHalfEven
    rw [hf, if_pos (by linarith)]
  · have hf : ⌊q⌋ = m - 1 := Int.floor_eq_iff.mpr ⟨by push_cast; linarith, by push_cast; linarith⟩
    unfold roundHalfEven
    rw [hf, if_neg (by push_cast; linarith), if_pos (by push_cast; linarith)]
    ring

/-- Rounding to a double moves a number by at most `2 ^ (-53)` of its
magnitude. -/
theorem roundDouble_abs_sub_le (x : ℚ) : |roundDouble x - x| ≤ 2 ^ (-53 : ℤ) * |x| := by
  unfold roundDouble
  split_ifs with h0
  · simp [h0]
  · have hx : 0 < |x| := abs_pos.mpr h0
    have hlog : ((2 : ℕ) : ℚ) ^ Int.log 2 |x| ≤ |x| := Int.zpow_log_le_self (by norm_num) hx
    have hp : (0 : ℚ) < 2 ^ (Int.log 2 |x| - 52) := zpow_pos (by norm_num) _
    have hr := roundHalfEven_abs_sub_le (x / 2 ^ (Int.log 2 |x| - 52))
    have e1 : (roundHalfEven (x / 2 ^ (Int.log 2 |x| - 52)) : ℚ) * 2 ^ (Int.log 2 |x| - 52) - x
        = ((roundHalfEven (x / 2 ^ (Int.log 2 |x| - 52)) : ℚ)
            - x / 2 ^ (Int.log 2 |x| - 52)) * 2 ^ (Int.log 2 |x| - 52) := by
      field_simp
    rw [e1, abs_mul, abs_of_pos hp]
    have e2 : (2 : ℚ) ^ (Int.log 2 |x| - 52) = 2 ^ (-52 : ℤ) * 2 ^ (Int.log 2 |x|) := by
      rw [← zpow_add₀ (by norm_num : (2 : ℚ) ≠ 0)]
      congr 1
      ring
    have hlog' : (2 : ℚ) ^ (Int.log 2 |x|) ≤ |x| := by exact_mod_cast hlog
    have hpos2 : (0 : ℚ) < 2 ^ (Int.log 2 |x|) := zpow_pos (by norm_num) _
    calc |(roundHalfEven (x / 2 ^ (Int.log 2 |x| - 52)) : ℚ)
            - x / 2 ^ (Int.log 2 |x| - 52)| * 2 ^ (Int.log 2 |x| - 52)
        ≤ 1 / 2 * 2 ^ (Int.log 2 |x| - 52) := mul_le_mul_of_nonneg_right hr hp.le
      _ = 2 ^ (-53 : ℤ) * 2 ^ (Int.log 2 |x|) := by rw [e2]; norm_num; ring
      _ ≤ 2 ^ (-53 : ℤ) * |x| := mul_le_mul_of_nonneg_left hlog' (by positivity)

/-- The binary exponent of a non-zero rational is fixed by the two powers of
two around its magnitude. -/
theorem log_two_eq_of_bounds (x : ℚ) (L : ℤ) (hlo : (2 : ℚ) ^ L ≤ |x|)
    (hhi : |x| < 2 ^ (L + 1)) : Int.log 2 |x| = L := by
  have hx : 0 < |x| := lt_of_lt_of_le (zpow_pos (by norm_num) _) hlo
  have h1 : L ≤ Int.log 2 |x| :=
    (Int.zpow_le_iff_le_log (by norm_num) hx).mp (by exact_mod_cast hlo)
  have h2 : Int.log 2 |x| < L + 1 :=
    (Int.lt_zpow_iff_log_lt (by norm_num) hx).mp (by exact_mod_cast hhi)
  omega

/-- Evaluation of a rounding: a number whose magnitude lies in
`[2 ^ (e + 52), 2 ^ (e + 53))` and that is less than half a unit `2 ^ e` away
from `m * 2 ^ e` rounds to `m * 2 ^ e`. -/
theorem roundDouble_eq_of_near (x : ℚ) (e m : ℤ) (hlo : (2 : ℚ) ^ (e + 52) ≤ |x|)
    (hhi : |x| < 2 ^ (e + 53)) (hnear : |x - m * 2 ^ e| < 2 ^ e / 2) :
    roundDouble x = m * 2 ^ e := by
  have hx : 0 < |x| := lt_of_lt_of_le (zpow_pos (by norm_num) _) hlo
  have hL : Int.log 2 |x| = e + 52 :=
    log_two_eq_of_bounds x (e + 52) hlo (by rw [show e + 52 + 1 = e + 53 by ring]; exact hhi)
  have hp : (0 : ℚ) < 2 ^ e := zpow_pos (by norm_num) _
  unfold roundDouble
  rw [if_neg (abs_pos.mp hx), hL, show e + 52 - 52 = e by ring]
  have hq : |x / 2 ^ e - m| < 1 / 2 := by
    have e1 : x / 2 ^ e - m = (x - m * 2 ^ e) / 2 ^ e := by field_simp; ring
    rw [e1, abs_div, abs_of_pos hp, div_lt_iff₀ hp]
    linarith
  rw [roundHalfEven_eq_of_near _ m hq]

/-- A scaled integer `k * 2 ^ (E - 52)`, with `E` the binary exponent of the
number itself, is a double. -/
theorem roundDouble_of_scaled_int (x : ℚ) (k : ℤ)
    (h : x = k * 2 ^ (Int.log 2 |x| - 52)) : roundDouble x = x := by
  unfold roundDouble
  split_ifs with h0
  · exact h0.symm
  · have hp : (0 : ℚ) < 2 ^ (Int.log 2 |x| - 52) := zpow_pos (by norm_num) _
    have hq : x / 2 ^ (Int.log 2 |x| - 52) = k := by
      rw [div_eq_iff hp.ne']; exact h
    rw [hq, roundHalfEven_eq_of_near (k : ℚ) k (by simp)]
    exact h.symm

/-- An integer of magnitude at most `2 ^ 53` is a double. -/
theorem roundDouble_intCast (n : ℤ) (hn : |n| ≤ 2 ^ 53) : roundDouble (n : ℚ) = n := by
  rcases eq_or_ne n 0 with h0 | h0
  · subst h0; simp [roundDouble]
  have hq : |(n : ℚ)| ≤ 2 ^ 53 := by exact_mod_cast hn
  have hpos : 0 < |(n : ℚ)| := abs_pos.mpr (by exact_mod_cast h0)
  have h1 : (1 : ℚ) ≤ |(n : ℚ)| := by
    have : (1 : ℤ) ≤ |n| := Int.one_le_abs h0
    exact_mod_cast this
  have hL0 : 0 ≤ Int.log 2 |(n : ℚ)| :=
    (Int.zpow_le_iff_le_log (by norm_num) hpos).mp (by simpa using h1)
  have hL1 : Int.log 2 |(n : ℚ)| < 54 :=
    (Int.lt_zpow_iff_log_lt (by norm_num) hpos).mp (by
      have : |(n : ℚ)| < 2 ^ (54 : ℤ) := lt_of_le_of_lt hq (by norm_num)
      exact_mod_cast this)
  rcases lt_or_eq_of_le (Int.lt_add_one_iff.mp (show Int.log 2 |(n : ℚ)| < 53 + 1 from hL1))
    with hlt | heq
  · obtain ⟨j, hj⟩ : ∃ j : ℕ, (j : ℤ) = 52 - Int.log 2 |(n : ℚ)| :=
      ⟨(52 - Int.log 2 |(n : ℚ)|).toNat, Int.toNat_of_nonneg (by omega)⟩
    apply roundDouble_of_scaled_int _ (n * 2 ^ j)
    have e1 : Int.log 2 |(n : ℚ)| - 52 = -(j : ℤ) := by omega
    rw [e1, zpow_neg, zpow_natCast]
    push_cast
    field_simp
  · have hlog : ((2 : ℕ) : ℚ) ^ Int.log 2 |(n : ℚ)| ≤ |(n : ℚ)| :=
      Int.zpow_log_le_self (by norm_num) hpos
    rw [heq] at hlog
    have habs : |(n : ℚ)| = 2 ^ 53 := le_antisymm hq (by norm_num at hlog ⊢; exact hlog)
    rcases abs_choice (n : ℚ) with hc | hc
    · apply roundDouble_of_scaled_int _ (2 ^ 52)
      rw [heq, ← hc, habs]; norm_num
    · apply roundDouble_of_scaled_int _ (-2 ^ 52)
      rw [heq]
      have : (n : ℚ) = -2 ^ 53 := by rw [← habs, hc]; ring
      rw [this]; norm_num

/-- Rounding keeps the sign: a non-negative number rounds to a non-negative
double. -/
theorem roundDouble_nonneg {x : ℚ} (hx : 0 ≤ x) : 0 ≤ roundDouble x := by
  have h := roundDouble_abs_sub_le x
  rw [abs_of_nonneg hx, abs_le] at h
  have hu : (2 : ℚ) ^ (-53 : ℤ) ≤ 1 := by norm_num
  nlinarith [h.1]

/-- Rounding keeps the sign: a non-positive number rounds to a non-positive
double. -/
theorem roundDouble_nonpos {x : ℚ} (hx : x ≤ 0) : roundDouble x ≤ 0 := by
  have h := roundDouble_abs_sub_le x
  rw [abs_of_nonpos hx, abs_le] at h
  have hu : (2 : ℚ) ^ (-53 : ℤ) ≤ 1 := by norm_num
  nlinarith [h.2]

/-- Relative bounds of one rounding of a non-negative number. -/
theorem roundDouble_bounds {x : ℚ} (hx : 0 ≤ x) :
    x * (1 - 2 ^ (-53 : ℤ)) ≤ roundDouble x ∧ roundDouble x ≤ x * (1 + 2 ^ (-53 : ℤ)) := by
  have h := roundDouble_abs_sub_le x
  rw [abs_of_nonneg hx, abs_le] at h
  constructor <;> linarith [h.1, h.2]

/-- The magnitude of a rounded number is at most `1 + 2 ^ (-53)` times the
magnitude of the number. -/
theorem abs_roundDouble_le (x : ℚ) : |roundDouble x| ≤ (1 + 2 ^ (-53 : ℤ)) * |x| := by
  have h := roundDouble_abs_sub_le x
  have h2 : |roundDouble x| ≤ |roundDouble x - x| + |x| := by
    have := abs_add (roundDouble x - x) x
    simpa using this
  linarith

/-- A rounded product of a rounded difference and a rounded rate, the term
`(taxable - E) * r` of a band, is within `4 * 2 ^ (-53)` of the exact product,
relatively. -/
theorem band_product_near (E r t : ℚ) (hr : 0 ≤ r) (ht : E ≤ t) :
    (t - E) * r * (1 - 4 * 2 ^ (-53 : ℤ))
        ≤ roundDouble (roundDouble (t - E) * roundDouble r) ∧
      roundDouble (roundDouble (t - E) * roundDouble r)
        ≤ (t - E) * r * (1 + 4 * 2 ^ (-53 : ℤ)) := by
  have hd : 0 ≤ t - E := by linarith
  obtain ⟨a1, a2⟩ := roundDouble_bounds hd
  obtain ⟨b1, b2⟩ := roundDouble_bounds hr
  have ha0 := roundDouble_nonneg hd
  have hb0 := roundDouble_nonneg hr
  obtain ⟨q1, q2⟩ := roundDouble_bounds (mul_nonneg ha0 hb0)
  have c3 : (1 + (2 : ℚ) ^ (-53 : ℤ)) ^ 3 ≤ 1 + 4 * 2 ^ (-53 : ℤ) := by norm_num
  have c3' : 1 - 4 * (2 : ℚ) ^ (-53 : ℤ) ≤ (1 - 2 ^ (-53 : ℤ)) ^ 3 := by norm_num
  have hu0 : (0 : ℚ) ≤ 2 ^ (-53 : ℤ) := by norm_num
  have hu1 : (2 : ℚ) ^ (-53 : ℤ) ≤ 1 := by norm_num
  generalize (2 : ℚ) ^ (-53 : ℤ) = u at *
  generalize roundDouble (t - E) = a at *
  generalize roundDouble r = b at *
  generalize roundDouble (a * b) = q at *
  generalize t - E = d at *
  have hX : 0 ≤ d * r := mul_nonneg hd hr
  have p2 : a * b ≤ d * r * (1 + u) ^ 2 := by
    calc a * b ≤ (d * (1 + u)) * (r * (1 + u)) := mul_le_mul a2 b2 hb0 (by nlinarith)
      _ = d * r * (1 + u) ^ 2 := by ring
  have p1 : d * r * (1 - u) ^ 2 ≤ a * b := by
    calc d * r * (1 - u) ^ 2 = (d * (1 - u)) * (r * (1 - u)) := by ring
      _ ≤ a * b := mul_le_mul a1 b1 (by nlinarith) ha0
  constructor
  · calc d * r * (1 - 4 * u) ≤ d * r * (1 - u) ^ 3 := mul_le_mul_of_nonneg_left c3' hX
      _ = d * r * (1 - u) ^ 2 * (1 - u) := by ring
      _ ≤ a * b * (1 - u) := mul_le_mul_of_nonneg_right p1 (by linarith)
      _ ≤ q := q1
  · calc q ≤ a * b * (1 + u) := q2
      _ ≤ d * r * (1 + u) ^ 2 * (1 + u) := mul_le_mul_of_nonneg_right p2 (by linarith)
      _ = d * r * (1 + u) ^ 3 := by ring
      _ ≤ d * r * (1 + 4 * u) := mul_le_mul_of_nonneg_left c3 hX

/-- A band value `B + (taxable - E) * r` computed in doubles is within
`6 * 2 ^ (-53)` of the exact value, relatively. -/
theorem band_near (B E r t : ℚ) (hB : 0 ≤ B) (hr : 0 ≤ r) (ht : E ≤ t) :
    |roundDouble (B + roundDouble (roundDouble (t - E) * roundDouble r)) - (B + (t - E) * r)|
      ≤ 6 * 2 ^ (-53 : ℤ) * (B + (t - E) * r) := by
  obtain ⟨q1, q2⟩ := band_product_near E r t hr ht
  have hd : 0 ≤ t - E := by linarith
  have hq0 : 0 ≤ roundDouble (roundDouble (t - E) * roundDouble r) :=
    roundDouble_nonneg (mul_nonneg (roundDouble_nonneg hd) (roundDouble_nonneg hr))
  obtain ⟨w1, w2⟩ := roundDouble_bounds (add_nonneg hB hq0)
  have hu0 : (0 : ℚ) ≤ 2 ^ (-53 : ℤ) := by norm_num
  have hu1 : (2 : ℚ) ^ (-53 : ℤ) ≤ 1 / 1000 := by norm_num
  generalize (2 : ℚ) ^ (-53 : ℤ) = u at *
  generalize roundDouble (roundDouble (t - E) * roundDouble r) = q at *
  generalize roundDouble (B + q) = w at *
  have hX : 0 ≤ (t - E) * r := mul_nonneg hd hr
  generalize (t - E) * r = X at *
  rw [abs_le]
  constructor
  · have h1 : (B + X * (1 - 4 * u)) * (1 - u) ≤ (B + q) * (1 - u) :=
      mul_le_mul_of_nonneg_right (by linarith) (by linarith)
    nlinarith [mul_nonneg hX hu0, mul_nonneg hB hu0, mul_nonneg (mul_nonneg hX hu0) hu0]
  · have h1 : (B + q) * (1 + u) ≤ (B + X * (1 + 4 * u)) * (1 + u) :=
      mul_le_mul_of_nonneg_right (by linarith) (by linarith)
    nlinarith [mul_nonneg hX hu0, mul_nonneg hB hu0, mul_nonneg (mul_nonneg hX hu0) hu0,
      mul_le_mul_of_nonneg_left hu1 (mul_nonneg hX hu0)]

/-- The band value `(taxable - E) * r` with no base amount computed in doubles
is within `6 * 2 ^ (-53)` of the exact value, relatively. -/
theorem band_near_zero (E r t : ℚ) (hr : 0 ≤ r) (ht : E ≤ t) :
    |roundDouble (roundDouble (t - E) * roundDouble r) - (t - E) * r|
      ≤ 6 * 2 ^ (-53 : ℤ) * ((t - E) * r) := by
  obtain ⟨q1, q2⟩ := band_product_near E r t hr ht
  have hX : 0 ≤ (t - E) * r := mul_nonneg (by linarith) hr
  have hu0 : (0 : ℚ) ≤ 2 ^ (-53 : ℤ) := by norm_num
  rw [abs_le]
  constructor <;> nlinarith [mul_nonneg hX hu0]

/-- The band chain of `calculateNewRegime` evaluated in doubles at a taxable
income `t ≥ 0` is within `6 * 2 ^ (-53)`, relatively, of the exact tax at that
taxable income. -/
theorem newBands_near (t : ℚ) (ht : 0 ≤ t) :
    |(if t ≤ 400000 then 0
      else if t ≤ 800000 then
        roundDouble (roundDouble (t - 400000) * roundDouble (5 / 100))
      else if t ≤ 1200000 then
        roundDouble (20000 + roundDouble (roundDouble (t - 800000) * roundDouble (10 / 100)))
      else if t ≤ 1600000 then
        roundDouble (60000 + roundDouble (roundDouble (t - 1200000) * roundDouble (15 / 100)))
      else if t ≤ 2000000 then
        roundDouble (120000 + roundDouble (roundDouble (t - 1600000) * roundDouble (20 / 100)))
      else if t ≤ 2400000 then
        roundDouble (200000 + roundDouble (roundDouble (t - 2000000) * roundDouble (25 / 100)))
      else
        roundDouble (300000 + roundDouble (roundDouble (t - 2400000) * roundDouble (30 / 100))))
      - ServerJs.calculateNewRegime (t + 75000)|
      ≤ 6 * 2 ^ (-53 : ℤ) * ServerJs.calculateNewRegime (t + 75000) := by
  have e : ServerJs.calculateNewRegime (t + 75000)
      = (if t ≤ 400000 then 0
        else if t ≤ 800000 then (t - 400000) * (5 / 100)
        else if t ≤ 1200000 then 20000 + (t - 800000) * (10 / 100)
        else if t ≤ 1600000 then 60000 + (t - 1200000) * (15 / 100)
        else if t ≤ 2000000 then 120000 + (t - 1600000) * (20 / 100)
        else if t ≤ 2400000 then 200000 + (t - 2000000) * (25 / 100)
        else 300000 + (t - 2400000) * (30 / 100)) := by
    unfold ServerJs.calculateNewRegime
    simp only [add_sub_cancel_right, max_eq_right ht]
  rw [e]
  split_ifs with h1 h2 h3 h4 h5 h6
  · simp
  · exact band_near_zero 400000 (5 / 100) t (by norm_num) (by linarith)
  · exact band_near 20000 800000 (10 / 100) t (by norm_num) (by norm_num) (by linarith)
  · exact band_near 60000 1200000 (15 / 100) t (by norm_num) (by norm_num) (by linarith)
  · exact band_near 120000 1600000 (20 / 100) t (by norm_num) (by norm_num) (by linarith)
  · exact band_near 200000 2000000 (25 / 100) t (by norm_num) (by norm_num) (by linarith)
  · exact band_near 300000 2400000 (30 / 100) t (by norm_num) (by norm_num) (by linarith)

/-- The exact new-regime tax is a function of the taxable income
`max 0 (income - 75000)`. -/
theorem ServerJs.calculateNewRegime_taxable (x : ℚ) :
    ServerJs.calculateNewRegime x = ServerJs.calculateNewRegime (max 0 (x - 75000) + 75000) := by
  rw [ServerJs.calculateNewRegime_eq_excess, ServerJs.calculateNewRegime_eq_excess]
  simp only [add_sub_cancel_right, max_eq_right (le_max_left (0 : ℚ) (x - 75000))]

/-- The exact new-regime tax at taxable income `t ≥ 0` is between 0 and 30% of
`t`. -/
theorem ServerJs.calculateNewRegime_taxable_le (t : ℚ) (ht : 0 ≤ t) :
    0 ≤ ServerJs.calculateNewRegime (t + 75000) ∧
      ServerJs.calculateNewRegime (t + 75000) ≤ (30 / 100) * t := by
  have h0 : ServerJs.calculateNewRegime 75000 = 0 := by
    unfold ServerJs.calculateNewRegime; norm_num
  have hm := ServerJs.calculateNewRegime_mono (show (75000 : ℚ) ≤ t + 75000 by linarith)
  have hl := ServerJs.calculateNewRegime_lipschitz (show (75000 : ℚ) ≤ t + 75000 by linarith)
  rw [h0] at hm hl
  constructor
  · exact hm
  · linarith

/-- The exact new-regime tax moves by at most 30% of the distance of two
incomes. -/
theorem ServerJs.calculateNewRegime_abs_lipschitz (a b : ℚ) :
    |ServerJs.calculateNewRegime b - ServerJs.calculateNewRegime a| ≤ (30 / 100) * |b - a| := by
  rcases le_total a b with h | h
  · have hm := ServerJs.calculateNewRegime_mono h
    have hl := ServerJs.calculateNewRegime_lipschitz h
    rw [abs_of_nonneg (by linarith), abs_of_nonneg (by linarith)]
    exact hl
  · have hm := ServerJs.calculateNewRegime_mono h
    have hl := ServerJs.calculateNewRegime_lipschitz h
    rw [abs_of_nonpos (by linarith), abs_of_nonpos (by linarith)]
    linarith

/-- The new-regime tax computed in doubles is within `6 * 2 ^ (-53)`,
relatively, of the exact tax at the taxable income that was computed in
doubles. -/
theorem ServerJsDouble.calculateNewRegime_near_taxable (x : ℚ) :
    |ServerJsDouble.calculateNewRegime x
      - ServerJs.calculateNewRegime (max 0 (roundDouble (x - 75000)) + 75000)|
      ≤ 6 * 2 ^ (-53 : ℤ)
        * ServerJs.calculateNewRegime (max 0 (roundDouble (x - 75000)) + 75000) := by
  have h := newBands_near (max 0 (roundDouble (x - 75000))) (le_max_left _ _)
  unfold ServerJsDouble.calculateNewRegime
  simp only []
  exact h

/-- Taking the positive part does not move two numbers apart. -/
theorem abs_posPart_sub_le (a b : ℚ) : |max 0 a - max 0 b| ≤ |a - b| := by
  rw [max_comm 0 a, max_comm 0 b]
  exact abs_max_sub_max_le_abs a b 0

/-- The new-regime tax computed in doubles is within `2 ^ (-51)` of the
distance of the income from 75000 of the exact new-regime tax. -/
theorem ServerJsDouble.calculateNewRegime_near (x : ℚ) :
    |ServerJsDouble.calculateNewRegime x - ServerJs.calculateNewRegime x|
      ≤ 2 ^ (-51 : ℤ) * |x - 75000| := by
  have ht : (0 : ℚ) ≤ max 0 (roundDouble (x - 75000)) := le_max_left _ _
  have h1 := ServerJsDouble.calculateNewRegime_near_taxable x
  obtain ⟨h2a, h2b⟩ := ServerJs.calculateNewRegime_taxable_le _ ht
  have h4 := ServerJs.calculateNewRegime_abs_lipschitz (max 0 (x - 75000) + 75000)
    (max 0 (roundDouble (x - 75000)) + 75000)
  rw [← ServerJs.calculateNewRegime_taxable x] at h4
  have h5 := abs_posPart_sub_le (roundDouble (x - 75000)) (x - 75000)
  have h5' := roundDouble_abs_sub_le (x - 75000)
  have h6 : max 0 (roundDouble (x - 75000)) ≤ |roundDouble (x - 75000)| :=
    max_le (abs_nonneg _) (le_abs_self _)
  have h6' := abs_roundDouble_le (x - 75000)
  have e5 : max 0 (roundDouble (x - 75000)) + 75000 - (max 0 (x - 75000) + 75000)
      = max 0 (roundDouble (x - 75000)) - max 0 (x - 75000) := by ring
  rw [e5] at h4
  have hA := abs_nonneg (x - 75000)
  have hu : (2 : ℚ) ^ (-53 : ℤ) = 1 / 9007199254740992 := by norm_num
  have hv : (2 : ℚ) ^ (-51 : ℤ) = 4 / 9007199254740992 := by norm_num
  rw [hu] at h1 h5' h6'
  rw [hv]
  have tri : |ServerJsDouble.calculateNewRegime x - ServerJs.calculateNewRegime x|
      ≤ |ServerJsDouble.calculateNewRegime x
          - ServerJs.calculateNewRegime (max 0 (roundDouble (x - 75000)) + 75000)|
        + |ServerJs.calculateNewRegime (max 0 (roundDouble (x - 75000)) + 75000)
          - ServerJs.calculateNewRegime x| := abs_sub_le _ _ _
  linarith

/-- One rounded addition of two approximate terms: when `x'` and `y'` are
within `δ * A` and `δ * B` of `x` and `y`, and `A`, `B` bound the magnitudes of
`x` and `y`, the rounded sum is within `(δ + 2 * 2 ^ (-53)) * (A + B)` of
`x + y`. -/
theorem roundDouble_add_near (x' x y' y A B δ : ℚ) (hx : |x' - x| ≤ δ * A) (hxA : |x| ≤ A)
    (hy : |y' - y| ≤ δ * B) (hyB : |y| ≤ B) (hδ1 : δ ≤ 1) :
    |roundDouble (x' + y') - (x + y)| ≤ (δ + 2 * 2 ^ (-53 : ℤ)) * (A + B) := by
  have hr := roundDouble_abs_sub_le (x' + y')
  have hA : 0 ≤ A := le_trans (abs_nonneg _) hxA
  have hB : 0 ≤ B := le_trans (abs_nonneg _) hyB
  have hs : |x' + y' - (x + y)| ≤ δ * (A + B) := by
    have e : x' + y' - (x + y) = (x' - x) + (y' - y) := by ring
    rw [e]
    have := abs_add (x' - x) (y' - y)
    linarith
  have hs' : |x' + y'| ≤ 2 * (A + B) := by
    have e : x' + y' = (x' + y' - (x + y)) + (x + y) := by ring
    have h1 := abs_add (x' + y' - (x + y)) (x + y)
    rw [← e] at h1
    have h2 := abs_add x y
    nlinarith
  have tri : |roundDouble (x' + y') - (x + y)|
      ≤ |roundDouble (x' + y') - (x' + y')| + |x' + y' - (x + y)| := abs_sub_le _ _ _
  have hu : (0 : ℚ) ≤ 2 ^ (-53 : ℤ) := by norm_num
  have h3 : (2 : ℚ) ^ (-53 : ℤ) * |x' + y'| ≤ 2 ^ (-53 : ℤ) * (2 * (A + B)) :=
    mul_le_mul_of_nonneg_left hs' hu
  linarith

/-- A capped amount is no larger in magnitude than the amount. -/
theorem abs_min_cap_le (c cap : ℚ) (hcap : 0 ≤ cap) : |min c cap| ≤ |c| := by
  rcases le_total c cap with h | h
  · rw [min_eq_left h]
  · rw [min_eq_right h, abs_of_nonneg hcap, abs_of_nonneg (le_trans hcap h)]
    exact h

/-- The total deduction computed in doubles is within `80 * 2 ^ (-53) * M` of the
exact total, and the exact total is at most `8 * M` in magnitude, when every
amount of the mapping is at most `M` in magnitude. -/
theorem ServerJsDouble.totalDeductions_near (d : Claims) (M : ℚ)
    (hM : ∀ k, |orZero (d k)| ≤ M) :
    |ServerJsDouble.totalDeductions d - ServerJs.totalDeductions d| ≤ 80 * 2 ^ (-53 : ℤ) * M ∧
      |ServerJs.totalDeductions d| ≤ 8 * M := by
  have c1 := le_trans (abs_min_cap_le (orZero (d "80c")) 150000 (by norm_num)) (hM "80c")
  have c2 := le_trans (abs_min_cap_le (orZero (d "80d")) 25000 (by norm_num)) (hM "80d")
  have c3 := le_trans (abs_min_cap_le (orZero (d "24b")) 200000 (by norm_num)) (hM "24b")
  have c4 := le_trans (abs_min_cap_le (orZero (d "80tta")) 10000 (by norm_num)) (hM "80tta")
  have c5 := le_trans (abs_min_cap_le (orZero (d "80ccd")) 50000 (by norm_num)) (hM "80ccd")
  have c6 := hM "80g"
  have c7 := hM "80e"
  have c8 := hM "hra"
  have hM0 : 0 ≤ M := le_trans (abs_nonneg _) c6
  have hu0 : (0 : ℚ) ≤ 2 ^ (-53 : ℤ) := by norm_num
  have hu1 : (2 : ℚ) ^ (-53 : ℤ) ≤ 1 / 100 := by norm_num
  unfold ServerJsDouble.totalDeductions ServerJs.totalDeductions
  simp only []
  generalize min (orZero (d "80c")) 150000 = a1 at *
  generalize min (orZero (d "80d")) 25000 = a2 at *
  generalize min (orZero (d "24b")) 200000 = a3 at *
  generalize min (orZero (d "80tta")) 10000 = a4 at *
  generalize min (orZero (d "80ccd")) 50000 = a5 at *
  generalize orZero (d "80g") = g at *
  generalize orZero (d "80e") = e at *
  generalize orZero (d "hra") = h at *
  have z : ∀ (w A δ : ℚ), 0 ≤ δ → 0 ≤ A → |w - w| ≤ δ * A := by
    intro w A δ h1 h2
    rw [sub_self, abs_zero]
    exact mul_nonneg h1 h2
  have ab : ∀ (p q P Q : ℚ), |p| ≤ P → |q| ≤ Q → |p + q| ≤ P + Q := by
    intro p q P Q h1 h2
    exact le_trans (abs_add p q) (add_le_add h1 h2)
  have s1 := roundDouble_add_near a1 a1 a2 a2 M M (0 * 2 ^ (-53 : ℤ))
    (z _ _ _ (by norm_num) hM0) c1 (z _ _ _ (by norm_num) hM0) c2 (by norm_num)
  have b1 := ab _ _ _ _ c1 c2
  have s2 := roundDouble_add_near _ _ a3 a3 _ M _ s1 b1
    (z _ _ _ (by norm_num) hM0) c3 (by norm_num)
  have b2 := ab _ _ _ _ b1 c3
  have s3 := roundDouble_add_near _ _ a4 a4 _ M _ s2 b2
    (z _ _ _ (by norm_num) hM0) c4 (by norm_num)
  have b3 := ab _ _ _ _ b2 c4
  have s4 := roundDouble_add_near _ _ a5 a5 _ M _ s3 b3
    (z _ _ _ (by norm_num) hM0) c5 (by norm_num)
  have b4 := ab _ _ _ _ b3 c5
  have o1 := roundDouble_add_near g g e e M M (0 * 2 ^ (-53 : ℤ))
    (z _ _ _ (by norm_num) hM0) c6 (z _ _ _ (by norm_num) hM0) c7 (by norm_num)
  have d1 := ab _ _ _ _ c6 c7
  have o2 := roundDouble_add_near _ _ h h _ M _ o1 d1
    (z _ _ _ (by norm_num) hM0) c8 (by norm_num)
  have d2 := ab _ _ _ _ d1 c8
  have o2' : |roundDouble (roundDouble (g + e) + h) - (g + e + h)|
      ≤ (0 * 2 ^ (-53 : ℤ) + 2 * 2 ^ (-53 : ℤ) + 2 * 2 ^ (-53 : ℤ) + 2 * 2 ^ (-53 : ℤ)
          + 2 * 2 ^ (-53 : ℤ)) * (M + M + M) := by
    refine le_trans o2 ?_
    apply mul_le_mul_of_nonneg_right _ (by linarith)
    norm_num
  have s5 := roundDouble_add_near _ _ _ _ _ _ _ s4 b4 o2' d2 (by norm_num)
  have b5 := ab _ _ _ _ b4 d2
  constructor
  · refine le_trans s5 ?_
    have : (0 * (2 : ℚ) ^ (-53 : ℤ) + 2 * 2 ^ (-53 : ℤ) + 2 * 2 ^ (-53 : ℤ) + 2 * 2 ^ (-53 : ℤ)
          + 2 * 2 ^ (-53 : ℤ) + 2 * 2 ^ (-53 : ℤ)) * (M + M + M + M + M + (M + M + M))
        = 80 * 2 ^ (-53 : ℤ) * M := by ring
    rw [this]
  · linarith

/-- The exact old-regime tax with no deductions at income `t + 50000`, for a
taxable income `t ≥ 0`, is the band chain at `t`. -/
theorem ServerJs.calculateOldRegime_bands (t : ℚ) (ht : 0 ≤ t) :
    ServerJs.calculateOldRegime (t + 50000) Claims.empty
      = (if t ≤ 250000 then 0
        else if t ≤ 500000 then (t - 250000) * (5 / 100)
        else if t ≤ 1000000 then 12500 + (t - 500000) * (20 / 100)
        else 112500 + (t - 1000000) * (30 / 100)) := by
  unfold ServerJs.calculateOldRegime
  simp only [Claims.empty, orZero]
  have e : max 0 (t + 50000 - 50000 - (min 0 150000 + min 0 25000 + min 0 200000
      + min 0 10000 + min 0 50000 + (0 + 0 + 0) : ℚ)) = t := by
    norm_num
    exact ht
  rw [e]

/-- The band chain of `calculateOldRegime` evaluated in doubles at a taxable
income `t ≥ 0` is within `6 * 2 ^ (-53)`, relatively, of the exact tax at that
taxable income. -/
theorem oldBands_near (t : ℚ) (ht : 0 ≤ t) :
    |(if t ≤ 250000 then 0
      else if t ≤ 500000 then
        roundDouble (roundDouble (t - 250000) * roundDouble (5 / 100))
      else if t ≤ 1000000 then
        roundDouble (12500 + roundDouble (roundDouble (t - 500000) * roundDouble (20 / 100)))
      else
        roundDouble (112500 + roundDouble (roundDouble (t - 1000000) * roundDouble (30 / 100))))
      - ServerJs.calculateOldRegime (t + 50000) Claims.empty|
      ≤ 6 * 2 ^ (-53 : ℤ) * ServerJs.calculateOldRegime (t + 50000) Claims.empty := by
  rw [ServerJs.calculateOldRegime_bands t ht]
  split_ifs with h1 h2 h3
  · simp
  · exact band_near_zero 250000 (5 / 100) t (by norm_num) (by linarith)
  · exact band_near 12500 500000 (20 / 100) t (by norm_num) (by norm_num) (by linarith)
  · exact band_near 112500 1000000 (30 / 100) t (by norm_num) (by norm_num) (by linarith)

/-- The old-regime tax computed in doubles is within `6 * 2 ^ (-53)`,
relatively, of the exact tax at the taxable income that was computed in
doubles. -/
theorem ServerJsDouble.calculateOldRegime_near_taxable (x : ℚ) (d : Claims) :
    |ServerJsDouble.calculateOldRegime x d
      - ServerJs.calculateOldRegime
          (max 0 (roundDouble (roundDouble (x - 50000) - ServerJsDouble.totalDeductions d))
            + 50000) Claims.empty|
      ≤ 6 * 2 ^ (-53 : ℤ)
        * ServerJs.calculateOldRegime
          (max 0 (roundDouble (roundDouble (x - 50000) - ServerJsDouble.totalDeductions d))
            + 50000) Claims.empty := by
  have h := oldBands_near
    (max 0 (roundDouble (roundDouble (x - 50000) - ServerJsDouble.totalDeductions d)))
    (le_max_left _ _)
  unfold ServerJsDouble.calculateOldRegime
  simp only []
  exact h

/-- The exact old-regime tax is a function of the taxable income
`max 0 (income - 50000 - totalDeductions)`. -/
theorem ServerJs.calculateOldRegime_taxable (x : ℚ) (d : Claims) :
    ServerJs.calculateOldRegime x d
      = ServerJs.calculateOldRegime
          (max 0 (x - 50000 - ServerJs.totalDeductions d) + 50000) Claims.empty := by
  apply ServerJs.calculateOldRegime_of_taxable_eq
  rw [ServerJs.totalDeductions_empty, add_sub_cancel_right, sub_zero,
    max_eq_right (le_max_left (0 : ℚ) _)]

/-- The exact old-regime tax at taxable income `t ≥ 0` is between 0 and 30% of
`t`. -/
theorem ServerJs.calculateOldRegime_taxable_le (t : ℚ) (ht : 0 ≤ t) :
    0 ≤ ServerJs.calculateOldRegime (t + 50000) Claims.empty ∧
      ServerJs.calculateOldRegime (t + 50000) Claims.empty ≤ (30 / 100) * t := by
  have h0 : ServerJs.calculateOldRegime 50000 Claims.empty = 0 := by
    have := ServerJs.calculateOldRegime_bands 0 le_rfl
    rw [zero_add] at this
    rw [this]; norm_num
  have hm := ServerJs.calculateOldRegime_mono Claims.empty
    (show (50000 : ℚ) ≤ t + 50000 by linarith)
  have hl := ServerJs.calculateOldRegime_lipschitz Claims.empty
    (show (50000 : ℚ) ≤ t + 50000 by linarith)
  rw [h0] at hm hl
  constructor
  · exact hm
  · linarith

/-- The exact old-regime tax moves by at most 30% of the distance of two
incomes, the mapping being fixed. -/
theorem ServerJs.calculateOldRegime_abs_lipschitz (a b : ℚ) (d : Claims) :
    |ServerJs.calculateOldRegime b d - ServerJs.calculateOldRegime a d|
      ≤ (30 / 100) * |b - a| := by
  rcases le_total a b with h | h
  · have hm := ServerJs.calculateOldRegime_mono d h
    have hl := ServerJs.calculateOldRegime_lipschitz d h
    rw [abs_of_nonneg (by linarith), abs_of_nonneg (by linarith)]
    exact hl
  · have hm := ServerJs.calculateOldRegime_mono d h
    have hl := ServerJs.calculateOldRegime_lipschitz d h
    rw [abs_of_nonpos (by linarith), abs_of_nonpos (by linarith)]
    linarith

/-- The old-regime tax computed in doubles is within
`2 ^ (-47) * (|income - 50000| + M)` of the exact old-regime tax, when every
amount of the mapping is at most `M` in magnitude. -/
theorem ServerJsDouble.calculateOldRegime_near (x : ℚ) (d : Claims) (M : ℚ)
    (hM : ∀ k, |orZero (d k)| ≤ M) :
    |ServerJsDouble.calculateOldRegime x d - ServerJs.calculateOldRegime x d|
      ≤ 2 ^ (-47 : ℤ) * (|x - 50000| + M) := by
  obtain ⟨hD, hDa⟩ := ServerJsDouble.totalDeductions_near d M hM
  have hM0 : 0 ≤ M := le_trans (abs_nonneg _) (hM "80c")
  have hX := abs_nonneg (x - 50000)
  have h1 := ServerJsDouble.calculateOldRegime_near_taxable x d
  have ht : (0 : ℚ)
      ≤ max 0 (roundDouble (roundDouble (x - 50000) - ServerJsDouble.totalDeductions d)) :=
    le_max_left _ _
  obtain ⟨h2a, h2b⟩ := ServerJs.calculateOldRegime_taxable_le _ ht
  have h4 := ServerJs.calculateOldRegime_abs_lipschitz
    (max 0 (x - 50000 - ServerJs.totalDeductions d) + 50000)
    (max 0 (roundDouble (roundDouble (x - 50000) - ServerJsDouble.totalDeductions d)) + 50000)
    Claims.empty
  rw [← ServerJs.calculateOldRegime_taxable x d] at h4
  have e5 : max 0 (roundDouble (roundDouble (x - 50000) - ServerJsDouble.totalDeductions d))
        + 50000 - (max 0 (x - 50000 - ServerJs.totalDeductions d) + 50000)
      = max 0 (roundDouble (roundDouble (x - 50000) - ServerJsDouble.totalDeductions d))
        - max 0 (x - 50000 - ServerJs.totalDeductions d) := by ring
  rw [e5] at h4
  have h5 := abs_posPart_sub_le
    (roundDouble (roundDouble (x - 50000) - ServerJsDouble.totalDeductions d))
    (x - 50000 - ServerJs.totalDeductions d)
  -- the two rounded subtractions
  have y1 := roundDouble_abs_sub_le (x - 50000)
  have y2 := abs_roundDouble_le (x - 50000)
  have z1 := roundDouble_abs_sub_le (roundDouble (x - 50000) - ServerJsDouble.totalDeductions d)
  have z2 : |roundDouble (x - 50000) - ServerJsDouble.totalDeductions d|
      ≤ |roundDouble (x - 50000)| + |ServerJsDouble.totalDeductions d| := abs_sub _ _
  have z3 : |ServerJsDouble.totalDeductions d|
      ≤ |ServerJsDouble.totalDeductions d - ServerJs.totalDeductions d|
        + |ServerJs.totalDeductions d| := by
    have := abs_add (ServerJsDouble.totalDeductions d - ServerJs.totalDeductions d)
      (ServerJs.totalDeductions d)
    simpa using this
  have z4 : |roundDouble (roundDouble (x - 50000) - ServerJsDouble.totalDeductions d)
        - (x - 50000 - ServerJs.totalDeductions d)|
      ≤ |roundDouble (roundDouble (x - 50000) - ServerJsDouble.totalDeductions d)
          - (roundDouble (x - 50000) - ServerJsDouble.totalDeductions d)|
        + (|roundDouble (x - 50000) - (x - 50000)|
          + |ServerJsDouble.totalDeductions d - ServerJs.totalDeductions d|) := by
    have e : roundDouble (roundDouble (x - 50000) - ServerJsDouble.totalDeductions d)
          - (x - 50000 - ServerJs.totalDeductions d)
        = (roundDouble (roundDouble (x - 50000) - ServerJsDouble.totalDeductions d)
            - (roundDouble (x - 50000) - ServerJsDouble.totalDeductions d))
          + ((roundDouble (x - 50000) - (x - 50000))
            - (ServerJsDouble.totalDeductions d - ServerJs.totalDeductions d)) := by ring
    rw [e]
    exact le_trans (abs_add _ _) (add_le_add le_rfl (abs_sub _ _))
  -- size of the taxable income computed in doubles
  have t1 : max 0 (roundDouble (roundDouble (x - 50000) - ServerJsDouble.totalDeductions d))
      ≤ |roundDouble (roundDouble (x - 50000) - ServerJsDouble.totalDeductions d)| :=
    max_le (abs_nonneg _) (le_abs_self _)
  have t2 := abs_roundDouble_le (roundDouble (x - 50000) - ServerJsDouble.totalDeductions d)
  have tri : |ServerJsDouble.calculateOldRegime x d - ServerJs.calculateOldRegime x d|
      ≤ |ServerJsDouble.calculateOldRegime x d
          - ServerJs.calculateOldRegime
            (max 0 (roundDouble (roundDouble (x - 50000) - ServerJsDouble.totalDeductions d))
              + 50000) Claims.empty|
        + |ServerJs.calculateOldRegime
            (max 0 (roundDouble (roundDouble (x - 50000) - ServerJsDouble.totalDeductions d))
              + 50000) Claims.empty
          - ServerJs.calculateOldRegime x d| := abs_sub_le _ _ _
  have hu : (2 : ℚ) ^ (-53 : ℤ) = 1 / 9007199254740992 := by norm_num
  have hv : (2 : ℚ) ^ (-47 : ℤ) = 64 / 9007199254740992 := by norm_num
  rw [hu] at h1 y1 y2 z1 t2 hD
  rw [hv]
  generalize |x - 50000| = X at *
  generalize |roundDouble (x - 50000) - ServerJsDouble.totalDeductions d| = W at *
  generalize |ServerJsDouble.totalDeductions d| = Dh at *
  generalize |ServerJs.totalDeductions d| = De at *
  generalize |roundDouble (x - 50000)| = Y at *
  have hW : W ≤ 2 * X + 9 * M := by linarith
  have m1 : (1 / 9007199254740992 : ℚ) * W ≤ 1 / 9007199254740992 * (2 * X + 9 * M) :=
    mul_le_mul_of_nonneg_left hW (by norm_num)
  linarith

/-- Zero is a double. -/
theorem roundDouble_zero : roundDouble 0 = 0 := by
  simp [roundDouble]

/-- A natural number up to `2 ^ 53` is a double. -/
theorem roundDouble_natCast (n : ℕ) (hn : n ≤ 2 ^ 53) : roundDouble (n : ℚ) = n := by
  have h := roundDouble_intCast (n : ℤ) (by rw [abs_of_nonneg (by positivity)]; exact_mod_cast hn)
  simpa using h

/-- Evaluation of a rounding of a positive number: a number in
`[2 ^ (e + 52), 2 ^ (e + 53))` strictly between `(m - 1/2) * 2 ^ e` and
`(m + 1/2) * 2 ^ e` rounds to `m * 2 ^ e`. -/
theorem roundDouble_eq_of_near_pos (x : ℚ) (e m : ℤ) (hlo : (2 : ℚ) ^ (e + 52) ≤ x)
    (hhi : x < 2 ^ (e + 53)) (h1 : (m - 1 / 2) * 2 ^ e < x) (h2 : x < (m + 1 / 2) * 2 ^ e) :
    roundDouble x = m * 2 ^ e := by
  have hx : 0 < x := lt_of_lt_of_le (zpow_pos (by norm_num) _) hlo
  apply roundDouble_eq_of_near x e m
  · rw [abs_of_pos hx]; exact hlo
  · rw [abs_of_pos hx]; exact hhi
  · rw [abs_lt]; constructor <;> linarith

/-- With the empty mapping the total deduction computed in doubles is 0. -/
theorem ServerJsDouble.totalDeductions_double_empty :
    ServerJsDouble.totalDeductions Claims.empty = 0 := by
  simp [ServerJsDouble.totalDeductions, Claims.empty, orZero, roundDouble_zero]

theorem ServerJsDouble.calculateOldRegime_at_1050000 : ServerJsDouble.calculateOldRegime 1050000 Claims.empty = 112500 := by
  have r1 : roundDouble (1000000 : ℚ) = 1000000 := by
    simpa using roundDouble_natCast 1000000 (by norm_num)
  have r2 : roundDouble (500000 : ℚ) = 500000 := by
    simpa using roundDouble_natCast 500000 (by norm_num)
  have r3 : roundDouble (1 / 5 : ℚ) = 3602879701896397 / 18014398509481984 := by
    have := roundDouble_eq_of_near_pos (1 / 5) (-55) 7205759403792794
      (by norm_num) (by norm_num) (by norm_num) (by norm_num)
    rw [this]; norm_num
  have r4 : roundDouble (500000 * (3602879701896397 / 18014398509481984) : ℚ) = 100000 := by
    have := roundDouble_eq_of_near_pos (500000 * (3602879701896397 / 18014398509481984)) (-36)
      6871947673600000 (by norm_num) (by norm_num) (by norm_num) (by norm_num)
    rw [this]; norm_num
  have r5 : roundDouble (112500 : ℚ) = 112500 := by
    simpa using roundDouble_natCast 112500 (by norm_num)
  have ht : max 0 (roundDouble (roundDouble (1050000 - 50000) - 0)) = (1000000 : ℚ) := by
    norm_num [r1]
  unfold ServerJsDouble.calculateOldRegime
  rw [ServerJsDouble.totalDeductions_double_empty]
  simp only []
  rw [ht, if_neg (by norm_num), if_neg (by norm_num), if_pos (by norm_num)]
  rw [show (1000000 : ℚ) - 500000 = 500000 by norm_num, show (20 / 100 : ℚ) = 1 / 5 by norm_num,
    r2, r3, r4, show (12500 : ℚ) + 100000 = 112500 by norm_num, r5]

theorem ServerJsDouble.calculateOldRegime_at_1050001 : ServerJsDouble.calculateOldRegime 1050001 Claims.empty
    = 7730961748643021 / 68719476736 := by
  have r1 : roundDouble (1000001 : ℚ) = 1000001 := by
    simpa using roundDouble_natCast 1000001 (by norm_num)
  have r2 : roundDouble (1 : ℚ) = 1 := by
    simpa using roundDouble_natCast 1 (by norm_num)
  have r3 : roundDouble (3 / 10 : ℚ) = 5404319552844595 / 18014398509481984 := by
    have := roundDouble_eq_of_near_pos (3 / 10) (-54) 5404319552844595
      (by norm_num) (by norm_num) (by norm_num) (by norm_num)
    rw [this]; norm_num
  have r4 : roundDouble (1 * (5404319552844595 / 18014398509481984) : ℚ)
      = 5404319552844595 / 18014398509481984 := by
    have := roundDouble_eq_of_near_pos (1 * (5404319552844595 / 18014398509481984)) (-54)
      5404319552844595 (by norm_num) (by norm_num) (by norm_num) (by norm_num)
    rw [this]; norm_num
  have r5 : roundDouble (112500 + 5404319552844595 / 18014398509481984 : ℚ)
      = 7730961748643021 / 68719476736 := by
    have := roundDouble_eq_of_near_pos (112500 + 5404319552844595 / 18014398509481984) (-36)
      7730961748643021 (by norm_num) (by norm_num) (by norm_num) (by norm_num)
    rw [this]; norm_num
  have ht : max 0 (roundDouble (roundDouble (1050001 - 50000) - 0)) = (1000001 : ℚ) := by
    norm_num [r1]
  unfold ServerJsDouble.calculateOldRegime
  rw [ServerJsDouble.totalDeductions_double_empty]
  simp only []
  rw [ht, if_neg (by norm_num), if_neg (by norm_num), if_neg (by norm_num)]
  rw [show (1000001 : ℚ) - 1000000 = 1 by norm_num, show (30 / 100 : ℚ) = 3 / 10 by norm_num,
    r2, r3, r4, r5]

/-- With non-negative amounts the total deduction computed in doubles is
non-negative. -/
theorem ServerJsDouble.totalDeductions_double_nonneg {d : Claims} (hd : d.NonNeg) :
    0 ≤ ServerJsDouble.totalDeductions d := by
  have h1 := orZero_nonneg hd "80c"
  have h2 := orZero_nonneg hd "80d"
  have h3 := orZero_nonneg hd "24b"
  have h4 := orZero_nonneg hd "80tta"
  have h5 := orZero_nonneg hd "80ccd"
  have h6 := orZero_nonneg hd "80g"
  have h7 := orZero_nonneg hd "80e"
  have h8 := orZero_nonneg hd "hra"
  have m1 : (0 : ℚ) ≤ min (orZero (d "80c")) 150000 := le_min h1 (by norm_num)
  have m2 : (0 : ℚ) ≤ min (orZero (d "80d")) 25000 := le_min h2 (by norm_num)
  have m3 : (0 : ℚ) ≤ min (orZero (d "24b")) 200000 := le_min h3 (by norm_num)
  have m4 : (0 : ℚ) ≤ min (orZero (d "80tta")) 10000 := le_min h4 (by norm_num)
  have m5 : (0 : ℚ) ≤ min (orZero (d "80ccd")) 50000 := le_min h5 (by norm_num)
  unfold ServerJsDouble.totalDeductions
  simp only []
  have s1 := roundDouble_nonneg (add_nonneg m1 m2)
  have s2 := roundDouble_nonneg (add_nonneg s1 m3)
  have s3 := roundDouble_nonneg (add_nonneg s2 m4)
  have s4 := roundDouble_nonneg (add_nonneg s3 m5)
  have o1 := roundDouble_nonneg (add_nonneg h6 h7)
  have o2 := roundDouble_nonneg (add_nonneg o1 h8)
  exact roundDouble_nonneg (add_nonneg s4 o2)

/-- A double above a bound `c ≥ 0` comes from a number above
`c * (1 - 2 ^ (-53))`, and that number is positive. -/
theorem lt_of_lt_roundDouble {x c : ℚ} (hc : 0 ≤ c) (h : c < roundDouble x) :
    0 < x ∧ c < x * (1 + 2 ^ (-53 : ℤ)) := by
  have hx : 0 < x := by
    by_contra hn
    have := roundDouble_nonpos (not_lt.mp hn)
    linarith
  refine ⟨hx, ?_⟩
  have := (roundDouble_bounds hx.le).2
  linarith

/-- The new-regime tax computed in doubles is 0 while the taxable income
computed in doubles is at most 400000. -/
theorem ServerJsDouble.calculateNewRegime_eq_zero (x : ℚ)
    (h : max 0 (roundDouble (x - 75000)) ≤ 400000) :
    ServerJsDouble.calculateNewRegime x = 0 := by
  unfold ServerJsDouble.calculateNewRegime
  simp only []
  rw [if_pos h]

/-- The old-regime tax computed in doubles is 0 while the taxable income
computed in doubles is at most 250000. -/
theorem ServerJsDouble.calculateOldRegime_eq_zero (x : ℚ) (d : Claims)
    (h : max 0 (roundDouble (roundDouble (x - 50000) - ServerJsDouble.totalDeductions d))
      ≤ 250000) :
    ServerJsDouble.calculateOldRegime x d = 0 := by
  unfold ServerJsDouble.calculateOldRegime
  simp only []
  rw [if_pos h]

/-- The new-regime tax computed in doubles is at most 30% of the income, for
incomes from 0 to `2 ^ 53`. -/
theorem ServerJsDouble.calculateNewRegime_le_income (x : ℚ) (h0 : 0 ≤ x)
    (h1 : x ≤ 2 ^ 53) : ServerJsDouble.calculateNewRegime x ≤ (30 / 100) * x := by
  rcases le_or_lt (max 0 (roundDouble (x - 75000))) 400000 with h | h
  · rw [ServerJsDouble.calculateNewRegime_eq_zero x h]
    linarith
  · have hr : (400000 : ℚ) < roundDouble (x - 75000) := by
      rcases lt_max_iff.mp h with h' | h'
      · norm_num at h'
      · exact h'
    obtain ⟨hpos, hlt⟩ := lt_of_lt_roundDouble (by norm_num) hr
    have hn := ServerJsDouble.calculateNewRegime_near x
    rw [abs_of_pos hpos] at hn
    have hn' := (abs_le.mp hn).2
    have hS : ServerJs.calculateNewRegime x ≤ (30 / 100) * (x - 474999) := by
      rcases le_total (475000 : ℚ) x with hx | hx
      · have hl := ServerJs.calculateNewRegime_lipschitz hx
        have hz : ServerJs.calculateNewRegime 475000 = 0 := by
          unfold ServerJs.calculateNewRegime; norm_num
        rw [hz] at hl
        linarith
      · have hm := ServerJs.calculateNewRegime_mono hx
        have hz : ServerJs.calculateNewRegime 475000 = 0 := by
          unfold ServerJs.calculateNewRegime; norm_num
        rw [hz] at hm
        have hu : (2 : ℚ) ^ (-53 : ℤ) = 1 / 9007199254740992 := by norm_num
        rw [hu] at hlt
        linarith
    have hv : (2 : ℚ) ^ (-51 : ℤ) = 4 / 9007199254740992 := by norm_num
    rw [hv] at hn'
    norm_num at h1
    linarith

/-- The old-regime tax computed in doubles is at most 30% of the income, for
incomes from 0 to `2 ^ 53` and non-negative amounts. -/
theorem ServerJsDouble.calculateOldRegime_le_income (x : ℚ) (d : Claims) (h0 : 0 ≤ x)
    (h1 : x ≤ 2 ^ 53) (hd : d.NonNeg) :
    ServerJsDouble.calculateOldRegime x d ≤ (30 / 100) * x := by
  rcases le_or_lt
    (max 0 (roundDouble (roundDouble (x - 50000) - ServerJsDouble.totalDeductions d)))
    250000 with h | h
  · rw [ServerJsDouble.calculateOldRegime_eq_zero x d h]
    linarith
  · have hD := ServerJsDouble.totalDeductions_double_nonneg hd
    have hr : (250000 : ℚ)
        < roundDouble (roundDouble (x - 50000) - ServerJsDouble.totalDeductions d) := by
      rcases lt_max_iff.mp h with h' | h'
      · norm_num at h'
      · exact h'
    have et : max 0 (roundDouble (roundDouble (x - 50000) - ServerJsDouble.totalDeductions d))
        = roundDouble (roundDouble (x - 50000) - ServerJsDouble.totalDeductions d) :=
      max_eq_right (by linarith)
    obtain ⟨hpos, hlt⟩ := lt_of_lt_roundDouble (by norm_num) hr
    have hz2 := (roundDouble_bounds hpos.le).2
    have hy : (0 : ℚ) < roundDouble (x - 50000) := by linarith
    obtain ⟨hpos', hlt'⟩ := lt_of_lt_roundDouble le_rfl hy
    have hy2 := (roundDouble_bounds hpos'.le).2
    have hn := ServerJsDouble.calculateOldRegime_near_taxable x d
    rw [et] at hn
    have hn' := (abs_le.mp hn).2
    have hS := ServerJs.calculateOldRegime_lipschitz Claims.empty
      (show (300000 : ℚ)
        ≤ roundDouble (roundDouble (x - 50000) - ServerJsDouble.totalDeductions d) + 50000
        by linarith)
    have hz : ServerJs.calculateOldRegime 300000 Claims.empty = 0 := by
      have := ServerJs.calculateOldRegime_bands 250000 (by norm_num)
      norm_num at this
      exact this
    rw [hz] at hS
    have hS0 := (ServerJs.calculateOldRegime_taxable_le _ (le_of_lt (lt_trans (by norm_num) hr))).1
    have hu : (2 : ℚ) ^ (-53 : ℤ) = 1 / 9007199254740992 := by norm_num
    rw [hu] at hn' hz2 hy2
    norm_num at h1
    generalize ServerJs.calculateOldRegime
      (roundDouble (roundDouble (x - 50000) - ServerJsDouble.totalDeductions d) + 50000)
      Claims.empty = S at *
    generalize roundDouble (roundDouble (x - 50000) - ServerJsDouble.totalDeductions d) = z at *
    generalize roundDouble (x - 50000) = y at *
    generalize ServerJsDouble.totalDeductions d = D at *
    have hSz : S ≤ (30 / 100) * z := by linarith
    have hzb : z ≤ 9007199254740992 * 2 := by nlinarith
    nlinarith

/-- A number halfway between an even integer and its successor rounds to the
even integer. -/
theorem roundHalfEven_tie_even (m : ℤ) (hm : m % 2 = 0) :
    roundHalfEven ((m : ℚ) + 1 / 2) = m := by
  have hf : ⌊(m : ℚ) + 1 / 2⌋ = m :=
    Int.floor_eq_iff.mpr ⟨by linarith, by linarith⟩
  unfold roundHalfEven
  rw [hf, if_neg (by norm_num), if_neg (by norm_num), if_pos hm]

/-- Evaluation of a rounding at a tie: a positive number in
`[2 ^ (e + 52), 2 ^ (e + 53))` that is `(m + 1/2) * 2 ^ e` with `m` even rounds
to `m * 2 ^ e`. -/
theorem roundDouble_eq_of_tie_pos (x : ℚ) (e m : ℤ) (hlo : (2 : ℚ) ^ (e + 52) ≤ x)
    (hhi : x < 2 ^ (e + 53)) (hm : m % 2 = 0) (hx : x = ((m : ℚ) + 1 / 2) * 2 ^ e) :
    roundDouble x = m * 2 ^ e := by
  have hpos : 0 < x := lt_of_lt_of_le (zpow_pos (by norm_num) _) hlo
  have hL : Int.log 2 |x| = e + 52 :=
    log_two_eq_of_bounds x (e + 52) (by rw [abs_of_pos hpos]; exact hlo)
      (by rw [abs_of_pos hpos, show e + 52 + 1 = e + 53 by ring]; exact hhi)
  have hp : (0 : ℚ) < 2 ^ e := zpow_pos (by norm_num) _
  unfold roundDouble
  rw [if_neg hpos.ne', hL, show e + 52 - 52 = e by ring]
  have hq : x / 2 ^ e = (m : ℚ) + 1 / 2 := by
    rw [hx]; field_simp; ring
  rw [hq, roundHalfEven_tie_even m hm]

/-- In doubles, `calculateNewRegime 2475002` is `300000.6` rounded,
`2576985531560755 / 2 ^ 33`. -/
theorem ServerJsDouble.calculateNewRegime_at_2475002 :
    ServerJsDouble.calculateNewRegime 2475002 = 2576985531560755 / 8589934592 := by
  have r1 : roundDouble (2400002 : ℚ) = 2400002 := by
    simpa using roundDouble_natCast 2400002 (by norm_num)
  have r2 : roundDouble (2 : ℚ) = 2 := by
    simpa using roundDouble_natCast 2 (by norm_num)
  have r3 : roundDouble (3 / 10 : ℚ) = 5404319552844595 / 18014398509481984 := by
    have := roundDouble_eq_of_near_pos (3 / 10) (-54) 5404319552844595
      (by norm_num) (by norm_num) (by norm_num) (by norm_num)
    rw [this]; norm_num
  have r4 : roundDouble (2 * (5404319552844595 / 18014398509481984) : ℚ)
      = 5404319552844595 / 9007199254740992 := by
    have := roundDouble_eq_of_near_pos (2 * (5404319552844595 / 18014398509481984)) (-53)
      5404319552844595 (by norm_num) (by norm_num) (by norm_num) (by norm_num)
    rw [this]; norm_num
  have r5 : roundDouble (300000 + 5404319552844595 / 9007199254740992 : ℚ)
      = 2576985531560755 / 8589934592 := by
    have := roundDouble_eq_of_near_pos (300000 + 5404319552844595 / 9007199254740992) (-34)
      5153971063121510 (by norm_num) (by norm_num) (by norm_num) (by norm_num)
    rw [this]; norm_num
  have ht : max 0 (roundDouble (2475002 - 75000)) = (2400002 : ℚ) := by
    norm_num [r1]
  unfold ServerJsDouble.calculateNewRegime
  simp only []
  rw [ht, if_neg (by norm_num), if_neg (by norm_num), if_neg (by norm_num),
    if_neg (by norm_num), if_neg (by norm_num), if_neg (by norm_num)]
  rw [show (2400002 : ℚ) - 2400000 = 2 by norm_num, show (30 / 100 : ℚ) = 3 / 10 by norm_num,
    r2, r3, r4, r5]

/-- In doubles, `calculateNewRegime 2475003` is `300000.9` rounded,
`2576988108541133 / 2 ^ 33`; the product `3 * 0.3` is a tie and rounds to the
even neighbour `0.8999999999999999`. -/
theorem ServerJsDouble.calculateNewRegime_at_2475003 :
    ServerJsDouble.calculateNewRegime 2475003 = 2576988108541133 / 8589934592 := by
  have r1 : roundDouble (2400003 : ℚ) = 2400003 := by
    simpa using roundDouble_natCast 2400003 (by norm_num)
  have r2 : roundDouble (3 : ℚ) = 3 := by
    simpa using roundDouble_natCast 3 (by norm_num)
  have r3 : roundDouble (3 / 10 : ℚ) = 5404319552844595 / 18014398509481984 := by
    have := roundDouble_eq_of_near_pos (3 / 10) (-54) 5404319552844595
      (by norm_num) (by norm_num) (by norm_num) (by norm_num)
    rw [this]; norm_num
  have r4 : roundDouble (3 * (5404319552844595 / 18014398509481984) : ℚ)
      = 2026619832316723 / 2251799813685248 := by
    have := roundDouble_eq_of_tie_pos (3 * (5404319552844595 / 18014398509481984)) (-53)
      8106479329266892 (by norm_num) (by norm_num) (by norm_num) (by norm_num)
    rw [this]; norm_num
  have r5 : roundDouble (300000 + 2026619832316723 / 2251799813685248 : ℚ)
      = 2576988108541133 / 8589934592 := by
    have := roundDouble_eq_of_near_pos (300000 + 2026619832316723 / 2251799813685248) (-34)
      5153976217082266 (by norm_num) (by norm_num) (by norm_num) (by norm_num)
    rw [this]; norm_num
  have ht : max 0 (roundDouble (2475003 - 75000)) = (2400003 : ℚ) := by
    norm_num [r1]
  unfold ServerJsDouble.calculateNewRegime
  simp only []
  rw [ht, if_neg (by norm_num), if_neg (by norm_num), if_neg (by norm_num),
    if_neg (by norm_num), if_neg (by norm_num), if_neg (by norm_num)]
  rw [show (2400003 : ℚ) - 2400000 = 3 by norm_num, show (30 / 100 : ℚ) = 3 / 10 by norm_num,
    r2, r3, r4, r5]

/-- In doubles, with the one claim `80c = -1000000` the total deduction is
`-1000000`. -/
theorem ServerJsDouble.totalDeductions_negative_claim :
    ServerJsDouble.totalDeductions (Claims.empty.set "80c" (-1000000)) = -1000000 := by
  have r1 : roundDouble (-1000000 : ℚ) = -1000000 := by
    simpa using roundDouble_intCast (-1000000) (by norm_num)
  have hmin : min (-1000000 : ℚ) 150000 = -1000000 := by norm_num
  simp +decide [ServerJsDouble.totalDeductions, Claims.set, Claims.empty, orZero,
    roundDouble_zero, hmin, r1]

/-- In doubles, at income 0 with the one claim `80c = -1000000` the old-regime
tax is 102500. -/
theorem ServerJsDouble.calculateOldRegime_negative_claim :
    ServerJsDouble.calculateOldRegime 0 (Claims.empty.set "80c" (-1000000)) = 102500 := by
  have r0 : roundDouble (-50000 : ℚ) = -50000 := by
    simpa using roundDouble_intCast (-50000) (by norm_num)
  have r1 : roundDouble (950000 : ℚ) = 950000 := by
    simpa using roundDouble_natCast 950000 (by norm_num)
  have r2 : roundDouble (450000 : ℚ) = 450000 := by
    simpa using roundDouble_natCast 450000 (by norm_num)
  have r3 : roundDouble (1 / 5 : ℚ) = 3602879701896397 / 18014398509481984 := by
    have := roundDouble_eq_of_near_pos (1 / 5) (-55) 7205759403792794
      (by norm_num) (by norm_num) (by norm_num) (by norm_num)
    rw [this]; norm_num
  have r4 : roundDouble (450000 * (3602879701896397 / 18014398509481984) : ℚ) = 90000 := by
    have := roundDouble_eq_of_near_pos (450000 * (3602879701896397 / 18014398509481984)) (-36)
      6184752906240000 (by norm_num) (by norm_num) (by norm_num) (by norm_num)
    rw [this]; norm_num
  have r5 : roundDouble (102500 : ℚ) = 102500 := by
    simpa using roundDouble_natCast 102500 (by norm_num)
  have ht : max 0 (roundDouble (roundDouble (0 - 50000) - -1000000)) = (950000 : ℚ) := by
    norm_num [r0, r1]
  unfold ServerJsDouble.calculateOldRegime
  rw [ServerJsDouble.totalDeductions_negative_claim]
  simp only []
  rw [ht, if_neg (by norm_num), if_neg (by norm_num), if_pos (by norm_num)]
  rw [show (950000 : ℚ) - 500000 = 450000 by norm_num, show (20 / 100 : ℚ) = 1 / 5 by norm_num,
    r2, r3, r4, show (12500 : ℚ) + 90000 = 102500 by norm_num, r5]

/-- Counterexample to C27 as stated, in the arithmetic of the code.  From income
1050000 to 1050001 the old-regime tax with no claims rises from 112500 to
`7730961748643021 / 2 ^ 36` (printed `112500.3`), a rise of
`0.3000000000029104`, more than 30% of the rise of 1 of the income; from
2475002 to 2475003 the new-regime tax rises by `0.30000000004656613`; and at
income 0 with the claim `80c = -1000000` the old-regime tax is 102500, more than
30% of the income. -/
theorem marginal_rate_counterexample :
    ServerJsDouble.calculateOldRegime 1050000 Claims.empty = 112500 ∧
    ServerJsDouble.calculateOldRegime 1050001 Claims.empty = 7730961748643021 / 68719476736 ∧
    (1050000 : ℚ) ≤ 1050001 ∧
    ¬ (ServerJsDouble.calculateOldRegime 1050001 Claims.empty
        - ServerJsDouble.calculateOldRegime 1050000 Claims.empty
      ≤ (30 / 100) * (1050001 - 1050000)) ∧
    (2475002 : ℚ) ≤ 2475003 ∧
    ¬ (ServerJsDouble.calculateNewRegime 2475003 - ServerJsDouble.calculateNewRegime 2475002
      ≤ (30 / 100) * (2475003 - 2475002)) ∧
    ServerJsDouble.calculateOldRegime 0 (Claims.empty.set "80c" (-1000000)) = 102500 ∧
    ¬ (ServerJsDouble.calculateOldRegime 0 (Claims.empty.set "80c" (-1000000))
      ≤ (30 / 100) * 0) := by
  refine ⟨ServerJsDouble.calculateOldRegime_at_1050000,
    ServerJsDouble.calculateOldRegime_at_1050001, by norm_num, ?_, by norm_num, ?_,
    ServerJsDouble.calculateOldRegime_negative_claim, ?_⟩
  · rw [ServerJsDouble.calculateOldRegime_at_1050000,
      ServerJsDouble.calculateOldRegime_at_1050001]
    norm_num
  · rw [ServerJsDouble.calculateNewRegime_at_2475002,
      ServerJsDouble.calculateNewRegime_at_2475003]
    norm_num
  · rw [ServerJsDouble.calculateOldRegime_negative_claim]
    norm_num

/-- Claim C27, amended: in the arithmetic of the code the marginal rate is
bounded by 30% up to the rounding of the doubles.  For incomes `a ≤ b` the
new-regime tax rises by at most `0.30 * (b - a)` plus `2 ^ (-51)` of the
distances of `a` and `b` from 75000; for a mapping whose amounts are at most
`M` in magnitude the old-regime tax rises by at most `0.30 * (b - a)` plus
`2 ^ (-47)` of the distances of `a` and `b` from 50000 and of `2 * M`.  Hence,
for incomes at least 1 apart and up to `2 ^ 40` in magnitude (and `M` up to
`2 ^ 40`), after-tax income does not decrease when the gross income rises; the
new-regime tax is at most 30% of an income from 0 to `2 ^ 53`, and so is the
old-regime tax when no claimed amount is negative.  In exact arithmetic both
rises are at most `0.30 * (b - a)` with no slack. -/
theorem bounded_marginal_rate (a b M : ℚ) (claims : Claims) (hab : a ≤ b)
    (hM : ∀ k, |orZero (claims k)| ≤ M) :
    ServerJsDouble.calculateNewRegime b - ServerJsDouble.calculateNewRegime a
      ≤ (30 / 100) * (b - a) + 2 ^ (-51 : ℤ) * (|a - 75000| + |b - 75000|) ∧
    ServerJsDouble.calculateOldRegime b claims - ServerJsDouble.calculateOldRegime a claims
      ≤ (30 / 100) * (b - a) + 2 ^ (-47 : ℤ) * (|a - 50000| + |b - 50000| + 2 * M) ∧
    (a + 1 ≤ b → |a| ≤ 2 ^ 40 → |b| ≤ 2 ^ 40 →
      a - ServerJsDouble.calculateNewRegime a ≤ b - ServerJsDouble.calculateNewRegime b) ∧
    (a + 1 ≤ b → |a| ≤ 2 ^ 40 → |b| ≤ 2 ^ 40 → M ≤ 2 ^ 40 →
      a - ServerJsDouble.calculateOldRegime a claims
        ≤ b - ServerJsDouble.calculateOldRegime b claims) ∧
    (0 ≤ b → b ≤ 2 ^ 53 → ServerJsDouble.calculateNewRegime b ≤ (30 / 100) * b) ∧
    (0 ≤ b → b ≤ 2 ^ 53 → claims.NonNeg →
      ServerJsDouble.calculateOldRegime b claims ≤ (30 / 100) * b) ∧
    ServerJs.calculateNewRegime b - ServerJs.calculateNewRegime a ≤ (30 / 100) * (b - a) ∧
    ServerJs.calculateOldRegime b claims - ServerJs.calculateOldRegime a claims
      ≤ (30 / 100) * (b - a) := by
  have hn := ServerJs.calculateNewRegime_lipschitz hab
  have ho := ServerJs.calculateOldRegime_lipschitz claims hab
  have na := abs_le.mp (ServerJsDouble.calculateNewRegime_near a)
  have nb := abs_le.mp (ServerJsDouble.calculateNewRegime_near b)
  have oa := abs_le.mp (ServerJsDouble.calculateOldRegime_near a claims M hM)
  have ob := abs_le.mp (ServerJsDouble.calculateOldRegime_near b claims M hM)
  have hN : ServerJsDouble.calculateNewRegime b - ServerJsDouble.calculateNewRegime a
      ≤ (30 / 100) * (b - a) + 2 ^ (-51 : ℤ) * (|a - 75000| + |b - 75000|) := by
    rw [mul_add]
    have h1 := na.1
    have h2 := nb.2
    generalize (2 : ℚ) ^ (-51 : ℤ) * |a - 75000| = Ea at *
    generalize (2 : ℚ) ^ (-51 : ℤ) * |b - 75000| = Eb at *
    linarith
  have hO : ServerJsDouble.calculateOldRegime b claims
        - ServerJsDouble.calculateOldRegime a claims
      ≤ (30 / 100) * (b - a) + 2 ^ (-47 : ℤ) * (|a - 50000| + |b - 50000| + 2 * M) := by
    have e : (2 : ℚ) ^ (-47 : ℤ) * (|a - 50000| + |b - 50000| + 2 * M)
        = 2 ^ (-47 : ℤ) * (|a - 50000| + M) + 2 ^ (-47 : ℤ) * (|b - 50000| + M) := by ring
    rw [e]
    have h1 := oa.1
    have h2 := ob.2
    generalize (2 : ℚ) ^ (-47 : ℤ) * (|a - 50000| + M) = Ea at *
    generalize (2 : ℚ) ^ (-47 : ℤ) * (|b - 50000| + M) = Eb at *
    linarith
  have sub_le : ∀ x c : ℚ, 0 ≤ c → |x - c| ≤ |x| + c := by
    intro x c hc
    have := abs_sub x c
    rw [abs_of_nonneg hc] at this
    exact this
  refine ⟨hN, hO, ?_, ?_, ?_, ?_, hn, ho⟩
  · intro h1 ha hb
    have h3 := sub_le a 75000 (by norm_num)
    have h4 := sub_le b 75000 (by norm_num)
    have hv : (2 : ℚ) ^ (-51 : ℤ) = 1 / 2251799813685248 := by norm_num
    rw [hv] at hN
    norm_num at ha hb
    linarith
  · intro h1 ha hb hMb
    have h3 := sub_le a 50000 (by norm_num)
    have h4 := sub_le b 50000 (by norm_num)
    have hv : (2 : ℚ) ^ (-47 : ℤ) = 1 / 140737488355328 := by norm_num
    rw [hv] at hO
    norm_num at ha hb hMb
    linarith
  · intro h0 h1
    exact ServerJsDouble.calculateNewRegime_le_income b h0 h1
  · intro h0 h1 hd
    exact ServerJsDouble.calculateOldRegime_le_income b claims h0 h1 hd

/-- Witness for the amended C27 at incomes 1050000 and 1050001 with empty
claims: the rise of the old-regime tax in doubles, `0.3000000000029104`, is
within the bound with its slack. -/
theorem bounded_marginal_rate_witness :
    ServerJsDouble.calculateOldRegime 1050001 Claims.empty
        - ServerJsDouble.calculateOldRegime 1050000 Claims.empty
      ≤ (30 / 100) * (1050001 - 1050000)
        + 2 ^ (-47 : ℤ) * (|(1050000 : ℚ) - 50000| + |(1050001 : ℚ) - 50000| + 2 * 0) :=
  (bounded_marginal_rate 1050000 1050001 0 Claims.empty (by norm_num)
    (by intro k; simp [Claims.empty, orZero])).2.1

/-- In doubles, `calculateNewRegime 475001` is the double nearest to 0.05,
`3602879701896397 / 2 ^ 56`. -/
theorem ServerJsDouble.calculateNewRegime_at_475001 :
    ServerJsDouble.calculateNewRegime 475001 = 3602879701896397 / 72057594037927936 ∧
    roundDouble (5 / 100) = 3602879701896397 / 72057594037927936 := by
  have r1 : roundDouble (400001 : ℚ) = 400001 := by
    simpa using roundDouble_natCast 400001 (by norm_num)
  have r2 : roundDouble (1 : ℚ) = 1 := by
    simpa using roundDouble_natCast 1 (by norm_num)
  have r3 : roundDouble (5 / 100 : ℚ) = 3602879701896397 / 72057594037927936 := by
    have := roundDouble_eq_of_near_pos (5 / 100) (-57) 7205759403792794
      (by norm_num) (by norm_num) (by norm_num) (by norm_num)
    rw [this]; norm_num
  have r4 : roundDouble (1 * (3602879701896397 / 72057594037927936) : ℚ)
      = 3602879701896397 / 72057594037927936 := by
    have := roundDouble_eq_of_near_pos (1 * (3602879701896397 / 72057594037927936)) (-57)
      7205759403792794 (by norm_num) (by norm_num) (by norm_num) (by norm_num)
    rw [this]; norm_num
  have ht : max 0 (roundDouble (475001 - 75000)) = (400001 : ℚ) := by
    norm_num [r1]
  refine ⟨?_, r3⟩
  unfold ServerJsDouble.calculateNewRegime
  simp only []
  rw [ht, if_neg (by norm_num), if_pos (by norm_num)]
  rw [show (400001 : ℚ) - 400000 = 1 by norm_num, r2, r3, r4]

/-- Claim C15: truncation happens only in the handler.  The evaluators do not
truncate: in exact arithmetic they are, for every income, the marginal-sum tax
of their bands, so they return fractional amounts (`calculateNewRegime 475001
= 0.05`, and 5% of every amount `q` in the first taxed band, whole or not), and
in the doubles of the code `calculateNewRegime 475001` is the double nearest to
0.05; the reported taxes are the integers `⌊calculateOldRegime income claims⌋`
and `⌊calculateNewRegime income⌋`, each at most the exact value and above the
exact value minus 1; at income 475001 the report is 0 while the evaluator
returns 0.05. -/
theorem truncation_at_comparison (income : ℚ) (claims : Claims) :
    ServerJs.calculateNewRegime income
      = marginalTax newRegimeBands (max 0 (income - 75000)) ∧
    ServerJs.calculateOldRegime income claims
      = marginalTax oldRegimeBands
          (max 0 (income - 50000 - ServerJs.totalDeductions claims)) ∧
    ServerJs.calculateNewRegime 475001 = 5 / 100 ∧
    ServerJs.calculateOldRegime 300001 Claims.empty = 5 / 100 ∧
    (∀ q : ℚ, 0 ≤ q → q ≤ 400000 →
      ServerJs.calculateNewRegime (475000 + q) = q * (5 / 100)) ∧
    (∀ q : ℚ, 0 ≤ q → q ≤ 250000 →
      ServerJs.calculateOldRegime (300000 + q) Claims.empty = q * (5 / 100)) ∧
    (ServerJs.taxComparison income claims).old_regime_tax
      = ⌊ServerJs.calculateOldRegime income claims⌋ ∧
    (ServerJs.taxComparison income claims).new_regime_tax
      = ⌊ServerJs.calculateNewRegime income⌋ ∧
    ServerJs.calculateOldRegime income claims - 1
      < ((ServerJs.taxComparison income claims).old_regime_tax : ℚ) ∧
    ((ServerJs.taxComparison income claims).old_regime_tax : ℚ)
      ≤ ServerJs.calculateOldRegime income claims ∧
    ServerJs.calculateNewRegime income - 1
      < ((ServerJs.taxComparison income claims).new_regime_tax : ℚ) ∧
    ((ServerJs.taxComparison income claims).new_regime_tax : ℚ)
      ≤ ServerJs.calculateNewRegime income ∧
    (ServerJs.taxComparison 475001 Claims.empty).new_regime_tax = 0 ∧
    ((ServerJs.taxComparison 475001 Claims.empty).new_regime_tax : ℚ)
      ≠ ServerJs.calculateNewRegime 475001 ∧
    ServerJsDouble.calculateNewRegime 475001 = roundDouble (5 / 100) ∧
    roundDouble (5 / 100) = 3602879701896397 / 72057594037927936 ∧
    ⌊ServerJsDouble.calculateNewRegime 475001⌋ = 0 := by
  have hD := ServerJs.totalDeductions_empty
  have hn1 : ServerJs.calculateNewRegime 475001 = 5 / 100 := by
    norm_num [ServerJs.calculateNewRegime]
  have hfl : (ServerJs.taxComparison 475001 Claims.empty).new_regime_tax = 0 := by
    simp only [ServerJs.taxComparison, hn1]
    norm_num
  have hnq : ∀ q : ℚ, 0 ≤ q → q ≤ 400000 →
      ServerJs.calculateNewRegime (475000 + q) = q * (5 / 100) := by
    intro q h0 h1
    rw [ServerJs.calculateNewRegime_eq_excess]
    have ht : max 0 (475000 + q - 75000) = 400000 + q := by
      rw [max_eq_right (by linarith)]; ring
    rw [ht, excess_of_le (400000 + q) 800000 (by linarith),
      excess_of_le (400000 + q) 1200000 (by linarith),
      excess_of_le (400000 + q) 1600000 (by linarith),
      excess_of_le (400000 + q) 2000000 (by linarith),
      excess_of_le (400000 + q) 2400000 (by linarith)]
    have e1 : max 0 (400000 + q - 400000) = q := by
      rw [add_sub_cancel_left]; exact max_eq_right h0
    rw [e1]
    ring
  have hoq : ∀ q : ℚ, 0 ≤ q → q ≤ 250000 →
      ServerJs.calculateOldRegime (300000 + q) Claims.empty = q * (5 / 100) := by
    intro q h0 h1
    rw [ServerJs.calculateOldRegime_eq_excess, hD]
    have ht : max 0 (300000 + q - 50000 - 0) = 250000 + q := by
      rw [sub_zero, max_eq_right (by linarith)]; ring
    rw [ht, excess_of_le (250000 + q) 500000 (by linarith),
      excess_of_le (250000 + q) 1000000 (by linarith)]
    have e1 : max 0 (250000 + q - 250000) = q := by
      rw [add_sub_cancel_left]; exact max_eq_right h0
    rw [e1]
    ring
  obtain ⟨hd1, hd2⟩ := ServerJsDouble.calculateNewRegime_at_475001
  refine ⟨?_, ?_, hn1, ?_, hnq, hoq, rfl, rfl, ?_, ?_, ?_, ?_, hfl, ?_, by rw [hd1, hd2], hd2,
    by rw [hd1]; norm_num⟩
  · rw [marginalTax_newRegimeBands]
    exact ServerJs.calculateNewRegime_eq_excess income
  · rw [marginalTax_oldRegimeBands]
    exact ServerJs.calculateOldRegime_eq_excess income claims
  · have h := hoq 1 (by norm_num) (by norm_num)
    have e : (300000 : ℚ) + 1 = 300001 := by norm_num
    rw [e, one_mul] at h
    exact h
  · simp only [ServerJs.taxComparison]
    exact Int.sub_one_lt_floor _
  · simp only [ServerJs.taxComparison]
    exact Int.floor_le _
  · simp only [ServerJs.taxComparison]
    exact Int.sub_one_lt_floor _
  · simp only [ServerJs.taxComparison]
    exact Int.floor_le _
  · rw [hfl, hn1]
    norm_num

/-- Counterexample to C19 as stated: two runs of the `/analyze-tax` handler of
`Server/Server.js` for the same user, with the same AI reply (income 1000000,
`80c = 150000`, `80d = 25000`) and the same transactions, answer differently.
With a record of the user stamped 1000 in the store and the clock at 2000 the
answer is the stored comparison; with an empty store, or with the same store
and the clock at 90000000, it is the computed one. -/
theorem comparison_depends_on_cache :
    (ServerJs.analyzeTaxRequest [⟨"u1", 900000, 50000, 40000, 10000, "New Regime", 1000⟩]
        2000 3000 "u1" 5
        (some { total_income := some 1000000, deductions_80c := some 150000,
                deductions_80d := some 25000 })).response
      = .ok ⟨900000, ⟨50000, 40000, 10000, "New Regime"⟩⟩ ∧
    (ServerJs.analyzeTaxRequest [] 2000 3000 "u1" 5
        (some { total_income := some 1000000, deductions_80c := some 150000,
                deductions_80d := some 25000 })).response
      = .ok ⟨1000000, ⟨67500, 32500, 35000, "New Regime"⟩⟩ ∧
    (ServerJs.analyzeTaxRequest [⟨"u1", 900000, 50000, 40000, 10000, "New Regime", 1000⟩]
        90000000 90001000 "u1" 5
        (some { total_income := some 1000000, deductions_80c := some 150000,
                deductions_80d := some 25000 })).response
      = .ok ⟨1000000, ⟨67500, 32500, 35000, "New Regime"⟩⟩ ∧
    (ServerJs.analyzeTaxRequest [⟨"u1", 900000, 50000, 40000, 10000, "New Regime", 1000⟩]
        2000 3000 "u1" 5
        (some { total_income := some 1000000, deductions_80c := some 150000,
                deductions_80d := some 25000 })).response
      ≠ (ServerJs.analyzeTaxRequest [] 2000 3000 "u1" 5
        (some { total_income := some 1000000, deductions_80c := some 150000,
                deductions_80d := some 25000 })).response := by
  have h1 : (ServerJs.analyzeTaxRequest
      [⟨"u1", 900000, 50000, 40000, 10000, "New Regime", 1000⟩] 2000 3000 "u1" 5
      (some { total_income := some 1000000, deductions_80c := some 150000,
              deductions_80d := some 25000 })).response
      = .ok ⟨900000, ⟨50000, 40000, 10000, "New Regime"⟩⟩ := by
    simp [ServerJs.analyzeTaxRequest, ServerJs.findCache, ServerJs.mostRecent]
  have h2 : (ServerJs.analyzeTaxRequest [] 2000 3000 "u1" 5
      (some { total_income := some 1000000, deductions_80c := some 150000,
              deductions_80d := some 25000 })).response
      = .ok ⟨1000000, ⟨67500, 32500, 35000, "New Regime"⟩⟩ := by
    simp +decide [ServerJs.analyzeTaxRequest, ServerJs.findCache, ServerJs.mostRecent,
      ServerJs.deductionMap, ServerJs.calculateNewRegime, ServerJs.calculateOldRegime, orZero]
    norm_num
  have h3 : (ServerJs.analyzeTaxRequest
      [⟨"u1", 900000, 50000, 40000, 10000, "New Regime", 1000⟩] 90000000 90001000 "u1" 5
      (some { total_income := some 1000000, deductions_80c := some 150000,
              deductions_80d := some 25000 })).response
      = .ok ⟨1000000, ⟨67500, 32500, 35000, "New Regime"⟩⟩ := by
    simp +decide [ServerJs.analyzeTaxRequest, ServerJs.findCache, ServerJs.mostRecent,
      ServerJs.deductionMap, ServerJs.calculateNewRegime, ServerJs.calculateOldRegime, orZero]
    norm_num
  refine ⟨h1, h2, h3, ?_⟩
  rw [h1, h2]
  intro h
  have h' := Except.ok.inj h
  have h'' := congrArg TaxResponse.total_income h'
  norm_num at h''

/-- The cache lookup finds nothing exactly when the store holds no record of
the user with `timestamp ≥ now - 86400000`. -/
theorem ServerJs.findCache_eq_none_iff (store : List TaxRecord) (userId : String) (now : ℤ) :
    ServerJs.findCache store userId now = none ↔
      ¬ ∃ r ∈ store, r.userId = userId ∧ now - 86400000 ≤ r.timestamp := by
  unfold ServerJs.findCache
  rw [ServerJs.mostRecent_eq_none, List.filter_eq_nil_iff]
  constructor
  · rintro h ⟨r, hr, hu, ht⟩
    have := h r hr
    simp [hu, ht] at this
  · intro h r hr
    simp only [decide_eq_true_eq]
    intro hh
    exact h ⟨r, hr, hh⟩

/-- Claim C19, amended: on a cache miss the comparison is a function of the
gross income and the claims mapping alone.  Two runs of the handler in which
the store holds no record of the user younger than 24 hours, with AI replies
that carry the same income and entry-wise the same claims, give the same
answer, namely the comparison computed from that income and those claims,
whatever the stores, the clocks, the users, the numbers of transactions and the
other fields of the replies. -/
theorem comparison_deterministic (store store' : List TaxRecord)
    (now now' created created' : ℤ) (userId userId' : String) (n n' : ℕ) (a a' : AiData)
    (hmiss : ¬ ∃ r ∈ store, r.userId = userId ∧ now - 86400000 ≤ r.timestamp)
    (hmiss' : ¬ ∃ r ∈ store', r.userId = userId' ∧ now' - 86400000 ≤ r.timestamp)
    (hi : orZero a.total_income = orZero a'.total_income)
    (hc : ∀ k, ServerJs.deductionMap a k = ServerJs.deductionMap a' k) :
    (ServerJs.analyzeTaxRequest store now created userId (n + 1) (some a)).response
      = (ServerJs.analyzeTaxRequest store' now' created' userId' (n' + 1) (some a')).response ∧
    (ServerJs.analyzeTaxRequest store now created userId (n + 1) (some a)).response
      = .ok ⟨orZero a.total_income,
          ServerJs.taxComparison (orZero a.total_income) (ServerJs.deductionMap a)⟩ := by
  have hf := (ServerJs.findCache_eq_none_iff store userId now).mpr hmiss
  have hf' := (ServerJs.findCache_eq_none_iff store' userId' now').mpr hmiss'
  have hm : ServerJs.deductionMap a = ServerJs.deductionMap a' := funext hc
  have h1 : (ServerJs.analyzeTaxRequest store now created userId (n + 1) (some a)).response
      = .ok ⟨orZero a.total_income,
          ServerJs.taxComparison (orZero a.total_income) (ServerJs.deductionMap a)⟩ := by
    simp [ServerJs.analyzeTaxRequest, hf, ServerJs.taxComparison]
  have h2 : (ServerJs.analyzeTaxRequest store' now' created' userId' (n' + 1)
      (some a')).response
      = .ok ⟨orZero a'.total_income,
          ServerJs.taxComparison (orZero a'.total_income) (ServerJs.deductionMap a')⟩ := by
    simp [ServerJs.analyzeTaxRequest, hf', ServerJs.taxComparison]
  exact ⟨by rw [h1, h2, hi, hm], h1⟩

/-- Witness for the amended C19: user `u1` at clock 90000000 with a stale
record in the store and 5 transactions, and user `u2` at clock 2000 with an
empty store and 1 transaction, get the same answer when their replies carry
income 1000000, `80c = 150000`, `80d = 25000`, although the second reply also
holds 200000 under `deductions_24b`. -/
theorem comparison_deterministic_witness :
    (ServerJs.analyzeTaxRequest [⟨"u1", 900000, 50000, 40000, 10000, "New Regime", 1000⟩]
        90000000 90001000 "u1" 5
        (some { total_income := some 1000000, deductions_80c := some 150000,
                deductions_80d := some 25000 })).response
      = (ServerJs.analyzeTaxRequest [] 2000 3000 "u2" 1
        (some { total_income := some 1000000, deductions_80c := some 150000,
                deductions_80d := some 25000, deductions_24b := some 200000 })).response :=
  (comparison_deterministic [⟨"u1", 900000, 50000, 40000, 10000, "New Regime", 1000⟩] []
    90000000 2000 90001000 3000 "u1" "u2" 4 0
    { total_income := some 1000000, deductions_80c := some 150000,
      deductions_80d := some 25000 }
    { total_income := some 1000000, deductions_80c := some 150000,
      deductions_80d := some 25000, deductions_24b := some 200000 }
    (by simp) (by simp) rfl (fun _ => rfl)).1

/-- A positive number rounds to a positive double. -/
theorem roundDouble_pos {x : ℚ} (hx : 0 < x) : 0 < roundDouble x := by
  have h := (roundDouble_bounds hx.le).1
  have hu : (2 : ℚ) ^ (-53 : ℤ) = 1 / 9007199254740992 := by norm_num
  rw [hu] at h
  nlinarith

/-- A rounded difference is at most 0 exactly when the difference is. -/
theorem roundDouble_nonpos_iff (x : ℚ) : roundDouble x ≤ 0 ↔ x ≤ 0 := by
  constructor
  · intro h
    by_contra hn
    have := roundDouble_pos (not_le.mp hn)
    linarith
  · exact roundDouble_nonpos

/-- Insertion into a list gives the same list for two relations that agree
between the inserted element and the elements of the list. -/
theorem orderedInsert_congr {α : Type} (r r' : α → α → Prop) [DecidableRel r]
    [DecidableRel r'] (a : α) (l : List α) (h : ∀ b ∈ l, (r a b ↔ r' a b)) :
    List.orderedInsert r a l = List.orderedInsert r' a l := by
  induction l with
  | nil => rfl
  | cons b l ih =>
    have hb := h b (List.mem_cons_self _ _)
    have ih' := ih (fun c hc => h c (List.mem_cons_of_mem _ hc))
    simp only [List.orderedInsert]
    by_cases hr : r a b
    · rw [if_pos hr, if_pos (hb.mp hr)]
    · rw [if_neg hr, if_neg (fun h' => hr (hb.mpr h')), ih']

/-- Insertion sort gives the same list for two relations that agree on the
elements of the list. -/
theorem insertionSort_congr {α : Type} (r r' : α → α → Prop) [DecidableRel r]
    [DecidableRel r'] (l : List α) (h : ∀ a ∈ l, ∀ b ∈ l, (r a b ↔ r' a b)) :
    List.insertionSort r l = List.insertionSort r' l := by
  induction l with
  | nil => rfl
  | cons a l ih =>
    have ih' := ih (fun x hx y hy =>
      h x (List.mem_cons_of_mem _ hx) y (List.mem_cons_of_mem _ hy))
    simp only [List.insertionSort]
    rw [ih']
    apply orderedInsert_congr
    intro b hb
    have hb' : b ∈ l := (List.mem_insertionSort r').mp hb
    exact h a (List.mem_cons_self _ _) b (List.mem_cons_of_mem _ hb')

/-- The entries `Object.keys` visits are the own properties, in another
order. -/
theorem Dashboard.objectKeys_perm (m : List (String × ChartValue)) :
    (Dashboard.objectKeys m).Perm m := by
  unfold Dashboard.objectKeys
  refine List.Perm.trans (List.Perm.append_right _ (List.perm_insertionSort _ _)) ?_
  exact List.filter_append_perm _ m

/-- Booking an amount under a category that is no inherited name keeps the
keys, and appends the category when it is new. -/
theorem Dashboard.keys_addToCategory (m : List (String × ChartValue)) (cat : String) (v : ℚ)
    (hcat : cat ∉ Dashboard.objectPrototypeNames) :
    (Dashboard.addToCategory m cat v).map Prod.fst
      = if cat ∈ m.map Prod.fst then m.map Prod.fst else m.map Prod.fst ++ [cat] := by
  have hp : cat ≠ "__proto__" := by
    intro h
    apply hcat
    rw [h]
    decide
  induction m with
  | nil => simp [Dashboard.addToCategory, hp, hcat]
  | cons kv rest ih =>
    obtain ⟨key, value⟩ := kv
    simp only [Dashboard.addToCategory]
    by_cases h : key = cat
    · subst h
      simp
    · rw [if_neg h]
      simp only [List.map_cons, ih, List.mem_cons]
      have h' : ¬ cat = key := fun e => h e.symm
      by_cases hm : cat ∈ rest.map Prod.fst
      · simp [hm]
      · simp [hm, h']

/-- Booking a non-negative amount under a category that is no inherited name
keeps every value a non-negative number. -/
theorem Dashboard.numbers_addToCategory (m : List (String × ChartValue)) (cat : String)
    (v : ℚ) (hv : 0 ≤ v) (hcat : cat ∉ Dashboard.objectPrototypeNames)
    (hm : ∀ kv ∈ m, ∃ q : ℚ, 0 ≤ q ∧ kv.2 = ChartValue.number q) :
    ∀ kv ∈ Dashboard.addToCategory m cat v, ∃ q : ℚ, 0 ≤ q ∧ kv.2 = ChartValue.number q := by
  have hp : cat ≠ "__proto__" := by
    intro h
    apply hcat
    rw [h]
    decide
  induction m with
  | nil =>
    intro kv hkv
    simp only [Dashboard.addToCategory, if_neg hp, if_neg hcat, List.mem_singleton] at hkv
    subst hkv
    exact ⟨_, roundDouble_nonneg (by linarith), rfl⟩
  | cons kv0 rest ih =>
    obtain ⟨key, value⟩ := kv0
    intro kv hkv
    simp only [Dashboard.addToCategory] at hkv
    by_cases h : key = cat
    · rw [if_pos h] at hkv
      rcases List.mem_cons.mp hkv with rfl | hkv
      · obtain ⟨q, hq, hval⟩ := hm (key, value) (List.mem_cons_self _ _)
        simp only at hval
        subst hval
        exact ⟨_, roundDouble_nonneg (add_nonneg hq hv), rfl⟩
      · exact hm kv (List.mem_cons_of_mem _ hkv)
    · rw [if_neg h] at hkv
      rcases List.mem_cons.mp hkv with rfl | hkv
      · exact hm _ (List.mem_cons_self _ _)
      · exact ih (fun kv hkv => hm kv (List.mem_cons_of_mem _ hkv)) kv hkv

/-- A step of the summary loop on a transaction whose amount is a number and
that is booked as an expense. -/
theorem Dashboard.summaryStep_expense (s : SummaryState) (t : Transaction) (amt : ℚ)
    (ha : t.amount = some amt) (hc : ¬ (t.type = some "income" ∨ amt > 0)) :
    (Dashboard.summaryStep s t).income = s.income ∧
    (Dashboard.summaryStep s t).expense = roundDouble (s.expense + |amt|) ∧
    (Dashboard.summaryStep s t).categoryMap
      = Dashboard.addToCategory s.categoryMap (Dashboard.categoryOf t) |amt| := by
  unfold Dashboard.summaryStep
  rw [ha]
  simp only []
  rw [if_neg hc]
  exact ⟨rfl, rfl, rfl⟩

/-- A step of the summary loop on a transaction whose amount is a number and
that is booked as income. -/
theorem Dashboard.summaryStep_income (s : SummaryState) (t : Transaction) (amt : ℚ)
    (ha : t.amount = some amt) (hc : t.type = some "income" ∨ amt > 0) :
    (Dashboard.summaryStep s t).income = roundDouble (s.income + amt) ∧
    (Dashboard.summaryStep s t).expense = s.expense ∧
    (Dashboard.summaryStep s t).categoryMap = s.categoryMap := by
  unfold Dashboard.summaryStep
  rw [ha]
  simp only []
  rw [if_pos hc]
  exact ⟨rfl, rfl, rfl⟩

/-- A step of the summary loop on a transaction whose amount is not a number
changes nothing. -/
theorem Dashboard.summaryStep_nan (s : SummaryState) (t : Transaction)
    (ha : t.amount = none) : Dashboard.summaryStep s t = s := by
  unfold Dashboard.summaryStep
  rw [ha]

/-- A step of the summary loop keeps the expense non-negative, the category
keys distinct and every category value a non-negative number, when the category
of an expense is no inherited name. -/
theorem Dashboard.summaryStep_inv (s : SummaryState) (t : Transaction)
    (hcat : (∃ amt, t.amount = some amt ∧ ¬ (t.type = some "income" ∨ amt > 0)) →
      Dashboard.categoryOf t ∉ Dashboard.objectPrototypeNames)
    (h : 0 ≤ s.expense ∧ (s.categoryMap.map Prod.fst).Nodup ∧
      ∀ kv ∈ s.categoryMap, ∃ q : ℚ, 0 ≤ q ∧ kv.2 = ChartValue.number q) :
    0 ≤ (Dashboard.summaryStep s t).expense ∧
    ((Dashboard.summaryStep s t).categoryMap.map Prod.fst).Nodup ∧
    ∀ kv ∈ (Dashboard.summaryStep s t).categoryMap,
      ∃ q : ℚ, 0 ≤ q ∧ kv.2 = ChartValue.number q := by
  obtain ⟨h1, h2, h3⟩ := h
  cases ha : t.amount with
  | none => rw [Dashboard.summaryStep_nan s t ha]; exact ⟨h1, h2, h3⟩
  | some amt =>
    by_cases hc : t.type = some "income" ∨ amt > 0
    · obtain ⟨_, e2, e3⟩ := Dashboard.summaryStep_income s t amt ha hc
      rw [e2, e3]
      exact ⟨h1, h2, h3⟩
    · obtain ⟨_, e2, e3⟩ := Dashboard.summaryStep_expense s t amt ha hc
      have hn := hcat ⟨amt, ha, hc⟩
      rw [e2, e3]
      refine ⟨roundDouble_nonneg (add_nonneg h1 (abs_nonneg _)), ?_, ?_⟩
      · rw [Dashboard.keys_addToCategory _ _ _ hn]
        split_ifs with hm
        · exact h2
        · refine List.Nodup.append h2 (List.nodup_singleton _) ?_
          intro a ha' hb
          rw [List.mem_singleton] at hb
          subst hb
          exact hm ha'
      · exact Dashboard.numbers_addToCategory _ _ _ (abs_nonneg _) hn h3

/-- The summary loop keeps the invariant of its steps. -/
theorem Dashboard.foldl_summaryStep_inv (ts : List Transaction) (s : SummaryState)
    (hcat : ∀ t ∈ ts, (∃ amt, t.amount = some amt ∧ ¬ (t.type = some "income" ∨ amt > 0)) →
      Dashboard.categoryOf t ∉ Dashboard.objectPrototypeNames)
    (h : 0 ≤ s.expense ∧ (s.categoryMap.map Prod.fst).Nodup ∧
      ∀ kv ∈ s.categoryMap, ∃ q : ℚ, 0 ≤ q ∧ kv.2 = ChartValue.number q) :
    0 ≤ (ts.foldl Dashboard.summaryStep s).expense ∧
    ((ts.foldl Dashboard.summaryStep s).categoryMap.map Prod.fst).Nodup ∧
    ∀ kv ∈ (ts.foldl Dashboard.summaryStep s).categoryMap,
      ∃ q : ℚ, 0 ≤ q ∧ kv.2 = ChartValue.number q := by
  induction ts generalizing s with
  | nil => exact h
  | cons t rest ih =>
    exact ih _ (fun u hu => hcat u (List.mem_cons_of_mem _ hu))
      (Dashboard.summaryStep_inv s t (hcat t (List.mem_cons_self _ _)) h)

/-- The expense stays non-negative through the summary loop, whatever the
categories. -/
theorem Dashboard.foldl_summaryStep_expense_nonneg (ts : List Transaction) (s : SummaryState)
    (h : 0 ≤ s.expense) : 0 ≤ (ts.foldl Dashboard.summaryStep s).expense := by
  induction ts generalizing s with
  | nil => exact h
  | cons t rest ih =>
    apply ih
    cases ha : t.amount with
    | none => rw [Dashboard.summaryStep_nan s t ha]; exact h
    | some amt =>
      by_cases hc : t.type = some "income" ∨ amt > 0
      · rw [(Dashboard.summaryStep_income s t amt ha hc).2.1]; exact h
      · rw [(Dashboard.summaryStep_expense s t amt ha hc).2.1]
        exact roundDouble_nonneg (add_nonneg h (abs_nonneg _))

/-- The category keys after the summary loop are the keys before it and the
categories of the expenses met, when the category of an expense is no
inherited name. -/
theorem Dashboard.foldl_summaryStep_keys (ts : List Transaction) (s : SummaryState)
    (hcat : ∀ t ∈ ts, (∃ amt, t.amount = some amt ∧ ¬ (t.type = some "income" ∨ amt > 0)) →
      Dashboard.categoryOf t ∉ Dashboard.objectPrototypeNames)
    (name : String) :
    name ∈ (ts.foldl Dashboard.summaryStep s).categoryMap.map Prod.fst ↔
      name ∈ s.categoryMap.map Prod.fst ∨
      ∃ t ∈ ts, (∃ amt, t.amount = some amt ∧ ¬ (t.type = some "income" ∨ amt > 0)) ∧
        Dashboard.categoryOf t = name := by
  induction ts generalizing s with
  | nil => simp
  | cons t rest ih =>
    rw [List.foldl_cons, ih _ (fun u hu => hcat u (List.mem_cons_of_mem _ hu))]
    have hstep : name ∈ (Dashboard.summaryStep s t).categoryMap.map Prod.fst ↔
        name ∈ s.categoryMap.map Prod.fst ∨
        ((∃ amt, t.amount = some amt ∧ ¬ (t.type = some "income" ∨ amt > 0)) ∧
          Dashboard.categoryOf t = name) := by
      cases ha : t.amount with
      | none =>
        rw [Dashboard.summaryStep_nan s t ha]
        simp
      | some amt =>
        by_cases hc : t.type = some "income" ∨ amt > 0
        · rw [(Dashboard.summaryStep_income s t amt ha hc).2.2]
          constructor
          · intro h; exact Or.inl h
          · rintro (h | ⟨⟨amt', ha', hn⟩, _⟩)
            · exact h
            · rw [← Option.some.inj ha'] at hn
              exact absurd hc hn
        · rw [(Dashboard.summaryStep_expense s t amt ha hc).2.2,
            Dashboard.keys_addToCategory _ _ _
              (hcat t (List.mem_cons_self _ _) ⟨amt, ha, hc⟩)]
          split_ifs with hm
          · constructor
            · intro h; exact Or.inl h
            · rintro (h | ⟨_, h⟩)
              · exact h
              · rw [← h]; exact hm
          · simp only [List.mem_append, List.mem_singleton]
            constructor
            · rintro (h | h)
              · exact Or.inl h
              · exact Or.inr ⟨⟨amt, rfl, hc⟩, h.symm⟩
            · rintro (h | ⟨_, h⟩)
              · exact Or.inl h
              · exact Or.inr h.symm
    rw [hstep]
    constructor
    · rintro ((h | h) | ⟨u, hu, h⟩)
      · exact Or.inl h
      · exact Or.inr ⟨t, List.mem_cons_self _ _, h⟩
      · exact Or.inr ⟨u, List.mem_cons_of_mem _ hu, h⟩
    · rintro (h | ⟨u, hu, h⟩)
      · exact Or.inl (Or.inl h)
      · rcases List.mem_cons.mp hu with rfl | hu
        · exact Or.inl (Or.inr h)
        · exact Or.inr ⟨u, hu, h⟩

/-- The summary is read off the state the loop ends in, also for the empty
list. -/
theorem Dashboard.summary_eq (ts : List Transaction) :
    Dashboard.summary ts =
      { income := (ts.foldl Dashboard.summaryStep ⟨0, 0, [], []⟩).income
        expense := (ts.foldl Dashboard.summaryStep ⟨0, 0, [], []⟩).expense
        balance := roundDouble ((ts.foldl Dashboard.summaryStep ⟨0, 0, [], []⟩).income
          - (ts.foldl Dashboard.summaryStep ⟨0, 0, [], []⟩).expense)
        chartData :=
          ((Dashboard.objectKeys (ts.foldl Dashboard.summaryStep ⟨0, 0, [], []⟩).categoryMap).map
            fun kv => ({ name := kv.1, value := kv.2 } : ChartEntry)).insertionSort
            fun a b => Dashboard.compareFn a b ≤ 0
        fraudList := (ts.foldl Dashboard.summaryStep ⟨0, 0, [], []⟩).fraudList } := by
  cases ts with
  | nil => simp [Dashboard.summary, Dashboard.objectKeys, roundDouble_zero]
  | cons t rest => simp [Dashboard.summary]

/-- The chart built from a category map all of whose values are non-negative
numbers: its values are numbers in non-increasing order, non-negative, and a
rearrangement of the values of the map. -/
theorem Dashboard.chart_sorted (cm : List (String × ChartValue))
    (hnum : ∀ kv ∈ cm, ∃ q : ℚ, 0 ≤ q ∧ kv.2 = ChartValue.number q) :
    ∃ vs : List ℚ,
      (((Dashboard.objectKeys cm).map
          fun kv => ({ name := kv.1, value := kv.2 } : ChartEntry)).insertionSort
          fun a b => Dashboard.compareFn a b ≤ 0).map ChartEntry.value
        = vs.map ChartValue.number ∧
      vs.Sorted (fun x y => x ≥ y) ∧ (∀ v ∈ vs, 0 ≤ v) ∧
      ∀ ws : List ℚ, cm.map Prod.snd = ws.map ChartValue.number → vs.Perm ws := by
  obtain ⟨keyV, hkey⟩ : ∃ keyV : ChartValue → ℚ, ∀ q, keyV (ChartValue.number q) = q :=
    ⟨fun c => match c with
      | .number q => q
      | .text => 0, fun q => rfl⟩
  have hL : ∀ e ∈ (Dashboard.objectKeys cm).map
      (fun kv => ({ name := kv.1, value := kv.2 } : ChartEntry)),
      ∃ q : ℚ, 0 ≤ q ∧ e.value = ChartValue.number q := by
    intro e he
    obtain ⟨kv, hkv, rfl⟩ := List.mem_map.mp he
    exact hnum kv ((Dashboard.objectKeys_perm cm).mem_iff.mp hkv)
  have hcongr := insertionSort_congr (fun a b : ChartEntry => Dashboard.compareFn a b ≤ 0)
    (fun a b : ChartEntry => keyV b.value ≤ keyV a.value)
    ((Dashboard.objectKeys cm).map fun kv => ({ name := kv.1, value := kv.2 } : ChartEntry))
    (by
      intro a ha b hb
      obtain ⟨x, _, hx⟩ := hL a ha
      obtain ⟨y, _, hy⟩ := hL b hb
      simp only [Dashboard.compareFn, hx, hy, hkey]
      rw [roundDouble_nonpos_iff]
      constructor <;> intro h <;> linarith)
  rw [hcongr]
  have hperm := List.perm_insertionSort (fun a b : ChartEntry => keyV b.value ≤ keyV a.value)
    ((Dashboard.objectKeys cm).map fun kv => ({ name := kv.1, value := kv.2 } : ChartEntry))
  haveI : IsTotal ChartEntry (fun a b : ChartEntry => keyV b.value ≤ keyV a.value) :=
    ⟨fun a b => le_total (keyV b.value) (keyV a.value)⟩
  haveI : IsTrans ChartEntry (fun a b : ChartEntry => keyV b.value ≤ keyV a.value) :=
    ⟨fun a b c hab hbc => le_trans hbc hab⟩
  have hsorted := List.sorted_insertionSort
    (fun a b : ChartEntry => keyV b.value ≤ keyV a.value)
    ((Dashboard.objectKeys cm).map fun kv => ({ name := kv.1, value := kv.2 } : ChartEntry))
  have hC : ∀ e ∈ List.insertionSort (fun a b : ChartEntry => keyV b.value ≤ keyV a.value)
      ((Dashboard.objectKeys cm).map fun kv => ({ name := kv.1, value := kv.2 } : ChartEntry)),
      ∃ q : ℚ, 0 ≤ q ∧ e.value = ChartValue.number q :=
    fun e he => hL e (hperm.mem_iff.mp he)
  generalize List.insertionSort (fun a b : ChartEntry => keyV b.value ≤ keyV a.value)
      ((Dashboard.objectKeys cm).map fun kv => ({ name := kv.1, value := kv.2 } : ChartEntry))
      = chart at hperm hsorted hC ⊢
  refine ⟨chart.map fun e => keyV e.value, ?_, ?_, ?_, ?_⟩
  · rw [List.map_map]
    apply List.map_congr_left
    intro e he
    obtain ⟨q, _, hq⟩ := hC e he
    simp only [Function.comp, hq, hkey]
  · unfold List.Sorted at hsorted ⊢
    rw [List.pairwise_map]
    exact hsorted
  · intro v hv
    obtain ⟨e, he, rfl⟩ := List.mem_map.mp hv
    obtain ⟨q, hq0, hq⟩ := hC e he
    rw [hq, hkey]
    exact hq0
  · intro ws hws
    have h1 : (chart.map fun e => keyV e.value).Perm
        (((Dashboard.objectKeys cm).map
          fun kv => ({ name := kv.1, value := kv.2 } : ChartEntry)).map
          fun e => keyV e.value) := hperm.map _
    have h2 : (((Dashboard.objectKeys cm).map
          fun kv => ({ name := kv.1, value := kv.2 } : ChartEntry)).map
          fun e => keyV e.value)
        = ((Dashboard.objectKeys cm).map Prod.snd).map keyV := by
      rw [List.map_map, List.map_map]
      rfl
    have h3 : (((Dashboard.objectKeys cm).map Prod.snd).map keyV).Perm
        ((cm.map Prod.snd).map keyV) := ((Dashboard.objectKeys_perm cm).map _).map _
    have h4 : (cm.map Prod.snd).map keyV = ws := by
      rw [hws, List.map_map]
      conv_rhs => rw [← List.map_id ws]
      apply List.map_congr_left
      intro q _
      simp only [Function.comp, hkey, id]
    rw [h2] at h1
    rw [h4] at h3
    exact h1.trans h3

/-- Booking a whole amount under a category that is no inherited name, in a
category map of whole numbers whose total with the amount is at most `2 ^ 53`,
gives a category map of whole numbers whose total is the old total plus the
amount: no sum is rounded. -/
theorem Dashboard.addToCategory_whole (m : List (String × ChartValue)) (ws : List ℕ)
    (cat : String) (k : ℕ) (hcat : cat ∉ Dashboard.objectPrototypeNames)
    (hm : m.map Prod.snd = ws.map fun n : ℕ => ChartValue.number (n : ℚ))
    (hb : ws.sum + k ≤ 2 ^ 53) :
    ∃ ws' : List ℕ,
      (Dashboard.addToCategory m cat (k : ℚ)).map Prod.snd
        = ws'.map (fun n : ℕ => ChartValue.number (n : ℚ)) ∧
      ws'.sum = ws.sum + k := by
  have hp : cat ≠ "__proto__" := by
    intro h
    apply hcat
    rw [h]
    decide
  induction m generalizing ws with
  | nil =>
    have hws : ws = [] := by
      cases ws with
      | nil => rfl
      | cons w ws0 => simp at hm
    subst hws
    refine ⟨[k], ?_, by simp⟩
    simp only [Dashboard.addToCategory, if_neg hp, if_neg hcat, List.map_cons, List.map_nil,
      zero_add]
    rw [roundDouble_natCast k (by simpa using hb)]
  | cons kv rest ih =>
    obtain ⟨key, value⟩ := kv
    cases ws with
    | nil => simp at hm
    | cons w ws0 =>
      simp only [List.map_cons, List.cons.injEq] at hm
      obtain ⟨hv, hrest⟩ := hm
      simp only [List.sum_cons] at hb
      simp only [Dashboard.addToCategory]
      by_cases h : key = cat
      · rw [if_pos h]
        refine ⟨(w + k) :: ws0, ?_, by simp only [List.sum_cons]; omega⟩
        simp only [List.map_cons, hrest, hv, Dashboard.plusAmount]
        have e : ((w : ℚ) + (k : ℚ)) = ((w + k : ℕ) : ℚ) := by push_cast; ring
        rw [e, roundDouble_natCast (w + k) (by omega)]
      · rw [if_neg h]
        obtain ⟨ws1, h1, h2⟩ := ih ws0 hrest (by omega)
        refine ⟨w :: ws1, ?_, by simp only [List.sum_cons]; omega⟩
        simp only [List.map_cons, h1, hv]

/-- The magnitudes of the amounts of a list of transactions sum to a
non-negative number. -/
theorem Dashboard.sum_abs_amount_nonneg (ts : List Transaction) :
    0 ≤ ((ts.filterMap fun t => t.amount).map fun q => |q|).sum := by
  apply List.sum_nonneg
  intro x hx
  obtain ⟨q, _, rfl⟩ := List.mem_map.mp hx
  exact abs_nonneg q

/-- With whole amounts whose magnitudes sum to at most `2 ^ 53`, and no
inherited name among the categories of the expenses, no sum of the summary
loop is rounded: the income stays a whole number, the category values stay
whole numbers, and the expense is their total. -/
theorem Dashboard.foldl_summaryStep_whole (ts : List Transaction) (s : SummaryState) (B : ℚ)
    (hcat : ∀ t ∈ ts, (∃ amt, t.amount = some amt ∧ ¬ (t.type = some "income" ∨ amt > 0)) →
      Dashboard.categoryOf t ∉ Dashboard.objectPrototypeNames)
    (hwhole : ∀ t ∈ ts, ∀ q, t.amount = some q → ∃ n : ℤ, q = n)
    (hsum : B + ((ts.filterMap fun t => t.amount).map fun q => |q|).sum ≤ 2 ^ 53)
    (hs : ∃ (i : ℤ) (ws : List ℕ), s.income = i ∧
      s.categoryMap.map Prod.snd = ws.map (fun n : ℕ => ChartValue.number (n : ℚ)) ∧
      s.expense = (ws.sum : ℕ) ∧ |(i : ℚ)| + s.expense ≤ B) :
    ∃ (i : ℤ) (ws : List ℕ), (ts.foldl Dashboard.summaryStep s).income = i ∧
      (ts.foldl Dashboard.summaryStep s).categoryMap.map Prod.snd
        = ws.map (fun n : ℕ => ChartValue.number (n : ℚ)) ∧
      (ts.foldl Dashboard.summaryStep s).expense = (ws.sum : ℕ) ∧
      |(i : ℚ)| + (ts.foldl Dashboard.summaryStep s).expense ≤ 2 ^ 53 := by
  induction ts generalizing s B with
  | nil =>
    obtain ⟨i, ws, h1, h2, h3, h4⟩ := hs
    simp only [List.filterMap_nil, List.map_nil, List.sum_nil, add_zero] at hsum
    exact ⟨i, ws, h1, h2, h3, le_trans h4 hsum⟩
  | cons t rest ih =>
    have hrest := Dashboard.sum_abs_amount_nonneg rest
    have hcat' := fun u hu => hcat u (List.mem_cons_of_mem _ hu)
    have hwhole' := fun u hu => hwhole u (List.mem_cons_of_mem _ hu)
    rw [List.foldl_cons]
    cases ha : t.amount with
    | none =>
      rw [Dashboard.summaryStep_nan s t ha]
      rw [List.filterMap_cons, ha] at hsum
      exact ih s B hcat' hwhole' hsum hs
    | some q =>
      obtain ⟨n, hn⟩ := hwhole t (List.mem_cons_self _ _) q ha
      rw [List.filterMap_cons, ha] at hsum
      simp only [List.map_cons, List.sum_cons] at hsum
      obtain ⟨i, ws, h1, h2, h3, h4⟩ := hs
      have hws0 : (0 : ℚ) ≤ (ws.sum : ℕ) := by positivity
      have hi0 := abs_nonneg (i : ℚ)
      apply ih _ (B + |q|) hcat' hwhole' (by linarith)
      by_cases hc : t.type = some "income" ∨ q > 0
      · obtain ⟨e1, e2, e3⟩ := Dashboard.summaryStep_income s t q ha hc
        refine ⟨i + n, ws, ?_, ?_, ?_, ?_⟩
        · rw [e1, h1, hn]
          have hb : |(i + n : ℤ)| ≤ 2 ^ 53 := by
            have h5 : |((i + n : ℤ) : ℚ)| ≤ 2 ^ 53 := by
              push_cast
              have := abs_add (i : ℚ) (n : ℚ)
              rw [hn] at hsum
              rw [h3] at h4
              linarith
            exact_mod_cast h5
          have := roundDouble_intCast (i + n) hb
          push_cast at this ⊢
          exact this
        · rw [e3]; exact h2
        · rw [e2]; exact h3
        · rw [e2]
          push_cast
          have := abs_add (i : ℚ) (n : ℚ)
          rw [hn]
          linarith
      · obtain ⟨e1, e2, e3⟩ := Dashboard.summaryStep_expense s t q ha hc
        have hq : |q| = ((n.natAbs : ℕ) : ℚ) := by
          rw [hn]
          rw [Nat.cast_natAbs]
          push_cast
          rfl
        have hk : ws.sum + n.natAbs ≤ 2 ^ 53 := by
          have h5 : ((ws.sum + n.natAbs : ℕ) : ℚ) ≤ 2 ^ 53 := by
            rw [Nat.cast_add, ← hq, ← h3]
            linarith
          exact_mod_cast h5
        obtain ⟨ws', g1, g2⟩ := Dashboard.addToCategory_whole s.categoryMap ws
          (Dashboard.categoryOf t) n.natAbs (hcat t (List.mem_cons_self _ _) ⟨q, ha, hc⟩) h2 hk
        refine ⟨i, ws', ?_, ?_, ?_, ?_⟩
        · rw [e1]; exact h1
        · rw [e3, hq]; exact g1
        · rw [e2, h3, hq, g2]
          rw [← Nat.cast_add, roundDouble_natCast _ hk]
        · rw [e2, h3, hq]
          rw [← Nat.cast_add, roundDouble_natCast _ hk, Nat.cast_add, ← hq, ← h3]
          linarith

/-- Counterexample to C30 as stated, in the arithmetic of the code.  Three
expenses, `0.1` under `a`, `0.1` under `b` and `1.1` under `a` (the doubles
nearest to these decimals), give the expense `1.3` but the chart values
`1.2000000000000002` and `0.1`, which do not sum to the expense, neither
exactly nor after rounding the sum.  An expense of 5 under the category
`constructor` gives a chart value that is text, and under `__proto__` no chart
entry at all. -/
theorem dashboard_sum_counterexample :
    (Dashboard.summary
      [⟨some (-(3602879701896397 / 36028797018963968)),
          some (-(3602879701896397 / 36028797018963968)), none, some "a", ""⟩,
       ⟨some (-(3602879701896397 / 36028797018963968)),
          some (-(3602879701896397 / 36028797018963968)), none, some "b", ""⟩,
       ⟨some (-(2476979795053773 / 2251799813685248)),
          some (-(2476979795053773 / 2251799813685248)), none, some "a", ""⟩]).expense
      = 5854679515581645 / 4503599627370496 ∧
    (Dashboard.summary
      [⟨some (-(3602879701896397 / 36028797018963968)),
          some (-(3602879701896397 / 36028797018963968)), none, some "a", ""⟩,
       ⟨some (-(3602879701896397 / 36028797018963968)),
          some (-(3602879701896397 / 36028797018963968)), none, some "b", ""⟩,
       ⟨some (-(2476979795053773 / 2251799813685248)),
          some (-(2476979795053773 / 2251799813685248)), none, some "a", ""⟩]).chartData
      = [⟨"a", .number (1351079888211149 / 1125899906842624)⟩,
         ⟨"b", .number (3602879701896397 / 36028797018963968)⟩] ∧
    (1351079888211149 / 1125899906842624 + 3602879701896397 / 36028797018963968 : ℚ)
      ≠ 5854679515581645 / 4503599627370496 ∧
    roundDouble (1351079888211149 / 1125899906842624 + 3602879701896397 / 36028797018963968)
      ≠ 5854679515581645 / 4503599627370496 ∧
    (Dashboard.summary [⟨some (-5), some (-5), none, some "constructor", ""⟩]).expense = 5 ∧
    (Dashboard.summary [⟨some (-5), some (-5), none, some "constructor", ""⟩]).chartData
      = [⟨"constructor", .text⟩] ∧
    (Dashboard.summary [⟨some (-5), some (-5), none, some "__proto__", ""⟩]).expense = 5 ∧
    (Dashboard.summary [⟨some (-5), some (-5), none, some "__proto__", ""⟩]).chartData = [] := by
  have r1 : roundDouble (0 + 3602879701896397 / 36028797018963968 : ℚ)
      = 3602879701896397 / 36028797018963968 := by
    have := roundDouble_eq_of_near_pos (0 + 3602879701896397 / 36028797018963968) (-56)
      7205759403792794 (by norm_num) (by norm_num) (by norm_num) (by norm_num)
    rw [this]; norm_num
  have r2 : roundDouble (3602879701896397 / 36028797018963968
      + 3602879701896397 / 36028797018963968 : ℚ) = 3602879701896397 / 18014398509481984 := by
    have := roundDouble_eq_of_near_pos (3602879701896397 / 36028797018963968
      + 3602879701896397 / 36028797018963968) (-55)
      7205759403792794 (by norm_num) (by norm_num) (by norm_num) (by norm_num)
    rw [this]; norm_num
  have r3 : roundDouble (3602879701896397 / 18014398509481984
      + 2476979795053773 / 2251799813685248 : ℚ) = 5854679515581645 / 4503599627370496 := by
    have := roundDouble_eq_of_near_pos (3602879701896397 / 18014398509481984
      + 2476979795053773 / 2251799813685248) (-52)
      5854679515581645 (by norm_num) (by norm_num) (by norm_num) (by norm_num)
    rw [this]; norm_num
  have r4 : roundDouble (3602879701896397 / 36028797018963968
      + 2476979795053773 / 2251799813685248 : ℚ) = 1351079888211149 / 1125899906842624 := by
    have := roundDouble_eq_of_near_pos (3602879701896397 / 36028797018963968
      + 2476979795053773 / 2251799813685248) (-52)
      5404319552844596 (by norm_num) (by norm_num) (by norm_num) (by norm_num)
    rw [this]; norm_num
  have r5 : roundDouble (1351079888211149 / 1125899906842624
      + 3602879701896397 / 36028797018963968 : ℚ) = 2927339757790823 / 2251799813685248 := by
    have := roundDouble_eq_of_near_pos (1351079888211149 / 1125899906842624
      + 3602879701896397 / 36028797018963968) (-52)
      5854679515581646 (by norm_num) (by norm_num) (by norm_num) (by norm_num)
    rw [this]; norm_num
  have r6 : roundDouble (0 + 5 : ℚ) = 5 := by
    rw [zero_add]
    simpa using roundDouble_natCast 5 (by norm_num)
  have a1 : |(-(3602879701896397 / 36028797018963968) : ℚ)|
      = 3602879701896397 / 36028797018963968 := by
    rw [abs_neg, abs_of_pos (by norm_num)]
  have a2 : |(-(2476979795053773 / 2251799813685248) : ℚ)|
      = 2476979795053773 / 2251799813685248 := by
    rw [abs_neg, abs_of_pos (by norm_num)]
  have a3 : |(-5 : ℚ)| = 5 := by
    rw [abs_neg, abs_of_pos (by norm_num)]
  have ka : Dashboard.arrayIndex "a" = none := by decide
  have kb : Dashboard.arrayIndex "b" = none := by decide
  have kc : Dashboard.arrayIndex "constructor" = none := by decide
  have hdec : Dashboard.objectPrototypeNames
      = ["constructor", "__defineGetter__", "__defineSetter__", "hasOwnProperty",
         "__lookupGetter__", "__lookupSetter__", "isPrototypeOf", "propertyIsEnumerable",
         "toString", "valueOf", "__proto__", "toLocaleString"] := rfl
  have hcond : ∀ q : ℚ, 0 < q → ¬ ((none : Option String) = some "income" ∨ -q > 0) := by
    intro q hq h
    rcases h with h | h
    · exact Option.noConfusion h
    · linarith
  have f1 := Dashboard.summaryStep_expense ⟨0, 0, [], []⟩
    ⟨some (-(3602879701896397 / 36028797018963968)),
      some (-(3602879701896397 / 36028797018963968)), none, some "a", ""⟩
    (-(3602879701896397 / 36028797018963968)) rfl (hcond _ (by norm_num))
  have f2 := Dashboard.summaryStep_expense
    (Dashboard.summaryStep ⟨0, 0, [], []⟩
      ⟨some (-(3602879701896397 / 36028797018963968)),
        some (-(3602879701896397 / 36028797018963968)), none, some "a", ""⟩)
    ⟨some (-(3602879701896397 / 36028797018963968)),
      some (-(3602879701896397 / 36028797018963968)), none, some "b", ""⟩
    (-(3602879701896397 / 36028797018963968)) rfl (hcond _ (by norm_num))
  have f3 := Dashboard.summaryStep_expense
    (Dashboard.summaryStep (Dashboard.summaryStep ⟨0, 0, [], []⟩
      ⟨some (-(3602879701896397 / 36028797018963968)),
        some (-(3602879701896397 / 36028797018963968)), none, some "a", ""⟩)
      ⟨some (-(3602879701896397 / 36028797018963968)),
        some (-(3602879701896397 / 36028797018963968)), none, some "b", ""⟩)
    ⟨some (-(2476979795053773 / 2251799813685248)),
      some (-(2476979795053773 / 2251799813685248)), none, some "a", ""⟩
    (-(2476979795053773 / 2251799813685248)) rfl (hcond _ (by norm_num))
  have g1 := Dashboard.summaryStep_expense ⟨0, 0, [], []⟩
    ⟨some (-5), some (-5), none, some "constructor", ""⟩ (-5) rfl (hcond 5 (by norm_num))
  have g2 := Dashboard.summaryStep_expense ⟨0, 0, [], []⟩
    ⟨some (-5), some (-5), none, some "__proto__", ""⟩ (-5) rfl (hcond 5 (by norm_num))
  have hab : ("a" : String) ≠ "b" := by decide
  have hc1 : ("constructor" : String) ≠ "__proto__" := by decide
  have hc2 : "constructor" ∈ Dashboard.objectPrototypeNames := by decide
  have hn1 : ("a" : String) ≠ "__proto__" := by decide
  have hn2 : "a" ∉ Dashboard.objectPrototypeNames := by decide
  have hn3 : ("b" : String) ≠ "__proto__" := by decide
  have hn4 : "b" ∉ Dashboard.objectPrototypeNames := by decide
  refine ⟨?_, ?_, by norm_num, by rw [r5]; norm_num, ?_, ?_, ?_, ?_⟩
  · rw [Dashboard.summary_eq]
    simp only [List.foldl_cons, List.foldl_nil]
    rw [f3.2.1, f2.2.1, f1.2.1]
    simp only [a1, a2, r1, r2, r3]
  · rw [Dashboard.summary_eq]
    simp only [List.foldl_cons, List.foldl_nil]
    rw [f3.2.2, f2.2.2, f1.2.2]
    simp only [a1, a2, Dashboard.categoryOf]
    simp only [Dashboard.addToCategory, Dashboard.plusAmount, if_neg hn1, if_neg hn2,
      if_neg hn3, if_neg hn4, if_neg hab, if_true, r1, r4]
    simp [Dashboard.objectKeys, ka, kb, Dashboard.compareFn, roundDouble_nonpos_iff]
    norm_num
  · rw [Dashboard.summary_eq]
    simp only [List.foldl_cons, List.foldl_nil]
    rw [g1.2.1]
    simp only [a3, r6]
  · rw [Dashboard.summary_eq]
    simp only [List.foldl_cons, List.foldl_nil]
    rw [g1.2.2]
    simp only [Dashboard.categoryOf, Dashboard.addToCategory, if_neg hc1, if_pos hc2]
    simp [Dashboard.objectKeys, kc, Dashboard.compareFn]
  · rw [Dashboard.summary_eq]
    simp only [List.foldl_cons, List.foldl_nil]
    rw [g2.2.1]
    simp only [a3, r6]
  · rw [Dashboard.summary_eq]
    simp only [List.foldl_cons, List.foldl_nil]
    rw [g2.2.2]
    simp only [Dashboard.categoryOf, Dashboard.addToCategory, if_true]
    simp [Dashboard.objectKeys]

/-- Claim C30, amended: the invariant of the dashboard summary in the
arithmetic of the code.  For every list of transactions in which no expense is
booked under a name inherited from `Object.prototype`: the balance is the
rounded difference of income and expense; the expense is non-negative; the
chart has one entry per expense category, `Uncategorized` standing for a
missing category; the chart values are non-negative numbers in non-increasing
order; a transaction whose amount is not a number changes nothing; and the
empty list gives income, expense and balance 0 with empty chart and fraud list.
When moreover every amount is a whole number and the magnitudes of the amounts
sum to at most `2 ^ 53`, no sum is rounded: the chart values sum exactly to the
expense and the balance is exactly income minus expense. -/
theorem dashboard_summary_invariant (transactions : List Transaction)
    (hnames : ∀ t ∈ transactions,
      (∃ amt, t.amount = some amt ∧ ¬ (t.type = some "income" ∨ amt > 0)) →
      Dashboard.categoryOf t ∉ Dashboard.objectPrototypeNames) :
    (Dashboard.summary transactions).balance
      = roundDouble ((Dashboard.summary transactions).income
        - (Dashboard.summary transactions).expense) ∧
    0 ≤ (Dashboard.summary transactions).expense ∧
    ((Dashboard.summary transactions).chartData.map ChartEntry.name).Nodup ∧
    (∀ name, name ∈ (Dashboard.summary transactions).chartData.map ChartEntry.name ↔
      ∃ t ∈ transactions,
        (∃ amt, t.amount = some amt ∧ ¬ (t.type = some "income" ∨ amt > 0)) ∧
        Dashboard.categoryOf t = name) ∧
    (∀ t : Transaction, t.category = none → Dashboard.categoryOf t = "Uncategorized") ∧
    (∃ vs : List ℚ,
      (Dashboard.summary transactions).chartData.map ChartEntry.value
        = vs.map ChartValue.number ∧
      vs.Sorted (fun x y => x ≥ y) ∧ (∀ v ∈ vs, 0 ≤ v) ∧
      ((∀ t ∈ transactions, ∀ q, t.amount = some q → ∃ n : ℤ, q = n) →
        ((transactions.filterMap fun t => t.amount).map fun q => |q|).sum ≤ 2 ^ 53 →
        vs.sum = (Dashboard.summary transactions).expense ∧
        (Dashboard.summary transactions).balance
          = (Dashboard.summary transactions).income
            - (Dashboard.summary transactions).expense)) ∧
    (∀ (before after : List Transaction) (t : Transaction), t.amount = none →
      Dashboard.summary (before ++ t :: after) = Dashboard.summary (before ++ after)) ∧
    Dashboard.summary [] = ⟨0, 0, 0, [], []⟩ := by
  obtain ⟨h1, h2, h3⟩ := Dashboard.foldl_summaryStep_inv transactions ⟨0, 0, [], []⟩ hnames
    ⟨le_rfl, by simp, by simp⟩
  have hperm := List.perm_insertionSort (fun a b : ChartEntry => Dashboard.compareFn a b ≤ 0)
    ((Dashboard.objectKeys
      (transactions.foldl Dashboard.summaryStep ⟨0, 0, [], []⟩).categoryMap).map
      fun kv => ({ name := kv.1, value := kv.2 } : ChartEntry))
  have hkeys := Dashboard.objectKeys_perm
    (transactions.foldl Dashboard.summaryStep ⟨0, 0, [], []⟩).categoryMap
  have hnamesPerm : (((Dashboard.objectKeys
      (transactions.foldl Dashboard.summaryStep ⟨0, 0, [], []⟩).categoryMap).map
      fun kv => ({ name := kv.1, value := kv.2 } : ChartEntry)).map ChartEntry.name).Perm
      ((transactions.foldl Dashboard.summaryStep ⟨0, 0, [], []⟩).categoryMap.map Prod.fst) := by
    rw [List.map_map]
    exact hkeys.map _
  obtain ⟨vs, v1, v2, v3, v4⟩ := Dashboard.chart_sorted
    (transactions.foldl Dashboard.summaryStep ⟨0, 0, [], []⟩).categoryMap h3
  refine ⟨?_, ?_, ?_, ?_, ?_, ?_, ?_, ?_⟩
  · rw [Dashboard.summary_eq]
  · rw [Dashboard.summary_eq]; exact h1
  · rw [Dashboard.summary_eq]
    simp only []
    rw [((hperm.map ChartEntry.name).trans hnamesPerm).nodup_iff]
    exact h2
  · intro name
    rw [Dashboard.summary_eq]
    simp only []
    rw [((hperm.map ChartEntry.name).trans hnamesPerm).mem_iff,
      Dashboard.foldl_summaryStep_keys transactions ⟨0, 0, [], []⟩ hnames name]
    simp
  · intro t ht
    simp [Dashboard.categoryOf, ht]
  · refine ⟨vs, ?_, v2, v3, ?_⟩
    · rw [Dashboard.summary_eq]
      exact v1
    · intro hwhole hsum
      obtain ⟨i, ws, w1, w2, w3, w4⟩ := Dashboard.foldl_summaryStep_whole transactions
        ⟨0, 0, [], []⟩ 0 hnames hwhole (by rw [zero_add]; exact hsum)
        ⟨0, [], by simp, by simp, by simp, by simp⟩
      rw [Dashboard.summary_eq]
      simp only []
      constructor
      · have hp := v4 (ws.map fun n : ℕ => (n : ℚ)) (by rw [w2, List.map_map]; rfl)
        rw [hp.sum_eq, w3, Nat.cast_list_sum]
      · rw [w1, w3]
        have hb : |(i - (ws.sum : ℤ))| ≤ 2 ^ 53 := by
          have h5 : |((i - (ws.sum : ℤ) : ℤ) : ℚ)| ≤ 2 ^ 53 := by
            rw [w3] at w4
            have h6 : (0 : ℚ) ≤ ((ws.sum : ℕ) : ℚ) := by positivity
            have h7 := abs_sub (i : ℚ) ((ws.sum : ℕ) : ℚ)
            rw [abs_of_nonneg h6] at h7
            rw [Int.cast_sub, Int.cast_natCast]
            linarith
          exact_mod_cast h5
        have := roundDouble_intCast (i - (ws.sum : ℤ)) hb
        rw [Int.cast_sub, Int.cast_natCast] at this
        exact this
  · intro before after t ht
    have hstep : ∀ s, Dashboard.summaryStep s t = s :=
      fun s => Dashboard.summaryStep_nan s t ht
    rw [Dashboard.summary_eq, Dashboard.summary_eq, List.foldl_append, List.foldl_cons,
      hstep, List.foldl_append]
  · simp [Dashboard.summary]

/-- Witness for the amended C30 on three transactions, an expense of 100 on
food, an income of 500 and an entry whose amount is not a number: the expense
is non-negative and the chart names are distinct. -/
theorem dashboard_summary_invariant_witness :
    0 ≤ (Dashboard.summary
      [⟨some (-100), some (-100), none, some "food", "lunch"⟩,
       ⟨some 500, some 500, some "income", none, "salary"⟩,
       ⟨none, none, none, some "rent", ""⟩]).expense ∧
    ((Dashboard.summary
      [⟨some (-100), some (-100), none, some "food", "lunch"⟩,
       ⟨some 500, some 500, some "income", none, "salary"⟩,
       ⟨none, none, none, some "rent", ""⟩]).chartData.map ChartEntry.name).Nodup :=
  ⟨(dashboard_summary_invariant
      [⟨some (-100), some (-100), none, some "food", "lunch"⟩,
       ⟨some 500, some 500, some "income", none, "salary"⟩,
       ⟨none, none, none, some "rent", ""⟩]
      (by
        intro t ht _
        simp only [List.mem_cons, List.mem_singleton, List.not_mem_nil, or_false] at ht
        rcases ht with rfl | rfl | rfl <;> decide)).2.1,
    (dashboard_summary_invariant
      [⟨some (-100), some (-100), none, some "food", "lunch"⟩,
       ⟨some 500, some 500, some "income", none, "salary"⟩,
       ⟨none, none, none, some "rent", ""⟩]
      (by
        intro t ht _
        simp only [List.mem_cons, List.mem_singleton, List.not_mem_nil, or_false] at ht
        rcases ht with rfl | rfl | rfl <;> decide)).2.2.1⟩
